import Mathlib

/-!
# CompositeRegion: material property model and transient controller

Shallow embedding of `composite_region.cc` (classes `Material`,
`PorousMaterial` and `Heat_Pipe`), in two readings of the type `double`.

In the first reading every `double` is an element of a linearly ordered field
`α` and the arithmetic is exact; the theorems are stated for `α = ℝ`.  A
quotient is the quotient of the field, and infinities and NaN are not values
of this reading.  In the exit test of the convergence loop, where the NaN of
`0./0.` decides the control flow, that NaN is kept in a flag
(`IterationResult.total_error_is_nan`).

In the second reading (`Double`, functions with the suffix `_double`) a
`double` is a finite number, an infinity or NaN, and every operation rounds
to 53 bits.  It is used where a result depends on rounding, on an infinity or
on a NaN: the same property can hold in exact arithmetic and fail in double
precision.

The functions of `<math.h>` that the program calls are collected in the
record `Libm`; over the reals they are the functions of the same name from
analysis (`Libm.real`).  A C++ `throw -1` is `Except.error (-1)`.
-/

namespace CompositeRegion

/-- The functions of `<math.h>` called by the program. -/
structure Libm (α : Type) where
  pow : α → α → α
  exp : α → α
  log : α → α
  acos : α → α
  cos : α → α
  sin : α → α
  M_PI : α

/-- The real-analytic reading of `<math.h>`.  `pow` is the real power
function; it agrees with the C function on every positive base, and on the
exponents `0` and `1` for every base. -/
noncomputable def Libm.real : Libm ℝ where
  pow := fun x y => x ^ y
  exp := Real.exp
  log := Real.log
  acos := Real.arccos
  cos := Real.cos
  sin := Real.sin
  M_PI := Real.pi

/-- Data members of `class Material`. -/
structure Material (α : Type) where
  solids_thermal_conductivity : α
  solids_density : α
  solids_specific_heat_capacity : α

/-- Data members of `class PorousMaterial : public Material`. -/
structure PorousMaterial (α : Type) extends Material α where
  porosity : α
  degree_of_saturation : α
  liquid_thermal_conductivity : α
  liquid_density : α
  liquid_specific_heat_capacity : α
  gas_thermal_conductivity : α
  gas_density : α
  gas_specific_heat_capacity : α
  ice_thermal_conductivity : α
  ice_density : α
  ice_specific_heat_capacity : α
  freezing_point : α
  coefficient_alpha : α
  reference_temperature : α
  latent_heat_of_fusion : α

section Model

variable {α : Type} [LinearOrderedField α]

/-- The table `Material::material_data`:
material name, thermal conductivity, density, specific heat capacity. -/
def Material.material_data : List (String × α × α × α) :=
  [("dummy_1", 1, 2, 3),
   ("dummy_2", 4, 5, 6),
   ("quartz_1", 8.79, 2660.00, 2010.00),
   ("pvc_1", 0.22, 1200.00, 1200.00),
   ("glass_beads", 0.80, 2500.00, 1175.00),
   ("pvc_2", 0.16, 1440.00, 900.00)]

/-- `Material::Material(std::string material_name)`: the three members are
zeroed, then overwritten when the name is found in the table; when it is not
found a message is printed and the zeroed object is kept. -/
def Material.ofName (material_name : String) : Material α :=
  match (Material.material_data : List (String × α × α × α)).find?
      (fun e => e.1 == material_name) with
  | some e => ⟨e.2.1, e.2.2.1, e.2.2.2⟩
  | none => ⟨0, 0, 0⟩

/-- `Material::Material(double, double, double)`. -/
def Material.ofValues (solids_thermal_conductivity solids_density
    solids_specific_heat_capacity : α) : Material α :=
  ⟨solids_thermal_conductivity, solids_density, solids_specific_heat_capacity⟩

/-- The body shared by both `PorousMaterial` constructors: the base object,
porosity and saturation, then `init_liquid_gas_and_ice_parameters()` and
`init_freezing_parameters()`. -/
def PorousMaterial.init (base : Material α) (porosity degree_of_saturation : α) :
    PorousMaterial α where
  toMaterial := base
  porosity := porosity
  degree_of_saturation := degree_of_saturation
  liquid_thermal_conductivity := 0.57
  liquid_density := 1000.00
  liquid_specific_heat_capacity := 4186.00
  gas_thermal_conductivity := 0.025
  gas_density := 1.25
  gas_specific_heat_capacity := 1.256
  ice_thermal_conductivity := 2.22
  ice_density := 920.00
  ice_specific_heat_capacity := 1844.00
  freezing_point := 0.0
  coefficient_alpha := -5.0
  reference_temperature := 0.0
  latent_heat_of_fusion := 334000.0

/-- `PorousMaterial::PorousMaterial(std::string, double, double)`. -/
def PorousMaterial.ofName (material_name : String) (porosity degree_of_saturation : α) :
    PorousMaterial α :=
  PorousMaterial.init (Material.ofName material_name) porosity degree_of_saturation

/-- `PorousMaterial::PorousMaterial(double, double, double, double, double)`. -/
def PorousMaterial.ofValues (solids_thermal_conductivity solids_density
    solids_specific_heat_capacity porosity degree_of_saturation : α) : PorousMaterial α :=
  PorousMaterial.init
    (Material.ofValues solids_thermal_conductivity solids_density solids_specific_heat_capacity)
    porosity degree_of_saturation

/-- `PorousMaterial::set_liquid_properties`. -/
def PorousMaterial.set_liquid_properties (m : PorousMaterial α)
    (liquid_thermal_conductivity liquid_density liquid_specific_heat_capacity : α) :
    PorousMaterial α :=
  { m with
    liquid_thermal_conductivity := liquid_thermal_conductivity
    liquid_density := liquid_density
    liquid_specific_heat_capacity := liquid_specific_heat_capacity }

/-- `PorousMaterial::set_gas_properties`. -/
def PorousMaterial.set_gas_properties (m : PorousMaterial α)
    (gas_thermal_conductivity gas_density gas_specific_heat_capacity : α) :
    PorousMaterial α :=
  { m with
    gas_thermal_conductivity := gas_thermal_conductivity
    gas_density := gas_density
    gas_specific_heat_capacity := gas_specific_heat_capacity }

/-- `PorousMaterial::set_ice_properties`. -/
def PorousMaterial.set_ice_properties (m : PorousMaterial α)
    (ice_thermal_conductivity ice_density ice_specific_heat_capacity : α) :
    PorousMaterial α :=
  { m with
    ice_thermal_conductivity := ice_thermal_conductivity
    ice_density := ice_density
    ice_specific_heat_capacity := ice_specific_heat_capacity }

/-- `PorousMaterial::set_freezing_properties`. -/
def PorousMaterial.set_freezing_properties (m : PorousMaterial α)
    (freezing_point coefficient_alpha reference_temperature latent_heat_of_fusion : α) :
    PorousMaterial α :=
  { m with
    freezing_point := freezing_point
    coefficient_alpha := coefficient_alpha
    reference_temperature := reference_temperature
    latent_heat_of_fusion := latent_heat_of_fusion }

/-- `PorousMaterial::thermal_conductivity(const std::string relationship)`. -/
def PorousMaterial.thermal_conductivity (L : Libm α) (m : PorousMaterial α)
    (relationship : String) : Except Int α :=
  if relationship = "donazzi" then
    Except.ok
      (1 / (L.pow (1 / m.liquid_thermal_conductivity) m.porosity *
            L.pow (1 / m.solids_thermal_conductivity) (1 - m.porosity) *
            L.exp (3.08 * (1 - m.degree_of_saturation) * m.porosity)))
  else if relationship = "haigh" then
    let void_ratio := m.porosity / (1 - m.porosity)
    let E := (2 * void_ratio - 1) / 3
    let B := (1 / 3) *
      L.acos ((2 * (1 + 3 * E) * (1 - m.degree_of_saturation) - L.pow (1 + E) 3) /
        L.pow (1 + E) 3)
    let X := 0.5 * (1 + E) * (1 + L.cos B - L.pow 3 0.5 * L.sin B)
    let a_w := m.liquid_thermal_conductivity / m.solids_thermal_conductivity
    let a_a := m.gas_thermal_conductivity / m.solids_thermal_conductivity
    Except.ok
      (1.58 * m.solids_thermal_conductivity *
        (2 * L.pow (1 + E) 2 *
          ((a_w / L.pow (1 - a_w) 2) * L.log (((1 + E) + (a_w - 1) * X) / (E + a_w)) +
           (a_a / L.pow (1 - a_a) 2) * L.log ((1 + E) / ((1 + E) + (a_a - 1) * X)))
         + (2 * (1 + E) / ((1 - a_w) * (1 - a_a))) * ((a_w - a_a) * X - (1 - a_a) * a_w)))
  else if relationship = "bulk" then
    Except.ok m.solids_thermal_conductivity
  else
    Except.error (-1)

/-- `PorousMaterial::thermal_conductivity()`. -/
def PorousMaterial.thermal_conductivity_default (L : Libm α) (m : PorousMaterial α) :
    Except Int α :=
  m.thermal_conductivity L "donazzi"

/-- `PorousMaterial::degree_of_saturation_ice`. -/
def PorousMaterial.degree_of_saturation_ice (L : Libm α) (m : PorousMaterial α)
    (temperature : α) : α :=
  if temperature ≤ m.freezing_point then
    1 - L.pow (1 - (temperature - m.freezing_point)) m.coefficient_alpha
  else
    0

/-- `PorousMaterial::degree_of_saturation_ice_derivative`. -/
def PorousMaterial.degree_of_saturation_ice_derivative (L : Libm α) (m : PorousMaterial α)
    (temperature : α) : α :=
  if temperature ≤ m.freezing_point then
    m.coefficient_alpha *
      L.pow (1 - (temperature - m.freezing_point)) (m.coefficient_alpha - 1)
  else
    0

/-- `PorousMaterial::volumetric_heat_capacity`. -/
def PorousMaterial.volumetric_heat_capacity (L : Libm α) (m : PorousMaterial α)
    (temperature : α) : α :=
  let Hc :=
    (1 - m.degree_of_saturation_ice L temperature) *
      m.porosity * m.degree_of_saturation * m.liquid_specific_heat_capacity * m.liquid_density
    + m.porosity * m.gas_specific_heat_capacity * m.gas_density * (1 - m.degree_of_saturation)
    + m.solids_specific_heat_capacity * m.solids_density * (1 - m.porosity)
    + m.porosity * m.degree_of_saturation * m.degree_of_saturation_ice L temperature *
      m.ice_specific_heat_capacity * m.ice_density
  let a :=
    (temperature - m.reference_temperature) *
      (m.degree_of_saturation * m.ice_density * m.ice_specific_heat_capacity
        - m.degree_of_saturation * m.liquid_density * m.liquid_specific_heat_capacity)
  let b := m.degree_of_saturation * m.ice_density * m.latent_heat_of_fusion
  Hc + m.porosity * m.degree_of_saturation_ice_derivative L temperature * (a - b)

/-- `PorousMaterial::thermal_energy`. -/
def PorousMaterial.thermal_energy (L : Libm α) (m : PorousMaterial α)
    (temperature : α) : α :=
  let Hc :=
    (1 - m.degree_of_saturation_ice L temperature) *
      m.porosity * m.degree_of_saturation * m.liquid_specific_heat_capacity * m.liquid_density
    + m.porosity * m.gas_specific_heat_capacity * m.gas_density * (1 - m.degree_of_saturation)
    + m.solids_specific_heat_capacity * m.solids_density * (1 - m.porosity)
    + m.porosity * m.degree_of_saturation * m.degree_of_saturation_ice L temperature *
      m.ice_specific_heat_capacity * m.ice_density
  Hc * (temperature - m.reference_temperature)
    - m.latent_heat_of_fusion * m.porosity * m.degree_of_saturation *
      m.degree_of_saturation_ice L temperature * m.ice_density

/-- The argument of `acos` in the "haigh" branch of `thermal_conductivity`,
with the same `void_ratio` and `E`. -/
def PorousMaterial.haigh_acos_argument (L : Libm α) (m : PorousMaterial α) : α :=
  let void_ratio := m.porosity / (1 - m.porosity)
  let E := (2 * void_ratio - 1) / 3
  (2 * (1 + 3 * E) * (1 - m.degree_of_saturation) - L.pow (1 + E) 3) / L.pow (1 + E) 3

/-- The "haigh" branch of `thermal_conductivity` after the call of `acos`:
the value of the branch as a function of what `acos` returned. -/
def PorousMaterial.haigh_of_acos (L : Libm α) (m : PorousMaterial α) (acos_value : α) : α :=
  let void_ratio := m.porosity / (1 - m.porosity)
  let E := (2 * void_ratio - 1) / 3
  let B := (1 / 3) * acos_value
  let X := 0.5 * (1 + E) * (1 + L.cos B - L.pow 3 0.5 * L.sin B)
  let a_w := m.liquid_thermal_conductivity / m.solids_thermal_conductivity
  let a_a := m.gas_thermal_conductivity / m.solids_thermal_conductivity
  1.58 * m.solids_thermal_conductivity *
    (2 * L.pow (1 + E) 2 *
      ((a_w / L.pow (1 - a_w) 2) * L.log (((1 + E) + (a_w - 1) * X) / (E + a_w)) +
       (a_a / L.pow (1 - a_a) 2) * L.log ((1 + E) / ((1 + E) + (a_a - 1) * X)))
     + (2 * (1 + E) / ((1 - a_w) * (1 - a_a))) * ((a_w - a_a) * X - (1 - a_a) * a_w))

end Model

/-! ## The controller `Heat_Pipe`

The finite-element library (deal.II) and the file reader are external to the
program: their operations are the fields of the record `FiniteElements`, and
the vector and matrix objects they own are elements of the types `V` and `S`.
-/

/-- Modelled from the spec: the declaration of `Parameters::AllParameters`
is in the header `parameters.h`, which is not among the sources.  These are
the members of the run configuration that the functions below read, under
the names the source gives them. -/
structure AllParameters (α : Type) where
  theta : α
  timestep_number_max : Nat
  time_step : α
  thermal_conductivity_liquids : α
  thermal_conductivity_air : α
  boundary_condition_top : String
  fixed_at_bottom : Bool
  bottom_fixed_value : α
  point_source : Bool
  point_source_depth : α
  heat_loss_factor : α
  output_frequency : α
  domain_size : α
  refinement_level : α
  material_0_name : String
  material_0_porosity : α
  material_0_degree_of_saturation : α
  material_0_thermal_conductivity_relationship : String
  material_0_depth : α
  material_0_thickness : α
  material_1_name : String
  material_1_porosity : α
  material_1_degree_of_saturation : α
  material_1_thermal_conductivity_relationship : String
  material_1_depth : α
  material_1_thickness : α
  material_2_name : String
  material_2_porosity : α
  material_2_degree_of_saturation : α
  material_2_thermal_conductivity_relationship : String
  material_2_depth : α
  material_2_thickness : α
  material_3_name : String
  material_3_porosity : α
  material_3_degree_of_saturation : α
  material_3_thermal_conductivity_relationship : String
  material_3_depth : α
  material_3_thickness : α
  material_4_name : String
  material_4_porosity : α
  material_4_degree_of_saturation : α
  material_4_thermal_conductivity_relationship : String
  material_4_depth : α
  material_4_thickness : α

/-- Data members of `class Heat_Pipe`.  `linear_system` stands for the
matrices `system_matrix`, `mass_matrix`, `laplace_matrix_new`,
`laplace_matrix_old` and the vector `system_rhs`.  `layer_data` always holds
the five tuples pushed by the constructor. -/
structure Heat_Pipe (α V S : Type) where
  linear_system : S
  solution : V
  old_solution : V
  timestep_number_max : Nat
  timestep_number : Nat
  time : α
  time_step : α
  time_max : α
  theta_temperature : α
  parameters : AllParameters α
  met_data : List (List α)
  interpolated_temperature_surface : List (List α)
  interpolated_temperature_room : List (List α)
  depths_coordinates : List (List α)
  temperatures_at_points : List (List α)
  point_source_magnitudes : List (List α)
  old_room_temperature : α
  new_room_temperature : α
  old_surface_temperature : α
  new_surface_temperature : α
  old_point_source_magnitude : α
  new_point_source_magnitude : α
  column_thermal_energy : α
  thermal_conductivity_liquids : α
  thermal_conductivity_air : α
  layer_data : Fin 5 → String × α × α × String

/-- The four output arguments of `Heat_Pipe::material_data`. -/
structure MaterialData (α : Type) where
  thermal_conductivity : α
  total_volumetric_heat_capacity : α
  thermal_energy : α
  ice_saturation : α

/-- What the cell loop of `assemble_system_temperature` computes for one cell
before the quadrature loops: the outputs of `material_data` and the two heat
losses. -/
structure CellCoefficients (α : Type) where
  data : MaterialData α
  old_cell_heat_loss : α
  new_cell_heat_loss : α

/-- The operations of the finite-element library that the controller calls.
`active_cells` lists centre and diameter of every active cell of the mesh;
`assemble` is the quadrature, matrix and boundary-value part of
`assemble_system_temperature` and yields the new linear system together with
`solution` as `apply_boundary_values` leaves it; `solve` is the
preconditioned CG solve followed by `distribute`, and it may throw. -/
structure FiniteElements (α V S : Type) where
  empty_vector : V
  empty_system : S
  point_value : V → α → α
  l2_norm : V → α
  active_cells : List (α × α)
  assemble : Heat_Pipe α V S → List (CellCoefficients α) → S × V
  solve : S → V → Except Int V

/-- The file reading of `update_met_data`, done by the external `DataTools`.
`load_met_data` is the block guarded by `met_data.size()==0`: it yields
`met_data` and the two interpolated tables.  `load_point_source` is the block
guarded by `point_source_magnitudes.size()==0`. -/
structure DataFiles (α V S : Type) where
  load_met_data :
    Heat_Pipe α V S → Except Int (List (List α) × List (List α) × List (List α))
  load_point_source : Heat_Pipe α V S → Except Int (List (List α))

/-- What one pass through the body of the `do ... while` loop of `run`
leaves behind: the object after `assemble_system_temperature`, the object
after `solve_temperature`, and `total_error`.  The variable `total_error` is
a `double` and can be NaN: `total_error_is_nan` says that it is, and
`total_error` is its value when it is not. -/
structure IterationResult (α V S : Type) where
  assembled : Heat_Pipe α V S
  state : Heat_Pipe α V S
  total_error : α
  total_error_is_nan : Bool

section Controller

variable {α V S : Type} [LinearOrderedField α]

/-- The object that `Heat_Pipe::Heat_Pipe` leaves behind when it does not
throw: the members copied from the parameters, the zeroed scalars and the
five tuples of `layer_data`. -/
def Heat_Pipe.init (fe : FiniteElements α V S) (parameters : AllParameters α)
    (depths_coordinates : List (List α)) : Heat_Pipe α V S where
  linear_system := fe.empty_system
  solution := fe.empty_vector
  old_solution := fe.empty_vector
  timestep_number_max := parameters.timestep_number_max
  timestep_number := 0
  time := 0
  time_step := parameters.time_step
  time_max := parameters.time_step * parameters.timestep_number_max
  theta_temperature := parameters.theta
  parameters := parameters
  met_data := []
  interpolated_temperature_surface := []
  interpolated_temperature_room := []
  depths_coordinates := depths_coordinates
  temperatures_at_points := []
  point_source_magnitudes := []
  old_room_temperature := 0
  new_room_temperature := 0
  old_surface_temperature := 0
  new_surface_temperature := 0
  old_point_source_magnitude := 0
  new_point_source_magnitude := 0
  column_thermal_energy := 0
  thermal_conductivity_liquids := parameters.thermal_conductivity_liquids
  thermal_conductivity_air := parameters.thermal_conductivity_air
  layer_data := fun i =>
    match i with
    | 0 => (parameters.material_0_name, parameters.material_0_porosity,
        parameters.material_0_degree_of_saturation,
        parameters.material_0_thermal_conductivity_relationship)
    | 1 => (parameters.material_1_name, parameters.material_1_porosity,
        parameters.material_1_degree_of_saturation,
        parameters.material_1_thermal_conductivity_relationship)
    | 2 => (parameters.material_2_name, parameters.material_2_porosity,
        parameters.material_2_degree_of_saturation,
        parameters.material_2_thermal_conductivity_relationship)
    | 3 => (parameters.material_3_name, parameters.material_3_porosity,
        parameters.material_3_degree_of_saturation,
        parameters.material_3_thermal_conductivity_relationship)
    | 4 => (parameters.material_4_name, parameters.material_4_porosity,
        parameters.material_4_degree_of_saturation,
        parameters.material_4_thermal_conductivity_relationship)

/-- `Heat_Pipe::Heat_Pipe(int argc, char *argv[])`.  Parsing the input file
and reading the depth file are external: their results are the arguments
`parameters` and `depths_coordinates`, and `output_file_is_open` is the
result of opening the output file.  A wrong argument count and an output
file that does not open throw `1`.  When `boundary_condition_top` is none of
"first", "second", "third" the constructor only prints a message, so the
test has no branch here. -/
def Heat_Pipe.new (fe : FiniteElements α V S) (argc : Int) (parameters : AllParameters α)
    (depths_coordinates : List (List α)) (output_file_is_open : Bool) :
    Except Int (Heat_Pipe α V S) :=
  if argc ≠ 2 then
    Except.error 1
  else if ¬ output_file_is_open then
    Except.error 1
  else
    Except.ok (Heat_Pipe.init fe parameters depths_coordinates)

/-- The layer lookup at the head of `Heat_Pipe::material_data`: the chain of
comparisons that sets `layer_number`, or throws `-1` ("Cell centre not
found"). -/
def Heat_Pipe.layer_number (parameters : AllParameters α) (cell_center : α) :
    Except Int (Fin 5) :=
  if cell_center > -1 * (parameters.material_0_depth + parameters.material_0_thickness) then
    Except.ok 0
  else if cell_center ≤ -1 * parameters.material_1_depth ∧
      cell_center > -1 * (parameters.material_1_depth + parameters.material_1_thickness) then
    Except.ok 1
  else if cell_center ≤ -1 * parameters.material_2_depth ∧
      cell_center > -1 * (parameters.material_2_depth + parameters.material_2_thickness) then
    Except.ok 2
  else if cell_center ≤ -1 * parameters.material_3_depth ∧
      cell_center > -1 * (parameters.material_3_depth + parameters.material_3_thickness) then
    Except.ok 3
  else if cell_center ≤ -1 * parameters.material_4_depth then
    Except.ok 4
  else
    Except.error (-1)

/-- `Heat_Pipe::material_data`. -/
def Heat_Pipe.material_data (L : Libm α) (fe : FiniteElements α V S) (hp : Heat_Pipe α V S)
    (cell_center cell_temperature cell_diameter : α) : Except Int (MaterialData α) :=
  match Heat_Pipe.layer_number hp.parameters cell_center with
  | Except.error e => Except.error e
  | Except.ok layer_number =>
    let material_name := (hp.layer_data layer_number).1
    let porosity := (hp.layer_data layer_number).2.1
    let degree_of_saturation := (hp.layer_data layer_number).2.2.1
    let relationship := (hp.layer_data layer_number).2.2.2
    let porous_material : PorousMaterial α :=
      PorousMaterial.ofName material_name porosity degree_of_saturation
    match porous_material.thermal_conductivity L relationship with
    | Except.error e => Except.error e
    | Except.ok thermal_conductivity =>
      let total_volumetric_heat_capacity :=
        porous_material.volumetric_heat_capacity L cell_temperature
      let ice_saturation := porous_material.degree_of_saturation_ice L cell_temperature
      let thermal_energy :=
        cell_diameter *
          porous_material.thermal_energy L
            (hp.theta_temperature * fe.point_value hp.solution cell_center +
              (1 - hp.theta_temperature) * fe.point_value hp.old_solution cell_center)
      if thermal_conductivity < 0 ∨ total_volumetric_heat_capacity < 0 then
        Except.error (-1)
      else
        Except.ok
          { thermal_conductivity := thermal_conductivity
            total_volumetric_heat_capacity := total_volumetric_heat_capacity
            thermal_energy := thermal_energy
            ice_saturation := ice_saturation }

/-- The material that `material_data` builds for layer `i`: the
`PorousMaterial` of the name, porosity and saturation in `layer_data[i]`. -/
def Heat_Pipe.layer_material (hp : Heat_Pipe α V S) (i : Fin 5) : PorousMaterial α :=
  PorousMaterial.ofName (hp.layer_data i).1 (hp.layer_data i).2.1 (hp.layer_data i).2.2.1

/-- The relationship name in `layer_data[i]`. -/
def Heat_Pipe.layer_relationship (hp : Heat_Pipe α V S) (i : Fin 5) : String :=
  (hp.layer_data i).2.2.2

/-- `Heat_Pipe::thermal_losses`. -/
def Heat_Pipe.thermal_losses (hp : Heat_Pipe α V S) (temperature_gradient : α) : α :=
  let convective_coefficient := hp.parameters.heat_loss_factor
  (-1) * convective_coefficient * temperature_gradient

/-- `Heat_Pipe::assemble_system_temperature`.  The cell loop computes the
average cell temperature, the two heat losses and `material_data` for every
active cell and accumulates `column_thermal_energy` from zero; the matrices,
the right-hand side and the boundary values are left to `fe.assemble`. -/
def Heat_Pipe.assemble_system_temperature (L : Libm α) (fe : FiniteElements α V S)
    (hp : Heat_Pipe α V S) : Except Int (Heat_Pipe α V S) :=
  match fe.active_cells.mapM (fun cell =>
      let average_cell_temperature :=
        hp.theta_temperature * fe.point_value hp.solution cell.1 +
          (1 - hp.theta_temperature) * fe.point_value hp.old_solution cell.1
      let old_cell_heat_loss :=
        hp.thermal_losses (average_cell_temperature - hp.old_room_temperature)
      let new_cell_heat_loss :=
        hp.thermal_losses (average_cell_temperature - hp.new_room_temperature)
      match hp.material_data L fe cell.1 average_cell_temperature cell.2 with
      | Except.error e => Except.error e
      | Except.ok data =>
        Except.ok
          ({ data := data
             old_cell_heat_loss := old_cell_heat_loss
             new_cell_heat_loss := new_cell_heat_loss } : CellCoefficients α)) with
  | Except.error e => Except.error e
  | Except.ok cells =>
    let column_thermal_energy :=
      cells.foldl (fun energy cell => energy + cell.data.thermal_energy) 0
    let hp1 := { hp with column_thermal_energy := column_thermal_energy }
    Except.ok
      { hp1 with
        linear_system := (fe.assemble hp1 cells).1
        solution := (fe.assemble hp1 cells).2 }

/-- `Heat_Pipe::solve_temperature`. -/
def Heat_Pipe.solve_temperature (fe : FiniteElements α V S) (hp : Heat_Pipe α V S) :
    Except Int (Heat_Pipe α V S) :=
  match fe.solve hp.linear_system hp.solution with
  | Except.error e => Except.error e
  | Except.ok solution => Except.ok { hp with solution := solution }

/-- The body of the `do ... while` loop of `Heat_Pipe::run`, up to the
assignment of `total_error`.  When both norms are `0` the quotient `0./0.` of
the program is NaN, and so is `total_error`: that is `total_error_is_nan`.
When only the new norm is `0` the quotient of the program is infinite and
`total_error` is minus infinity; the quotient of the field is `0` there and
gives `total_error = 1`, which the loop test treats in the same way. -/
def Heat_Pipe.iteration_body (L : Libm α) (fe : FiniteElements α V S)
    (hp : Heat_Pipe α V S) : Except Int (IterationResult α V S) :=
  match hp.assemble_system_temperature L fe with
  | Except.error e => Except.error e
  | Except.ok assembled =>
    let solution_l1_norm_previous_iteration := fe.l2_norm assembled.solution
    match assembled.solve_temperature fe with
    | Except.error e => Except.error e
    | Except.ok state =>
      let solution_l1_norm_current_iteration := fe.l2_norm state.solution
      Except.ok
        { assembled := assembled
          state := state
          total_error :=
            1 - |solution_l1_norm_previous_iteration / solution_l1_norm_current_iteration|
          total_error_is_nan :=
            decide (solution_l1_norm_previous_iteration = 0 ∧
              solution_l1_norm_current_iteration = 0) }

/-- The `do ... while (std::fabs(total_error)>5E-4)` loop of `Heat_Pipe::run`,
with the counter `iteration`.  A comparison with NaN is false, so the test
holds when `total_error` is a number whose absolute value is above `5E-4`.
The loop has no bound of its own; `fuel` bounds the number of passes the
model follows, and `none` says that the loop is still running after `fuel`
passes. -/
def Heat_Pipe.converge (L : Libm α) (fe : FiniteElements α V S) :
    Nat → Heat_Pipe α V S → Nat → Option (Except Int (Heat_Pipe α V S × Nat))
  | 0, _, _ => none
  | fuel + 1, hp, iteration =>
    match hp.iteration_body L fe with
    | Except.error e => some (Except.error e)
    | Except.ok r =>
      if r.total_error_is_nan = false ∧ |r.total_error| > 5e-4 then
        Heat_Pipe.converge L fe fuel r.state (iteration + 1)
      else
        some (Except.ok (r.state, iteration + 1))

/-- The passes of the loop body one after the other, whatever the exit test
says: `iterates j` is the result of pass number `j + 1`. -/
def Heat_Pipe.iterates (L : Libm α) (fe : FiniteElements α V S) :
    Heat_Pipe α V S → Nat → Except Int (IterationResult α V S)
  | hp, 0 => hp.iteration_body L fe
  | hp, j + 1 =>
    match hp.iteration_body L fe with
    | Except.error e => Except.error e
    | Except.ok r => Heat_Pipe.iterates L fe r.state j

/-- The value of `timestep_number-1` in `unsigned int` arithmetic. -/
def unsigned_pred (timestep_number : Nat) : Nat :=
  (timestep_number + 4294967295) % 4294967296

/-- The element `table[i][j]` of a table read from a file.  An access outside
the table is undefined in the program; here it ends the run with code `0`. -/
def table_entry (table : List (List α)) (i j : Nat) : Except Int α :=
  match table[i]? with
  | none => Except.error 0
  | some row =>
    match row[j]? with
    | none => Except.error 0
    | some x => Except.ok x

/-- `Heat_Pipe::update_met_data`.  The first block sets the four boundary
temperatures when the top boundary type is "first" or "third"; the second
block sets the two point-source magnitudes when the point source is on.  An
error of a file block or of a table access ends the function. -/
def Heat_Pipe.update_met_data (L : Libm α) (files : DataFiles α V S)
    (hp : Heat_Pipe α V S) : Except Int (Heat_Pipe α V S) :=
  (if hp.parameters.boundary_condition_top = "first" ∨
      hp.parameters.boundary_condition_top = "third" then
    (if hp.met_data.length = 0 then
      files.load_met_data hp >>= fun tables =>
        Except.ok
          { hp with
            met_data := tables.1
            interpolated_temperature_surface := tables.2.1
            interpolated_temperature_room := tables.2.2 }
    else
      Except.ok hp) >>= fun hp1 =>
    Except.ok
      { hp1 with
        old_room_temperature :=
          15 + 10 * L.cos ((2 * L.M_PI / 86400) *
            ((unsigned_pred hp1.timestep_number : α) * hp1.time_step - 54000))
        new_room_temperature :=
          15 + 10 * L.cos ((2 * L.M_PI / 86400) *
            ((hp1.timestep_number : α) * hp1.time_step - 54000))
        old_surface_temperature :=
          15 + 10 * L.cos ((2 * L.M_PI / 86400) *
            ((unsigned_pred hp1.timestep_number : α) * hp1.time_step - 54000))
        new_surface_temperature :=
          15 + 10 * L.cos ((2 * L.M_PI / 86400) *
            ((hp1.timestep_number : α) * hp1.time_step - 54000)) }
  else
    Except.ok hp) >>= fun hp2 =>
  if hp2.parameters.point_source = true then
    (if hp2.point_source_magnitudes.length = 0 then
      files.load_point_source hp2 >>= fun table =>
        Except.ok { hp2 with point_source_magnitudes := table }
    else
      Except.ok hp2) >>= fun hp3 =>
    table_entry hp3.point_source_magnitudes (unsigned_pred hp3.timestep_number) 1 >>=
      fun old_entry =>
    table_entry hp3.point_source_magnitudes hp3.timestep_number 1 >>= fun new_entry =>
    Except.ok
      { hp3 with
        old_point_source_magnitude :=
          -old_entry * L.sin ((2 * L.M_PI / 86400) *
            ((unsigned_pred hp3.timestep_number : α) * hp3.time_step - 54000))
        new_point_source_magnitude :=
          -new_entry * L.sin ((2 * L.M_PI / 86400) *
            ((hp3.timestep_number : α) * hp3.time_step - 54000)) }
  else
    Except.ok hp2

/-- `Heat_Pipe::output_results`: the ice saturation of every active cell,
which is what the function hands to the file writer. -/
def Heat_Pipe.output_results (L : Libm α) (fe : FiniteElements α V S)
    (hp : Heat_Pipe α V S) : Except Int (List α) :=
  fe.active_cells.mapM (fun cell =>
    let average_cell_temperature :=
      hp.theta_temperature * fe.point_value hp.solution cell.1 +
        (1 - hp.theta_temperature) * fe.point_value hp.old_solution cell.1
    match hp.material_data L fe cell.1 average_cell_temperature cell.2 with
    | Except.error e => Except.error e
    | Except.ok data => Except.ok data.ice_saturation)

/-- `Heat_Pipe::fill_output_vectors` for `dim = 1`: the temperatures at the
depths of the third column of `depths_coordinates` are appended to
`temperatures_at_points`; the line written to the output file is not kept. -/
def Heat_Pipe.fill_output_vectors (fe : FiniteElements α V S) (hp : Heat_Pipe α V S) :
    Except Int (Heat_Pipe α V S) :=
  match hp.depths_coordinates.mapM (fun row =>
      match row[2]? with
      | none => Except.error 0
      | some depth => Except.ok (fe.point_value hp.solution (-1 * depth))) with
  | Except.error e => Except.error e
  | Except.ok temp_vector =>
    Except.ok { hp with temperatures_at_points := hp.temperatures_at_points ++ [temp_vector] }

/-- The body of the time loop of `Heat_Pipe::run` for one value of
`timestep_number`: `update_met_data`, the convergence loop, the advance of
`time`, the output, and the assignment `old_solution=solution`.  The result
carries the local counter `output_count`. -/
def Heat_Pipe.run_time_step (L : Libm α) (fe : FiniteElements α V S) (files : DataFiles α V S)
    (fuel : Nat) (hp : Heat_Pipe α V S) (output_count : Nat) :
    Option (Except Int (Heat_Pipe α V S × Nat)) :=
  match hp.update_met_data L files with
  | Except.error e => some (Except.error e)
  | Except.ok hp0 =>
    match Heat_Pipe.converge L fe fuel hp0 0 with
    | none => none
    | some (Except.error e) => some (Except.error e)
    | some (Except.ok (hp1, _)) =>
      let hp2 : Heat_Pipe α V S := { hp1 with time := hp1.time + hp1.time_step }
      let written : Except Int Nat :=
        if hp2.parameters.output_frequency ≠ 0 ∧
            hp2.time > (output_count : α) * hp2.parameters.output_frequency then
          match hp2.output_results L fe with
          | Except.error e => Except.error e
          | Except.ok _ => Except.ok (output_count + 1)
        else
          Except.ok output_count
      match written with
      | Except.error e => some (Except.error e)
      | Except.ok output_count1 =>
        match hp2.fill_output_vectors fe with
        | Except.error e => some (Except.error e)
        | Except.ok hp3 => some (Except.ok ({ hp3 with old_solution := hp3.solution }, output_count1))

/-- The block of `Heat_Pipe::run` that prints the position of the material
layers: five calls of `material_data`, one at the middle of every layer, all
with the temperature `25` and the same cell diameter.  The result lists the
outputs of the five calls. -/
def Heat_Pipe.run_print_layers (L : Libm α) (fe : FiniteElements α V S)
    (hp : Heat_Pipe α V S) : Except Int (List (MaterialData α)) :=
  let cell_diameter := hp.parameters.domain_size / L.pow hp.parameters.refinement_level 2
  hp.material_data L fe
      (-hp.parameters.material_0_depth - 0.5 * hp.parameters.material_0_thickness)
      25 cell_diameter >>= fun out0 =>
  hp.material_data L fe
      (-hp.parameters.material_1_depth - 0.5 * hp.parameters.material_1_thickness)
      25 cell_diameter >>= fun out1 =>
  hp.material_data L fe
      (-hp.parameters.material_2_depth - 0.5 * hp.parameters.material_2_thickness)
      25 cell_diameter >>= fun out2 =>
  hp.material_data L fe
      (-hp.parameters.material_3_depth - 0.5 * hp.parameters.material_3_thickness)
      25 cell_diameter >>= fun out3 =>
  hp.material_data L fe
      (-hp.parameters.material_4_depth - 0.5 * hp.parameters.material_4_thickness)
      25 cell_diameter >>= fun out4 =>
  Except.ok [out0, out1, out2, out3, out4]

/-- The energy of one cell as the specification words it: the cell diameter
times `thermal_energy`, of the material of the layer resolved at the cell
centre, at the blend `theta * T_new + (1 - theta) * T_old` of the current and
the old field at the cell centre.  A cell whose centre is in no layer has no
term. -/
def Heat_Pipe.spec_cell_thermal_energy (L : Libm α) (fe : FiniteElements α V S)
    (hp : Heat_Pipe α V S) (cell : α × α) : α :=
  match Heat_Pipe.layer_number hp.parameters cell.1 with
  | Except.error _ => 0
  | Except.ok i =>
    cell.2 * (hp.layer_material i).thermal_energy L
      (hp.theta_temperature * fe.point_value hp.solution cell.1 +
        (1 - hp.theta_temperature) * fe.point_value hp.old_solution cell.1)

/-- The column thermal energy as the specification words it: the sum of the
cell energies over all active cells. -/
def Heat_Pipe.spec_column_thermal_energy (L : Libm α) (fe : FiniteElements α V S)
    (hp : Heat_Pipe α V S) : α :=
  (fe.active_cells.map (hp.spec_cell_thermal_energy L fe)).sum

/-- A run configuration for the examples: five layers of thickness `1` whose
tops are at the depths `0, 1, 2, 3, 4`, filled with the materials of the
table, with the "bulk" relationship and top boundary type "first". -/
def AllParameters.unit_layers : AllParameters α where
  theta := 1
  timestep_number_max := 1
  time_step := 1
  thermal_conductivity_liquids := 0.57
  thermal_conductivity_air := 0.025
  boundary_condition_top := "first"
  fixed_at_bottom := false
  bottom_fixed_value := 0
  point_source := false
  point_source_depth := 0
  heat_loss_factor := 0
  output_frequency := 0
  domain_size := 5
  refinement_level := 1
  material_0_name := "dummy_1"
  material_0_porosity := 0
  material_0_degree_of_saturation := 0
  material_0_thermal_conductivity_relationship := "bulk"
  material_0_depth := 0
  material_0_thickness := 1
  material_1_name := "dummy_2"
  material_1_porosity := 0
  material_1_degree_of_saturation := 0
  material_1_thermal_conductivity_relationship := "bulk"
  material_1_depth := 1
  material_1_thickness := 1
  material_2_name := "quartz_1"
  material_2_porosity := 0
  material_2_degree_of_saturation := 0
  material_2_thermal_conductivity_relationship := "bulk"
  material_2_depth := 2
  material_2_thickness := 1
  material_3_name := "pvc_1"
  material_3_porosity := 0
  material_3_degree_of_saturation := 0
  material_3_thermal_conductivity_relationship := "bulk"
  material_3_depth := 3
  material_3_thickness := 1
  material_4_name := "glass_beads"
  material_4_porosity := 0
  material_4_degree_of_saturation := 0
  material_4_thermal_conductivity_relationship := "bulk"
  material_4_depth := 4
  material_4_thickness := 1

/-- The configuration `unit_layers` with the material of layer 0 replaced by
a name that is not in the material table. -/
def AllParameters.unknown_layers : AllParameters α :=
  { (AllParameters.unit_layers : AllParameters α) with material_0_name := "sand" }

/-- A finite-element library for the examples: the field is one number, its
norm is the absolute value, `assemble` leaves `solution` as it is, and the
solver is the argument `solve`. -/
def FiniteElements.scalar (cells : List (α × α)) (solve : α → Except Int α) :
    FiniteElements α α Unit where
  empty_vector := 0
  empty_system := ()
  point_value := fun v _ => v
  l2_norm := fun v => |v|
  active_cells := cells
  assemble := fun hp _ => ((), hp.solution)
  solve := fun _ v => solve v

/-- A controller state for the examples: the object the constructor builds
for `unit_layers` with top boundary type "second", over the one-number
library, with `solution = 1` and `old_solution = 2`. -/
def Heat_Pipe.unit_field : Heat_Pipe α α Unit :=
  { Heat_Pipe.init (FiniteElements.scalar [] Except.ok)
      { (AllParameters.unit_layers : AllParameters α) with boundary_condition_top := "second" }
      [] with
    solution := 1
    old_solution := 2 }

/-- A controller state for the examples at the first time step: the object
the constructor builds for `unit_layers` (top boundary type "first", no point
source), with `timestep_number = 1` and a surface table already read. -/
def Heat_Pipe.first_step : Heat_Pipe α α Unit :=
  { Heat_Pipe.init (FiniteElements.scalar [] Except.ok)
      (AllParameters.unit_layers : AllParameters α) [] with
    timestep_number := 1
    met_data := [[0, 1, 2], [1, 3, 4]] }

/-- No input files: every file block fails with code `1`. -/
def DataFiles.missing : DataFiles α V S where
  load_met_data := fun _ => Except.error 1
  load_point_source := fun _ => Except.error 1

end Controller

/-! ## Double precision

The part above reads `double` as an exact number.  Where the result of the
program depends on the rounding of an operation, or on an infinity or a NaN,
the same functions are read here in double-precision arithmetic, under the
name of the source with the suffix `_double`.  A `double` is a finite number,
plus or minus infinity, or NaN (`Double`).  Every arithmetic operation rounds
its exact result to the nearest number with a significand of 53 bits, a tie
going to the even significand (`round_to_double`); a decimal literal is the
`double` nearest to it; a comparison with NaN is false.  The range of the
exponent is not bounded, so there is no overflow to infinity and no gradual
underflow, and the sign of a zero is not kept: a quotient by zero has the
sign of the dividend.  The functions of `<math.h>` are again the fields of a
record `Libm`, now over `Double`.
-/

/-- A value of the C++ type `double`. -/
inductive Double (α : Type) where
  | fin (x : α)
  | pinf
  | ninf
  | nan
  deriving DecidableEq

section DoublePrecision

variable {α : Type} [LinearOrderedField α] [FloorRing α]

/-- Rounding to the nearest integer, a tie going to the even one. -/
def round_ties_to_even (x : α) : ℤ :=
  if x - ⌊x⌋ < 1 / 2 then ⌊x⌋
  else if 1 / 2 < x - ⌊x⌋ then ⌊x⌋ + 1
  else if ⌊x⌋ % 2 = 0 then ⌊x⌋
  else ⌊x⌋ + 1

/-- The `double` nearest to `x`: with `2 ^ e ≤ |x| < 2 ^ (e + 1)`, the
multiple of `2 ^ (e - 52)` nearest to `x`, ties to even. -/
def round_to_double (x : α) : α :=
  if x = 0 then 0
  else
    (round_ties_to_even (x / 2 ^ (Int.log 2 |x| - 52)) : α) * 2 ^ (Int.log 2 |x| - 52)

/-- Unary minus. -/
def Double.neg : Double α → Double α
  | Double.fin x => Double.fin (-x)
  | Double.pinf => Double.ninf
  | Double.ninf => Double.pinf
  | Double.nan => Double.nan

/-- The sum of two `double`s; infinity minus infinity is NaN. -/
def Double.add : Double α → Double α → Double α
  | Double.fin x, Double.fin y => Double.fin (round_to_double (x + y))
  | Double.fin _, Double.pinf => Double.pinf
  | Double.fin _, Double.ninf => Double.ninf
  | Double.pinf, Double.fin _ => Double.pinf
  | Double.pinf, Double.pinf => Double.pinf
  | Double.ninf, Double.fin _ => Double.ninf
  | Double.ninf, Double.ninf => Double.ninf
  | _, _ => Double.nan

/-- The difference of two `double`s; infinity minus infinity is NaN. -/
def Double.sub : Double α → Double α → Double α
  | Double.fin x, Double.fin y => Double.fin (round_to_double (x - y))
  | Double.fin _, Double.pinf => Double.ninf
  | Double.fin _, Double.ninf => Double.pinf
  | Double.pinf, Double.fin _ => Double.pinf
  | Double.pinf, Double.ninf => Double.pinf
  | Double.ninf, Double.fin _ => Double.ninf
  | Double.ninf, Double.pinf => Double.ninf
  | _, _ => Double.nan

/-- The product of an infinity with the sign `sign_positive` and the finite
number `x`; zero times infinity is NaN. -/
def Double.mul_inf (sign_positive : Bool) (x : α) : Double α :=
  if x = 0 then Double.nan
  else if 0 < x then (if sign_positive then Double.pinf else Double.ninf)
  else (if sign_positive then Double.ninf else Double.pinf)

/-- The product of two `double`s. -/
def Double.mul : Double α → Double α → Double α
  | Double.fin x, Double.fin y => Double.fin (round_to_double (x * y))
  | Double.fin x, Double.pinf => Double.mul_inf true x
  | Double.fin x, Double.ninf => Double.mul_inf false x
  | Double.pinf, Double.fin y => Double.mul_inf true y
  | Double.ninf, Double.fin y => Double.mul_inf false y
  | Double.pinf, Double.pinf => Double.pinf
  | Double.pinf, Double.ninf => Double.ninf
  | Double.ninf, Double.pinf => Double.ninf
  | Double.ninf, Double.ninf => Double.pinf
  | _, _ => Double.nan

/-- The quotient of two `double`s.  A finite number over zero is an infinity
with the sign of the dividend, and NaN when the dividend is zero; a finite
number over an infinity is zero; infinity over infinity is NaN. -/
def Double.div : Double α → Double α → Double α
  | Double.fin x, Double.fin y =>
    if y ≠ 0 then Double.fin (round_to_double (x / y))
    else if 0 < x then Double.pinf
    else if x < 0 then Double.ninf
    else Double.nan
  | Double.fin _, Double.pinf => Double.fin 0
  | Double.fin _, Double.ninf => Double.fin 0
  | Double.pinf, Double.fin y => if 0 ≤ y then Double.pinf else Double.ninf
  | Double.ninf, Double.fin y => if 0 ≤ y then Double.ninf else Double.pinf
  | _, _ => Double.nan

/-- The comparison `<` of two `double`s; false when one of them is NaN. -/
def Double.lt : Double α → Double α → Prop
  | Double.fin x, Double.fin y => x < y
  | Double.fin _, Double.pinf => True
  | Double.ninf, Double.fin _ => True
  | Double.ninf, Double.pinf => True
  | _, _ => False

/-- The comparison `<=` of two `double`s; false when one of them is NaN. -/
def Double.le : Double α → Double α → Prop
  | Double.fin x, Double.fin y => x ≤ y
  | Double.fin _, Double.pinf => True
  | Double.ninf, Double.fin _ => True
  | Double.ninf, Double.pinf => True
  | Double.pinf, Double.pinf => True
  | Double.ninf, Double.ninf => True
  | _, _ => False

/-- `std::fabs`. -/
def Double.fabs : Double α → Double α
  | Double.fin x => Double.fin |x|
  | Double.pinf => Double.pinf
  | Double.ninf => Double.pinf
  | Double.nan => Double.nan

instance : Neg (Double α) := ⟨Double.neg⟩

instance : Add (Double α) := ⟨Double.add⟩

instance : Sub (Double α) := ⟨Double.sub⟩

instance : Mul (Double α) := ⟨Double.mul⟩

instance : Div (Double α) := ⟨Double.div⟩

instance : LT (Double α) := ⟨Double.lt⟩

instance : LE (Double α) := ⟨Double.le⟩

instance Double.decidable_lt (a b : Double α) : Decidable (a < b) := by
  cases a <;> cases b <;> simp only [LT.lt, Double.lt] <;> infer_instance

instance Double.decidable_le (a b : Double α) : Decidable (a ≤ b) := by
  cases a <;> cases b <;> simp only [LE.le, Double.le] <;> infer_instance

/-- An integer literal, or a literal such as `1.`. -/
instance (n : Nat) : OfNat (Double α) n := ⟨Double.fin (round_to_double (n : α))⟩

/-- A decimal literal such as `3.08`. -/
instance : OfScientific (Double α) :=
  ⟨fun m s e => Double.fin (round_to_double (OfScientific.ofScientific m s e : α))⟩

/-- The table `Material::material_data`, in double precision. -/
def Material.material_data_double : List (String × Double α × Double α × Double α) :=
  [("dummy_1", 1, 2, 3),
   ("dummy_2", 4, 5, 6),
   ("quartz_1", 8.79, 2660.00, 2010.00),
   ("pvc_1", 0.22, 1200.00, 1200.00),
   ("glass_beads", 0.80, 2500.00, 1175.00),
   ("pvc_2", 0.16, 1440.00, 900.00)]

/-- `Material::Material(std::string material_name)`, in double precision. -/
def Material.ofName_double (material_name : String) : Material (Double α) :=
  match (Material.material_data_double :
      List (String × Double α × Double α × Double α)).find?
      (fun e => e.1 == material_name) with
  | some e => ⟨e.2.1, e.2.2.1, e.2.2.2⟩
  | none => ⟨0, 0, 0⟩

/-- The body shared by both `PorousMaterial` constructors, in double
precision. -/
def PorousMaterial.init_double (base : Material (Double α))
    (porosity degree_of_saturation : Double α) : PorousMaterial (Double α) where
  toMaterial := base
  porosity := porosity
  degree_of_saturation := degree_of_saturation
  liquid_thermal_conductivity := 0.57
  liquid_density := 1000.00
  liquid_specific_heat_capacity := 4186.00
  gas_thermal_conductivity := 0.025
  gas_density := 1.25
  gas_specific_heat_capacity := 1.256
  ice_thermal_conductivity := 2.22
  ice_density := 920.00
  ice_specific_heat_capacity := 1844.00
  freezing_point := 0.0
  coefficient_alpha := -5.0
  reference_temperature := 0.0
  latent_heat_of_fusion := 334000.0

/-- `PorousMaterial::PorousMaterial(std::string, double, double)`, in double
precision. -/
def PorousMaterial.ofName_double (material_name : String)
    (porosity degree_of_saturation : Double α) : PorousMaterial (Double α) :=
  PorousMaterial.init_double (Material.ofName_double material_name) porosity
    degree_of_saturation

/-- `PorousMaterial::thermal_conductivity(const std::string relationship)`,
in double precision. -/
def PorousMaterial.thermal_conductivity_double (L : Libm (Double α))
    (m : PorousMaterial (Double α)) (relationship : String) : Except Int (Double α) :=
  if relationship = "donazzi" then
    Except.ok
      (1 / (L.pow (1 / m.liquid_thermal_conductivity) m.porosity *
            L.pow (1 / m.solids_thermal_conductivity) (1 - m.porosity) *
            L.exp (3.08 * (1 - m.degree_of_saturation) * m.porosity)))
  else if relationship = "haigh" then
    let void_ratio := m.porosity / (1 - m.porosity)
    let E := (2 * void_ratio - 1) / 3
    let B := (1 / 3) *
      L.acos ((2 * (1 + 3 * E) * (1 - m.degree_of_saturation) - L.pow (1 + E) 3) /
        L.pow (1 + E) 3)
    let X := 0.5 * (1 + E) * (1 + L.cos B - L.pow 3 0.5 * L.sin B)
    let a_w := m.liquid_thermal_conductivity / m.solids_thermal_conductivity
    let a_a := m.gas_thermal_conductivity / m.solids_thermal_conductivity
    Except.ok
      (1.58 * m.solids_thermal_conductivity *
        (2 * L.pow (1 + E) 2 *
          ((a_w / L.pow (1 - a_w) 2) * L.log (((1 + E) + (a_w - 1) * X) / (E + a_w)) +
           (a_a / L.pow (1 - a_a) 2) * L.log ((1 + E) / ((1 + E) + (a_a - 1) * X)))
         + (2 * (1 + E) / ((1 - a_w) * (1 - a_a))) * ((a_w - a_a) * X - (1 - a_a) * a_w)))
  else if relationship = "bulk" then
    Except.ok m.solids_thermal_conductivity
  else
    Except.error (-1)

/-- The argument of `acos` in the "haigh" branch of
`thermal_conductivity_double`. -/
def PorousMaterial.haigh_acos_argument_double (L : Libm (Double α))
    (m : PorousMaterial (Double α)) : Double α :=
  let void_ratio := m.porosity / (1 - m.porosity)
  let E := (2 * void_ratio - 1) / 3
  (2 * (1 + 3 * E) * (1 - m.degree_of_saturation) - L.pow (1 + E) 3) / L.pow (1 + E) 3

/-- The "haigh" branch of `thermal_conductivity_double` after the call of
`acos`: the value of the branch as a function of what `acos` returned. -/
def PorousMaterial.haigh_of_acos_double (L : Libm (Double α))
    (m : PorousMaterial (Double α)) (acos_value : Double α) : Double α :=
  let void_ratio := m.porosity / (1 - m.porosity)
  let E := (2 * void_ratio - 1) / 3
  let B := (1 / 3) * acos_value
  let X := 0.5 * (1 + E) * (1 + L.cos B - L.pow 3 0.5 * L.sin B)
  let a_w := m.liquid_thermal_conductivity / m.solids_thermal_conductivity
  let a_a := m.gas_thermal_conductivity / m.solids_thermal_conductivity
  1.58 * m.solids_thermal_conductivity *
    (2 * L.pow (1 + E) 2 *
      ((a_w / L.pow (1 - a_w) 2) * L.log (((1 + E) + (a_w - 1) * X) / (E + a_w)) +
       (a_a / L.pow (1 - a_a) 2) * L.log ((1 + E) / ((1 + E) + (a_a - 1) * X)))
     + (2 * (1 + E) / ((1 - a_w) * (1 - a_a))) * ((a_w - a_a) * X - (1 - a_a) * a_w))

/-- `PorousMaterial::degree_of_saturation_ice`, in double precision. -/
def PorousMaterial.degree_of_saturation_ice_double (L : Libm (Double α))
    (m : PorousMaterial (Double α)) (temperature : Double α) : Double α :=
  if temperature ≤ m.freezing_point then
    1 - L.pow (1 - (temperature - m.freezing_point)) m.coefficient_alpha
  else
    0

/-- `PorousMaterial::degree_of_saturation_ice_derivative`, in double
precision. -/
def PorousMaterial.degree_of_saturation_ice_derivative_double (L : Libm (Double α))
    (m : PorousMaterial (Double α)) (temperature : Double α) : Double α :=
  if temperature ≤ m.freezing_point then
    m.coefficient_alpha *
      L.pow (1 - (temperature - m.freezing_point)) (m.coefficient_alpha - 1)
  else
    0

/-- `PorousMaterial::volumetric_heat_capacity`, in double precision. -/
def PorousMaterial.volumetric_heat_capacity_double (L : Libm (Double α))
    (m : PorousMaterial (Double α)) (temperature : Double α) : Double α :=
  let Hc :=
    (1 - m.degree_of_saturation_ice_double L temperature) *
      m.porosity * m.degree_of_saturation * m.liquid_specific_heat_capacity * m.liquid_density
    + m.porosity * m.gas_specific_heat_capacity * m.gas_density * (1 - m.degree_of_saturation)
    + m.solids_specific_heat_capacity * m.solids_density * (1 - m.porosity)
    + m.porosity * m.degree_of_saturation * m.degree_of_saturation_ice_double L temperature *
      m.ice_specific_heat_capacity * m.ice_density
  let a :=
    (temperature - m.reference_temperature) *
      (m.degree_of_saturation * m.ice_density * m.ice_specific_heat_capacity
        - m.degree_of_saturation * m.liquid_density * m.liquid_specific_heat_capacity)
  let b := m.degree_of_saturation * m.ice_density * m.latent_heat_of_fusion
  Hc + m.porosity * m.degree_of_saturation_ice_derivative_double L temperature * (a - b)

/-- `PorousMaterial::thermal_energy`, in double precision. -/
def PorousMaterial.thermal_energy_double (L : Libm (Double α))
    (m : PorousMaterial (Double α)) (temperature : Double α) : Double α :=
  let Hc :=
    (1 - m.degree_of_saturation_ice_double L temperature) *
      m.porosity * m.degree_of_saturation * m.liquid_specific_heat_capacity * m.liquid_density
    + m.porosity * m.gas_specific_heat_capacity * m.gas_density * (1 - m.degree_of_saturation)
    + m.solids_specific_heat_capacity * m.solids_density * (1 - m.porosity)
    + m.porosity * m.degree_of_saturation * m.degree_of_saturation_ice_double L temperature *
      m.ice_specific_heat_capacity * m.ice_density
  Hc * (temperature - m.reference_temperature)
    - m.latent_heat_of_fusion * m.porosity * m.degree_of_saturation *
      m.degree_of_saturation_ice_double L temperature * m.ice_density

variable {V S : Type}

/-- The layer lookup at the head of `Heat_Pipe::material_data`, in double
precision. -/
def Heat_Pipe.layer_number_double (parameters : AllParameters (Double α))
    (cell_center : Double α) : Except Int (Fin 5) :=
  if cell_center > -1 * (parameters.material_0_depth + parameters.material_0_thickness) then
    Except.ok 0
  else if cell_center ≤ -1 * parameters.material_1_depth ∧
      cell_center > -1 * (parameters.material_1_depth + parameters.material_1_thickness) then
    Except.ok 1
  else if cell_center ≤ -1 * parameters.material_2_depth ∧
      cell_center > -1 * (parameters.material_2_depth + parameters.material_2_thickness) then
    Except.ok 2
  else if cell_center ≤ -1 * parameters.material_3_depth ∧
      cell_center > -1 * (parameters.material_3_depth + parameters.material_3_thickness) then
    Except.ok 3
  else if cell_center ≤ -1 * parameters.material_4_depth then
    Except.ok 4
  else
    Except.error (-1)

/-- `Heat_Pipe::material_data`, in double precision. -/
def Heat_Pipe.material_data_double (L : Libm (Double α))
    (fe : FiniteElements (Double α) V S) (hp : Heat_Pipe (Double α) V S)
    (cell_center cell_temperature cell_diameter : Double α) :
    Except Int (MaterialData (Double α)) :=
  match Heat_Pipe.layer_number_double hp.parameters cell_center with
  | Except.error e => Except.error e
  | Except.ok layer_number =>
    let material_name := (hp.layer_data layer_number).1
    let porosity := (hp.layer_data layer_number).2.1
    let degree_of_saturation := (hp.layer_data layer_number).2.2.1
    let relationship := (hp.layer_data layer_number).2.2.2
    let porous_material : PorousMaterial (Double α) :=
      PorousMaterial.ofName_double material_name porosity degree_of_saturation
    match porous_material.thermal_conductivity_double L relationship with
    | Except.error e => Except.error e
    | Except.ok thermal_conductivity =>
      let total_volumetric_heat_capacity :=
        porous_material.volumetric_heat_capacity_double L cell_temperature
      let ice_saturation := porous_material.degree_of_saturation_ice_double L cell_temperature
      let thermal_energy :=
        cell_diameter *
          porous_material.thermal_energy_double L
            (hp.theta_temperature * fe.point_value hp.solution cell_center +
              (1 - hp.theta_temperature) * fe.point_value hp.old_solution cell_center)
      if thermal_conductivity < 0 ∨ total_volumetric_heat_capacity < 0 then
        Except.error (-1)
      else
        Except.ok
          { thermal_conductivity := thermal_conductivity
            total_volumetric_heat_capacity := total_volumetric_heat_capacity
            thermal_energy := thermal_energy
            ice_saturation := ice_saturation }

end DoublePrecision

section DoubleExamples

variable {α V S : Type} [LinearOrderedField α] [FloorRing α]

/-- Values of `pow` and `exp` that an implementation of `<math.h>` returns
exactly: `pow(x, 0.) = 1` and `pow(1., y) = 1` for every argument,
`pow(x, 1.) = x`, and `exp(0.) = 1`. -/
def Libm.exact_cases (L : Libm (Double α)) : Prop :=
  (∀ x, L.pow x 0 = 1) ∧ (∀ y, L.pow 1 y = 1) ∧ (∀ x, L.pow x 1 = x) ∧ L.exp 0 = 1

/-- An implementation of `<math.h>` for the examples.  On a finite argument
inside the domain of the function it returns the rounding of the exact value;
`pow` returns its exact cases for every argument; `log` of zero is minus
infinity, `log` of a negative number and `acos` outside `[-1, 1]` are NaN.
For the other arguments that are not finite it returns NaN. -/
noncomputable def Libm.rounded : Libm (Double ℝ) where
  pow := fun x y =>
    if y = Double.fin 0 then Double.fin 1
    else if x = Double.fin 1 then Double.fin 1
    else if y = Double.fin 1 then x
    else
      match x, y with
      | Double.fin a, Double.fin b =>
        if 0 < a then Double.fin (round_to_double (a ^ b))
        else if a = 0 then (if b < 0 then Double.pinf else Double.fin 0)
        else if (⌊b⌋ : ℝ) = b then Double.fin (round_to_double (a ^ ⌊b⌋))
        else Double.nan
      | _, _ => Double.nan
  exp := fun x =>
    match x with
    | Double.fin a => Double.fin (round_to_double (Real.exp a))
    | Double.pinf => Double.pinf
    | Double.ninf => Double.fin 0
    | Double.nan => Double.nan
  log := fun x =>
    match x with
    | Double.fin a =>
      if 0 < a then Double.fin (round_to_double (Real.log a))
      else if a = 0 then Double.ninf
      else Double.nan
    | Double.pinf => Double.pinf
    | _ => Double.nan
  acos := fun x =>
    match x with
    | Double.fin a =>
      if -1 ≤ a ∧ a ≤ 1 then Double.fin (round_to_double (Real.arccos a)) else Double.nan
    | _ => Double.nan
  cos := fun x =>
    match x with
    | Double.fin a => Double.fin (round_to_double (Real.cos a))
    | _ => Double.nan
  sin := fun x =>
    match x with
    | Double.fin a => Double.fin (round_to_double (Real.sin a))
    | _ => Double.nan
  M_PI := Double.fin (round_to_double Real.pi)

/-- The object that `Heat_Pipe::Heat_Pipe` leaves behind when it does not
throw, in double precision. -/
def Heat_Pipe.init_double (fe : FiniteElements (Double α) V S)
    (parameters : AllParameters (Double α)) (depths_coordinates : List (List (Double α))) :
    Heat_Pipe (Double α) V S where
  linear_system := fe.empty_system
  solution := fe.empty_vector
  old_solution := fe.empty_vector
  timestep_number_max := parameters.timestep_number_max
  timestep_number := 0
  time := 0
  time_step := parameters.time_step
  time_max :=
    parameters.time_step * Double.fin (round_to_double (parameters.timestep_number_max : α))
  theta_temperature := parameters.theta
  parameters := parameters
  met_data := []
  interpolated_temperature_surface := []
  interpolated_temperature_room := []
  depths_coordinates := depths_coordinates
  temperatures_at_points := []
  point_source_magnitudes := []
  old_room_temperature := 0
  new_room_temperature := 0
  old_surface_temperature := 0
  new_surface_temperature := 0
  old_point_source_magnitude := 0
  new_point_source_magnitude := 0
  column_thermal_energy := 0
  thermal_conductivity_liquids := parameters.thermal_conductivity_liquids
  thermal_conductivity_air := parameters.thermal_conductivity_air
  layer_data := fun i =>
    match i with
    | 0 => (parameters.material_0_name, parameters.material_0_porosity,
        parameters.material_0_degree_of_saturation,
        parameters.material_0_thermal_conductivity_relationship)
    | 1 => (parameters.material_1_name, parameters.material_1_porosity,
        parameters.material_1_degree_of_saturation,
        parameters.material_1_thermal_conductivity_relationship)
    | 2 => (parameters.material_2_name, parameters.material_2_porosity,
        parameters.material_2_degree_of_saturation,
        parameters.material_2_thermal_conductivity_relationship)
    | 3 => (parameters.material_3_name, parameters.material_3_porosity,
        parameters.material_3_degree_of_saturation,
        parameters.material_3_thermal_conductivity_relationship)
    | 4 => (parameters.material_4_name, parameters.material_4_porosity,
        parameters.material_4_degree_of_saturation,
        parameters.material_4_thermal_conductivity_relationship)

/-- The material that `material_data_double` builds for layer `i`. -/
def Heat_Pipe.layer_material_double (hp : Heat_Pipe (Double α) V S) (i : Fin 5) :
    PorousMaterial (Double α) :=
  PorousMaterial.ofName_double (hp.layer_data i).1 (hp.layer_data i).2.1 (hp.layer_data i).2.2.1

/-- A run configuration in double precision for the examples: the layers of
`unit_layers`, with layer 0 made of a material whose name is not in the
material table, and with the "haigh" relationship in layer 0. -/
def AllParameters.haigh_layers : AllParameters (Double α) where
  theta := 1
  timestep_number_max := 1
  time_step := 1
  thermal_conductivity_liquids := 0.57
  thermal_conductivity_air := 0.025
  boundary_condition_top := "first"
  fixed_at_bottom := false
  bottom_fixed_value := 0
  point_source := false
  point_source_depth := 0
  heat_loss_factor := 0
  output_frequency := 0
  domain_size := 5
  refinement_level := 1
  material_0_name := "sand"
  material_0_porosity := 0
  material_0_degree_of_saturation := 0
  material_0_thermal_conductivity_relationship := "haigh"
  material_0_depth := 0
  material_0_thickness := 1
  material_1_name := "dummy_2"
  material_1_porosity := 0
  material_1_degree_of_saturation := 0
  material_1_thermal_conductivity_relationship := "bulk"
  material_1_depth := 1
  material_1_thickness := 1
  material_2_name := "quartz_1"
  material_2_porosity := 0
  material_2_degree_of_saturation := 0
  material_2_thermal_conductivity_relationship := "bulk"
  material_2_depth := 2
  material_2_thickness := 1
  material_3_name := "pvc_1"
  material_3_porosity := 0
  material_3_degree_of_saturation := 0
  material_3_thermal_conductivity_relationship := "bulk"
  material_3_depth := 3
  material_3_thickness := 1
  material_4_name := "glass_beads"
  material_4_porosity := 0
  material_4_degree_of_saturation := 0
  material_4_thermal_conductivity_relationship := "bulk"
  material_4_depth := 4
  material_4_thickness := 1

/-- The one-number library of the examples, in double precision. -/
def FiniteElements.scalar_double (cells : List (Double α × Double α))
    (solve : Double α → Except Int (Double α)) :
    FiniteElements (Double α) (Double α) Unit where
  empty_vector := 0
  empty_system := ()
  point_value := fun v _ => v
  l2_norm := fun v => v.fabs
  active_cells := cells
  assemble := fun hp _ => ((), hp.solution)
  solve := fun _ v => solve v

end DoubleExamples

/-! ## Theorems -/

theorem Libm.real_pow (x y : ℝ) : Libm.real.pow x y = x ^ y := rfl

theorem Libm.real_exp (x : ℝ) : Libm.real.exp x = Real.exp x := rfl

/-- Below the freezing point the base of the power law is at least one. -/
theorem one_le_base {T fp : ℝ} (h : T ≤ fp) : 1 ≤ 1 - (T - fp) := by linarith

/-- C1: for every porous material and every temperature, the volumetric heat
capacity is the sum of the four sensible terms (unfrozen liquid, gas, solid,
ice) and the apparent latent-heat term
`porosity * dSi/dT * ((T - T_ref) * S * (rho_ice*cp_ice - rho_liquid*cp_liquid) - S*rho_ice*L_fusion)`. -/
theorem volumetric_heat_capacity_eq (m : PorousMaterial ℝ) (T : ℝ) :
    m.volumetric_heat_capacity Libm.real T =
      ((1 - m.degree_of_saturation_ice Libm.real T) * m.porosity * m.degree_of_saturation *
          m.liquid_specific_heat_capacity * m.liquid_density
        + m.porosity * (1 - m.degree_of_saturation) * m.gas_specific_heat_capacity * m.gas_density
        + (1 - m.porosity) * m.solids_specific_heat_capacity * m.solids_density
        + m.porosity * m.degree_of_saturation * m.degree_of_saturation_ice Libm.real T *
          m.ice_specific_heat_capacity * m.ice_density)
      + m.porosity * m.degree_of_saturation_ice_derivative Libm.real T *
          ((T - m.reference_temperature) * m.degree_of_saturation *
              (m.ice_density * m.ice_specific_heat_capacity
                - m.liquid_density * m.liquid_specific_heat_capacity)
            - m.degree_of_saturation * m.ice_density * m.latent_heat_of_fusion) := by
  simp only [PorousMaterial.volumetric_heat_capacity]
  ring

/-- C3: for a shape exponent `alpha ≤ 0` and a temperature at or below the
freezing point, the ice saturation lies in the interval `[0, 1]`. -/
theorem degree_of_saturation_ice_mem_unit (m : PorousMaterial ℝ) (T : ℝ)
    (hα : m.coefficient_alpha ≤ 0) (hT : T ≤ m.freezing_point) :
    0 ≤ m.degree_of_saturation_ice Libm.real T ∧
      m.degree_of_saturation_ice Libm.real T ≤ 1 := by
  have hu : 1 ≤ 1 - (T - m.freezing_point) := one_le_base hT
  have h1 : (1 - (T - m.freezing_point)) ^ m.coefficient_alpha ≤ 1 :=
    Real.rpow_le_one_of_one_le_of_nonpos hu hα
  have h0 : 0 < (1 - (T - m.freezing_point)) ^ m.coefficient_alpha :=
    Real.rpow_pos_of_pos (by linarith) _
  simp only [PorousMaterial.degree_of_saturation_ice, if_pos hT, Libm.real_pow]
  constructor <;> linarith

theorem degree_of_saturation_ice_mem_unit_witness :
    0 ≤ (PorousMaterial.ofValues 1 2 3 (1 / 2) (1 / 2) : PorousMaterial ℝ).degree_of_saturation_ice
        Libm.real (-1) ∧
      (PorousMaterial.ofValues 1 2 3 (1 / 2) (1 / 2) : PorousMaterial ℝ).degree_of_saturation_ice
        Libm.real (-1) ≤ 1 :=
  degree_of_saturation_ice_mem_unit (PorousMaterial.ofValues 1 2 3 (1 / 2) (1 / 2)) (-1)
    (by norm_num [PorousMaterial.ofValues, PorousMaterial.init])
    (by norm_num [PorousMaterial.ofValues, PorousMaterial.init])

/-- C5: for every freezing point and every shape exponent the ice saturation
is `0` at the freezing point and `0` at every temperature above it. -/
theorem degree_of_saturation_ice_zero_from_freezing_point (m : PorousMaterial ℝ) :
    m.degree_of_saturation_ice Libm.real m.freezing_point = 0 ∧
      ∀ T : ℝ, m.freezing_point < T → m.degree_of_saturation_ice Libm.real T = 0 := by
  constructor
  · simp [PorousMaterial.degree_of_saturation_ice, Libm.real_pow]
  · intro T hT
    simp [PorousMaterial.degree_of_saturation_ice, not_le.mpr hT]

/-- C7: above the freezing point the thermal energy is the sensible heat
alone: `thermal_energy T = volumetric_heat_capacity T * (T - T_ref)`. -/
theorem thermal_energy_eq_sensible (m : PorousMaterial ℝ) (T : ℝ)
    (hT : m.freezing_point < T) :
    m.thermal_energy Libm.real T =
      m.volumetric_heat_capacity Libm.real T * (T - m.reference_temperature) := by
  have hn : ¬ T ≤ m.freezing_point := not_le.mpr hT
  simp only [PorousMaterial.thermal_energy, PorousMaterial.volumetric_heat_capacity,
    PorousMaterial.degree_of_saturation_ice, PorousMaterial.degree_of_saturation_ice_derivative,
    if_neg hn]
  ring

theorem thermal_energy_eq_sensible_witness :
    (PorousMaterial.ofValues 1 2 3 (1 / 2) (1 / 2) : PorousMaterial ℝ).thermal_energy
        Libm.real 10 =
      (PorousMaterial.ofValues 1 2 3 (1 / 2) (1 / 2) : PorousMaterial ℝ).volumetric_heat_capacity
        Libm.real 10 *
        (10 - (PorousMaterial.ofValues 1 2 3 (1 / 2) (1 / 2) :
          PorousMaterial ℝ).reference_temperature) :=
  thermal_energy_eq_sensible (PorousMaterial.ofValues 1 2 3 (1 / 2) (1 / 2)) 10
    (by norm_num [PorousMaterial.ofValues, PorousMaterial.init])

/-- C8: the relationship "bulk" returns exactly the solid thermal conductivity
of the material, whatever its porosity, saturation and liquid, gas, ice and
freezing settings; in particular the value passed to the constructor is
returned after any use of the four setters. -/
theorem thermal_conductivity_bulk :
    (∀ m : PorousMaterial ℝ,
      m.thermal_conductivity Libm.real "bulk" = Except.ok m.solids_thermal_conductivity) ∧
    (∀ ks rho_s cp_s n S kl rho_l cp_l kg rho_g cp_g ki rho_i cp_i fp al tr lf : ℝ,
      (((((PorousMaterial.ofValues ks rho_s cp_s n S).set_liquid_properties kl rho_l cp_l
        ).set_gas_properties kg rho_g cp_g).set_ice_properties ki rho_i cp_i
        ).set_freezing_properties fp al tr lf).thermal_conductivity Libm.real "bulk"
        = Except.ok ks) := by
  constructor
  · intro m
    simp [PorousMaterial.thermal_conductivity]
  · intros
    simp [PorousMaterial.thermal_conductivity, PorousMaterial.set_freezing_properties,
      PorousMaterial.set_ice_properties, PorousMaterial.set_gas_properties,
      PorousMaterial.set_liquid_properties, PorousMaterial.ofValues, PorousMaterial.init,
      Material.ofValues]

/-- C6: away from the freezing point `degree_of_saturation_ice_derivative` is
the derivative of `degree_of_saturation_ice`: below the freezing point the
ice saturation is differentiable with derivative
`alpha * (1 - (T - freezing_point)) ^ (alpha - 1)`, which is the value the
program returns, and above it the derivative is `0`, again the value
returned. -/
theorem degree_of_saturation_ice_hasDerivAt (m : PorousMaterial ℝ) (T : ℝ) :
    (T < m.freezing_point →
      HasDerivAt (fun t => m.degree_of_saturation_ice Libm.real t)
          (m.coefficient_alpha * (1 - (T - m.freezing_point)) ^ (m.coefficient_alpha - 1)) T ∧
        m.degree_of_saturation_ice_derivative Libm.real T =
          m.coefficient_alpha * (1 - (T - m.freezing_point)) ^ (m.coefficient_alpha - 1)) ∧
    (m.freezing_point < T →
      HasDerivAt (fun t => m.degree_of_saturation_ice Libm.real t) 0 T ∧
        m.degree_of_saturation_ice_derivative Libm.real T = 0) := by
  constructor
  · intro hT
    have hu : (0 : ℝ) < 1 - (T - m.freezing_point) := by linarith
    have h1 : HasDerivAt (fun t : ℝ => 1 - (t - m.freezing_point)) (-1) T := by
      simpa using ((hasDerivAt_id T).sub_const m.freezing_point).const_sub 1
    have h2 := (h1.rpow_const (Or.inl hu.ne') : HasDerivAt
      (fun t : ℝ => (1 - (t - m.freezing_point)) ^ m.coefficient_alpha) _ T).const_sub 1
    have hev : (fun t => m.degree_of_saturation_ice Libm.real t) =ᶠ[nhds T]
        (fun t : ℝ => 1 - (1 - (t - m.freezing_point)) ^ m.coefficient_alpha) := by
      filter_upwards [eventually_lt_nhds hT] with t ht
      simp only [PorousMaterial.degree_of_saturation_ice, if_pos ht.le, Libm.real_pow]
    refine ⟨?_, by
      simp only [PorousMaterial.degree_of_saturation_ice_derivative, if_pos hT.le,
        Libm.real_pow]⟩
    have h3 := h2.congr_of_eventuallyEq hev
    convert h3 using 1
    ring
  · intro hT
    have hev : (fun t => m.degree_of_saturation_ice Libm.real t) =ᶠ[nhds T]
        (fun _ : ℝ => (0 : ℝ)) := by
      filter_upwards [eventually_gt_nhds hT] with t ht
      simp only [PorousMaterial.degree_of_saturation_ice, if_neg (not_le.mpr ht)]
    exact ⟨(hasDerivAt_const T (0 : ℝ)).congr_of_eventuallyEq hev, by
      simp only [PorousMaterial.degree_of_saturation_ice_derivative,
        if_neg (not_le.mpr hT)]⟩

/-- C2: with the default liquid, gas, ice and freezing parameters, the
volumetric heat capacity is positive for every porosity and every degree of
saturation in `[0, 1]`, every positive solid density and solid specific heat,
and every temperature between `-40` and `40`. -/
theorem volumetric_heat_capacity_pos (base : Material ℝ) (n S T : ℝ)
    (hn0 : 0 ≤ n) (hn1 : n ≤ 1) (hS0 : 0 ≤ S) (hS1 : S ≤ 1)
    (hrho : 0 < base.solids_density) (hcp : 0 < base.solids_specific_heat_capacity)
    (hT0 : -40 ≤ T) (_hT1 : T ≤ 40) :
    0 < (PorousMaterial.init base n S).volumetric_heat_capacity Libm.real T := by
  have hsol : 0 < base.solids_specific_heat_capacity * base.solids_density := mul_pos hcp hrho
  have a2 : 0 ≤ n * (1 - S) := mul_nonneg hn0 (by linarith)
  have a5 : 0 ≤ n * S := mul_nonneg hn0 hS0
  have hstrict : n < 1 ∨ n = 1 := lt_or_eq_of_le hn1
  by_cases hT : T ≤ 0
  · have hu : (1 : ℝ) ≤ 1 - T := by linarith
    have hp0 : 0 < (1 - T) ^ (-5 : ℝ) := Real.rpow_pos_of_pos (by linarith) _
    have hp1 : (1 - T) ^ (-5 : ℝ) ≤ 1 :=
      Real.rpow_le_one_of_one_le_of_nonpos hu (by norm_num)
    have hq0 : 0 < (1 - T) ^ (-6 : ℝ) := Real.rpow_pos_of_pos (by linarith) _
    have a1 : 0 ≤ (1 - T) ^ (-5 : ℝ) * (n * S) := mul_nonneg hp0.le a5
    have a4 : 0 ≤ n * S * (1 - (1 - T) ^ (-5 : ℝ)) := mul_nonneg a5 (by linarith)
    have a6 : 0 ≤ n * S * (1 - T) ^ (-6 : ℝ) * (2489520 * T + 307280000) :=
      mul_nonneg (mul_nonneg a5 hq0.le) (by linarith)
    simp only [PorousMaterial.volumetric_heat_capacity, PorousMaterial.degree_of_saturation_ice,
      PorousMaterial.degree_of_saturation_ice_derivative, PorousMaterial.init, Libm.real_pow]
    norm_num [hT]
    rcases hstrict with hlt | heq
    · have a3 : 0 < base.solids_specific_heat_capacity * base.solids_density * (1 - n) :=
        mul_pos hsol (by linarith)
      linarith
    · subst heq
      have a7 : 0 ≤ (1 - T) ^ (-5 : ℝ) * S := mul_nonneg hp0.le hS0
      linarith
  · simp only [PorousMaterial.volumetric_heat_capacity, PorousMaterial.degree_of_saturation_ice,
      PorousMaterial.degree_of_saturation_ice_derivative, PorousMaterial.init, Libm.real_pow]
    norm_num [hT]
    rcases hstrict with hlt | heq
    · have a3 : 0 < base.solids_specific_heat_capacity * base.solids_density * (1 - n) :=
        mul_pos hsol (by linarith)
      linarith
    · subst heq
      linarith

theorem volumetric_heat_capacity_pos_witness :
    0 < (PorousMaterial.init (Material.ofValues 1 2 3) (1 / 2) (1 / 2) :
      PorousMaterial ℝ).volumetric_heat_capacity Libm.real (-10) :=
  volumetric_heat_capacity_pos (Material.ofValues 1 2 3) (1 / 2) (1 / 2) (-10)
    (by norm_num) (by norm_num) (by norm_num) (by norm_num)
    (by norm_num [Material.ofValues]) (by norm_num [Material.ofValues])
    (by norm_num) (by norm_num)

/-- C11: `thermal_conductivity` fails exactly when the relationship is none of
"donazzi", "haigh", "bulk"; for such a name the result is the error `-1` and
never a conductivity. -/
theorem thermal_conductivity_error_iff (m : PorousMaterial ℝ) (relationship : String) :
    ((∃ e, m.thermal_conductivity Libm.real relationship = Except.error e) ↔
      (relationship ≠ "donazzi" ∧ relationship ≠ "haigh" ∧ relationship ≠ "bulk")) ∧
    ((relationship ≠ "donazzi" ∧ relationship ≠ "haigh" ∧ relationship ≠ "bulk") →
      m.thermal_conductivity Libm.real relationship = Except.error (-1) ∧
        ∀ k, m.thermal_conductivity Libm.real relationship ≠ Except.ok k) := by
  unfold PorousMaterial.thermal_conductivity
  by_cases h1 : relationship = "donazzi"
  · simp [h1]
  · by_cases h2 : relationship = "haigh"
    · simp [h2]
    · by_cases h3 : relationship = "bulk"
      · simp [h3]
      · simp [h1, h2, h3]

/-- C12 (the code does not do this): a name that is not in the material table
does not make the constructor fail.  `Material("sand")` is the material with
all three solid properties `0`, and the porous material built from that name
answers "bulk" with the conductivity `0`. -/
theorem material_of_unknown_name :
    (Material.ofName "sand" : Material ℝ) = ⟨0, 0, 0⟩ ∧
    ∀ n S : ℝ, (PorousMaterial.ofName "sand" n S).thermal_conductivity Libm.real "bulk"
      = Except.ok 0 := by
  have h : (Material.ofName "sand" : Material ℝ) = ⟨0, 0, 0⟩ := by
    simp [Material.ofName, Material.material_data]
  refine ⟨h, fun n S => ?_⟩
  simp [PorousMaterial.thermal_conductivity, PorousMaterial.ofName, PorousMaterial.init, h]

/-- C13: for a contiguous stack of five layers of positive thickness the
lookup returns the layer whose depth interval holds the position: layer 0
above the bottom of layer 0, layer `i` for
`-(depth_i + thickness_i) < x ≤ -depth_i` (`i = 1, 2, 3`), and the open-ended
layer 4 for `x ≤ -depth_4`. -/
theorem layer_number_of_interval (P : AllParameters ℝ) (x : ℝ)
    (_h0 : 0 < P.material_0_thickness) (h1 : 0 < P.material_1_thickness)
    (h2 : 0 < P.material_2_thickness) (h3 : 0 < P.material_3_thickness)
    (_h4 : 0 < P.material_4_thickness)
    (c1 : P.material_1_depth = P.material_0_depth + P.material_0_thickness)
    (c2 : P.material_2_depth = P.material_1_depth + P.material_1_thickness)
    (c3 : P.material_3_depth = P.material_2_depth + P.material_2_thickness)
    (c4 : P.material_4_depth = P.material_3_depth + P.material_3_thickness) :
    (x > -(P.material_0_depth + P.material_0_thickness) →
      Heat_Pipe.layer_number P x = Except.ok 0) ∧
    (-(P.material_1_depth + P.material_1_thickness) < x ∧ x ≤ -P.material_1_depth →
      Heat_Pipe.layer_number P x = Except.ok 1) ∧
    (-(P.material_2_depth + P.material_2_thickness) < x ∧ x ≤ -P.material_2_depth →
      Heat_Pipe.layer_number P x = Except.ok 2) ∧
    (-(P.material_3_depth + P.material_3_thickness) < x ∧ x ≤ -P.material_3_depth →
      Heat_Pipe.layer_number P x = Except.ok 3) ∧
    (x ≤ -P.material_4_depth → Heat_Pipe.layer_number P x = Except.ok 4) := by
  unfold Heat_Pipe.layer_number
  refine ⟨fun h => ?_, fun h => ?_, fun h => ?_, fun h => ?_, fun h => ?_⟩
  · rw [if_pos (by linarith)]
  · rw [if_neg (by linarith [h.1, h.2]), if_pos ⟨by linarith [h.2], by linarith [h.1]⟩]
  · rw [if_neg (by linarith [h.1, h.2]), if_neg (fun hc => by linarith [hc.2, h.2]),
      if_pos ⟨by linarith [h.2], by linarith [h.1]⟩]
  · rw [if_neg (by linarith [h.1, h.2]), if_neg (fun hc => by linarith [hc.2, h.2]),
      if_neg (fun hc => by linarith [hc.2, h.2]),
      if_pos ⟨by linarith [h.2], by linarith [h.1]⟩]
  · rw [if_neg (by linarith), if_neg (fun hc => by linarith [hc.2]),
      if_neg (fun hc => by linarith [hc.2]), if_neg (fun hc => by linarith [hc.2]),
      if_pos (by linarith)]

theorem layer_number_of_interval_witness :
    Heat_Pipe.layer_number (AllParameters.unit_layers : AllParameters ℝ) (-0.5) = Except.ok 0 ∧
    Heat_Pipe.layer_number (AllParameters.unit_layers : AllParameters ℝ) (-1.5) = Except.ok 1 ∧
    ∀ x : ℝ, x ≤ -4 →
      Heat_Pipe.layer_number (AllParameters.unit_layers : AllParameters ℝ) x = Except.ok 4 :=
  have h := fun x : ℝ => layer_number_of_interval (AllParameters.unit_layers) x
    (by norm_num [AllParameters.unit_layers]) (by norm_num [AllParameters.unit_layers])
    (by norm_num [AllParameters.unit_layers]) (by norm_num [AllParameters.unit_layers])
    (by norm_num [AllParameters.unit_layers]) (by norm_num [AllParameters.unit_layers])
    (by norm_num [AllParameters.unit_layers]) (by norm_num [AllParameters.unit_layers])
    (by norm_num [AllParameters.unit_layers])
  ⟨(h (-0.5)).1 (by norm_num [AllParameters.unit_layers]),
    (h (-1.5)).2.1 (by norm_num [AllParameters.unit_layers]),
    fun x hx => (h x).2.2.2.2 (by simpa [AllParameters.unit_layers] using hx)⟩

/-- C14: in a contiguous stack of layers of positive thickness a position
exactly on an interior boundary, `x = -depth_i` for `i = 1, 2, 3, 4`, resolves
to the deeper layer `i` (so not to layer `i - 1`). -/
theorem layer_number_at_boundary (P : AllParameters ℝ)
    (_h0 : 0 < P.material_0_thickness) (h1 : 0 < P.material_1_thickness)
    (h2 : 0 < P.material_2_thickness) (h3 : 0 < P.material_3_thickness)
    (_h4 : 0 < P.material_4_thickness)
    (c1 : P.material_1_depth = P.material_0_depth + P.material_0_thickness)
    (c2 : P.material_2_depth = P.material_1_depth + P.material_1_thickness)
    (c3 : P.material_3_depth = P.material_2_depth + P.material_2_thickness)
    (c4 : P.material_4_depth = P.material_3_depth + P.material_3_thickness) :
    Heat_Pipe.layer_number P (-P.material_1_depth) = Except.ok 1 ∧
    Heat_Pipe.layer_number P (-P.material_2_depth) = Except.ok 2 ∧
    Heat_Pipe.layer_number P (-P.material_3_depth) = Except.ok 3 ∧
    Heat_Pipe.layer_number P (-P.material_4_depth) = Except.ok 4 := by
  unfold Heat_Pipe.layer_number
  refine ⟨?_, ?_, ?_, ?_⟩
  · rw [if_neg (by linarith), if_pos ⟨by linarith, by linarith⟩]
  · rw [if_neg (by linarith), if_neg (fun hc => by linarith [hc.2]),
      if_pos ⟨by linarith, by linarith⟩]
  · rw [if_neg (by linarith), if_neg (fun hc => by linarith [hc.2]),
      if_neg (fun hc => by linarith [hc.2]), if_pos ⟨by linarith, by linarith⟩]
  · rw [if_neg (by linarith), if_neg (fun hc => by linarith [hc.2]),
      if_neg (fun hc => by linarith [hc.2]), if_neg (fun hc => by linarith [hc.2]),
      if_pos (by linarith)]

theorem layer_number_at_boundary_witness :
    Heat_Pipe.layer_number (AllParameters.unit_layers : AllParameters ℝ) (-1.0) = Except.ok 1 ∧
    Heat_Pipe.layer_number (AllParameters.unit_layers : AllParameters ℝ) (-1.0) ≠ Except.ok 0 :=
  have h := layer_number_at_boundary (AllParameters.unit_layers : AllParameters ℝ)
    (by norm_num [AllParameters.unit_layers]) (by norm_num [AllParameters.unit_layers])
    (by norm_num [AllParameters.unit_layers]) (by norm_num [AllParameters.unit_layers])
    (by norm_num [AllParameters.unit_layers]) (by norm_num [AllParameters.unit_layers])
    (by norm_num [AllParameters.unit_layers]) (by norm_num [AllParameters.unit_layers])
    (by norm_num [AllParameters.unit_layers])
  have h1 : Heat_Pipe.layer_number (AllParameters.unit_layers : AllParameters ℝ) (-1.0)
      = Except.ok 1 := by
    have e : (-1.0 : ℝ) = -(AllParameters.unit_layers : AllParameters ℝ).material_1_depth := by
      norm_num [AllParameters.unit_layers]
    rw [e]
    exact h.1
  ⟨h1, by rw [h1]; simp⟩

/-- The branch "bulk" of `thermal_conductivity`, for any `Libm`. -/
theorem thermal_conductivity_bulk_eq {α : Type} [LinearOrderedField α] (L : Libm α)
    (m : PorousMaterial α) :
    m.thermal_conductivity L "bulk" = Except.ok m.solids_thermal_conductivity := by
  simp [PorousMaterial.thermal_conductivity]

/-- What `material_data` returns once the layer is found and the relationship
is known: the test on the two coefficients decides between the error `-1`
and the four outputs. -/
theorem material_data_of_layer {α V S : Type} [LinearOrderedField α] (L : Libm α)
    (fe : FiniteElements α V S) (hp : Heat_Pipe α V S) (x T d : α) (i : Fin 5) (k : α)
    (hi : Heat_Pipe.layer_number hp.parameters x = Except.ok i)
    (hk : (hp.layer_material i).thermal_conductivity L (hp.layer_relationship i)
      = Except.ok k) :
    hp.material_data L fe x T d =
      if k < 0 ∨ (hp.layer_material i).volumetric_heat_capacity L T < 0 then
        Except.error (-1)
      else
        Except.ok
          { thermal_conductivity := k
            total_volumetric_heat_capacity := (hp.layer_material i).volumetric_heat_capacity L T
            thermal_energy :=
              d * (hp.layer_material i).thermal_energy L
                (hp.theta_temperature * fe.point_value hp.solution x +
                  (1 - hp.theta_temperature) * fe.point_value hp.old_solution x)
            ice_saturation := (hp.layer_material i).degree_of_saturation_ice L T } := by
  simp only [Heat_Pipe.layer_material, Heat_Pipe.layer_relationship] at hk
  simp only [Heat_Pipe.material_data, hi, hk, Heat_Pipe.layer_material]

/-- The call `material_data(-0.5, 25, 1, ...)` on the object the constructor
builds from `unit_layers`: layer 0 is "dummy_1" with relationship "bulk". -/
theorem material_data_unit_layers :
    (Heat_Pipe.init (FiniteElements.scalar [] Except.ok)
        (AllParameters.unit_layers : AllParameters ℝ) []).material_data Libm.real
        (FiniteElements.scalar [] Except.ok) (-0.5) 25 1
      = Except.ok ⟨1, 6, 0, 0⟩ := by
  have hl : Heat_Pipe.layer_number (Heat_Pipe.init (FiniteElements.scalar [] Except.ok)
      (AllParameters.unit_layers : AllParameters ℝ) []).parameters (-0.5) = Except.ok 0 := by
    norm_num [Heat_Pipe.layer_number, AllParameters.unit_layers, Heat_Pipe.init]
  have hm : (Material.ofName "dummy_1" : Material ℝ) = ⟨1, 2, 3⟩ := by
    simp [Material.ofName, Material.material_data]
  rw [material_data_of_layer Libm.real _ _ _ _ _ 0 1 hl (thermal_conductivity_bulk_eq _ _)]
  norm_num [Heat_Pipe.layer_material, Heat_Pipe.init, AllParameters.unit_layers,
    PorousMaterial.ofName, PorousMaterial.init, hm,
    PorousMaterial.volumetric_heat_capacity,
    PorousMaterial.thermal_energy, PorousMaterial.degree_of_saturation_ice,
    PorousMaterial.degree_of_saturation_ice_derivative, FiniteElements.scalar, Libm.real_pow]

/-- The layer, the conductivity and the heat capacity that
`material_data(-0.5, 25, 1, ...)` computes when layer 0 is the unknown
material "sand" with porosity `0` and relationship "bulk". -/
theorem unknown_layers_coefficients :
    Heat_Pipe.layer_number (Heat_Pipe.init (FiniteElements.scalar [] Except.ok)
      (AllParameters.unknown_layers : AllParameters ℝ) []).parameters (-0.5) = Except.ok 0 ∧
    ((Heat_Pipe.init (FiniteElements.scalar [] Except.ok)
      (AllParameters.unknown_layers : AllParameters ℝ) []).layer_material 0).thermal_conductivity
        Libm.real
        ((Heat_Pipe.init (FiniteElements.scalar [] Except.ok)
          (AllParameters.unknown_layers : AllParameters ℝ) []).layer_relationship 0)
      = Except.ok 0 ∧
    ((Heat_Pipe.init (FiniteElements.scalar [] Except.ok)
      (AllParameters.unknown_layers : AllParameters ℝ) []).layer_material 0
        ).volumetric_heat_capacity Libm.real 25 = 0 := by
  have hm : (Material.ofName "sand" : Material ℝ) = ⟨0, 0, 0⟩ := by
    simp [Material.ofName, Material.material_data]
  refine ⟨?_, ?_, ?_⟩
  · norm_num [Heat_Pipe.layer_number, AllParameters.unknown_layers, AllParameters.unit_layers,
      Heat_Pipe.init]
  · have h := thermal_conductivity_bulk_eq Libm.real
      ((Heat_Pipe.init (FiniteElements.scalar [] Except.ok)
        (AllParameters.unknown_layers : AllParameters ℝ) []).layer_material 0)
    simpa [Heat_Pipe.layer_material, Heat_Pipe.layer_relationship, Heat_Pipe.init,
      AllParameters.unknown_layers, AllParameters.unit_layers, PorousMaterial.ofName,
      PorousMaterial.init, hm] using h
  · norm_num [Heat_Pipe.layer_material, Heat_Pipe.init, AllParameters.unknown_layers,
      AllParameters.unit_layers, PorousMaterial.ofName, PorousMaterial.init, hm,
      PorousMaterial.volumetric_heat_capacity, PorousMaterial.degree_of_saturation_ice,
      PorousMaterial.degree_of_saturation_ice_derivative]

/-- C16, as amended: at `material_data` a negative coefficient is fatal and a
zero coefficient is not.  When the layer is found and the relationship is
known, `material_data` fails exactly when the computed thermal conductivity
or the computed volumetric heat capacity is `< 0`; when both are `≥ 0`, and
so when one is exactly `0`, it returns them. -/
theorem material_data_fails_iff_negative {V S : Type} (fe : FiniteElements ℝ V S)
    (hp : Heat_Pipe ℝ V S) (x T d : ℝ) (i : Fin 5) (k : ℝ)
    (hi : Heat_Pipe.layer_number hp.parameters x = Except.ok i)
    (hk : (hp.layer_material i).thermal_conductivity Libm.real (hp.layer_relationship i)
      = Except.ok k) :
    ((∃ e, hp.material_data Libm.real fe x T d = Except.error e) ↔
      (k < 0 ∨ (hp.layer_material i).volumetric_heat_capacity Libm.real T < 0)) ∧
    (0 ≤ k → 0 ≤ (hp.layer_material i).volumetric_heat_capacity Libm.real T →
      ∃ out, hp.material_data Libm.real fe x T d = Except.ok out ∧
        out.thermal_conductivity = k ∧
        out.total_volumetric_heat_capacity =
          (hp.layer_material i).volumetric_heat_capacity Libm.real T) := by
  rw [material_data_of_layer Libm.real fe hp x T d i k hi hk]
  constructor
  · by_cases hneg : k < 0 ∨ (hp.layer_material i).volumetric_heat_capacity Libm.real T < 0
    · simp [hneg]
    · simp [hneg]
  · intro h1 h2
    have hneg : ¬ (k < 0 ∨ (hp.layer_material i).volumetric_heat_capacity Libm.real T < 0) := by
      push_neg
      exact ⟨h1, h2⟩
    rw [if_neg hneg]
    exact ⟨_, rfl, rfl, rfl⟩

theorem material_data_fails_iff_negative_witness :
    ¬ ∃ e, (Heat_Pipe.init (FiniteElements.scalar [] Except.ok)
        (AllParameters.unknown_layers : AllParameters ℝ) []).material_data Libm.real
        (FiniteElements.scalar [] Except.ok) (-0.5) 25 1 = Except.error e := by
  rw [(material_data_fails_iff_negative (FiniteElements.scalar [] Except.ok)
    (Heat_Pipe.init (FiniteElements.scalar [] Except.ok) AllParameters.unknown_layers [])
    (-0.5) 25 1 0 0 unknown_layers_coefficients.1 unknown_layers_coefficients.2.1).1,
    unknown_layers_coefficients.2.2]
  norm_num

/-- C16 as stated fails: with layer 0 made of the unknown material "sand",
porosity `0` and relationship "bulk", the computed thermal conductivity and
the computed volumetric heat capacity are both exactly `0`, and
`material_data(-0.5, 25, 1, ...)` returns them instead of failing. -/
theorem material_data_returns_zero_coefficients :
    ∃ out : MaterialData ℝ,
      (Heat_Pipe.init (FiniteElements.scalar [] Except.ok)
        (AllParameters.unknown_layers : AllParameters ℝ) []).material_data Libm.real
        (FiniteElements.scalar [] Except.ok) (-0.5) 25 1 = Except.ok out ∧
      out.thermal_conductivity = 0 ∧ out.total_volumetric_heat_capacity = 0 := by
  rw [material_data_of_layer Libm.real _ _ _ _ _ 0 0 unknown_layers_coefficients.1
    unknown_layers_coefficients.2.1, unknown_layers_coefficients.2.2]
  norm_num

/-- C17 (the code does not do this): a top boundary type that is none of
"first", "second", "third" does not make the constructor fail.  With the
right argument count and an output file that opens, the constructor returns
the initialised object for every configuration, here for one whose
`boundary_condition_top` is "fourth". -/
theorem heat_pipe_new_wrong_boundary_condition :
    (∀ (P : AllParameters ℝ) (depths : List (List ℝ)),
      Heat_Pipe.new (FiniteElements.scalar [] Except.ok) 2 P depths true
        = Except.ok (Heat_Pipe.init (FiniteElements.scalar [] Except.ok) P depths)) ∧
    ({ (AllParameters.unit_layers : AllParameters ℝ) with
        boundary_condition_top := "fourth" } : AllParameters ℝ).boundary_condition_top
      ∉ ["first", "second", "third"] ∧
    Heat_Pipe.new (FiniteElements.scalar [] Except.ok) 2
        ({ (AllParameters.unit_layers : AllParameters ℝ) with
          boundary_condition_top := "fourth" } : AllParameters ℝ) [] true
      = Except.ok (Heat_Pipe.init (FiniteElements.scalar [] Except.ok)
          ({ (AllParameters.unit_layers : AllParameters ℝ) with
            boundary_condition_top := "fourth" } : AllParameters ℝ) []) := by
  refine ⟨fun P depths => ?_, by simp, ?_⟩ <;> simp [Heat_Pipe.new]

/-! ### The convergence loop -/

section Loop

variable {α V S : Type} [LinearOrderedField α]

theorem iterates_succ_ok (L : Libm α) (fe : FiniteElements α V S) (hp : Heat_Pipe α V S)
    (r : IterationResult α V S) (j : Nat) (h : hp.iteration_body L fe = Except.ok r) :
    Heat_Pipe.iterates L fe hp (j + 1) = Heat_Pipe.iterates L fe r.state j := by
  simp only [Heat_Pipe.iterates, h]

theorem iterates_of_error (L : Libm α) (fe : FiniteElements α V S) (hp : Heat_Pipe α V S)
    (e : Int) (j : Nat) (h : hp.iteration_body L fe = Except.error e) :
    Heat_Pipe.iterates L fe hp j = Except.error e := by
  cases j with
  | zero => simpa only [Heat_Pipe.iterates] using h
  | succ j => simp only [Heat_Pipe.iterates, h]

/-- What one pass of the loop body does: it assembles, solves, and sets
`total_error` from the norms of `solution` before and after the solve. -/
theorem iteration_body_ok (L : Libm α) (fe : FiniteElements α V S) (hp : Heat_Pipe α V S)
    (r : IterationResult α V S) (h : hp.iteration_body L fe = Except.ok r) :
    hp.assemble_system_temperature L fe = Except.ok r.assembled ∧
      r.assembled.solve_temperature fe = Except.ok r.state ∧
      r.total_error =
        1 - |fe.l2_norm r.assembled.solution / fe.l2_norm r.state.solution| := by
  unfold Heat_Pipe.iteration_body at h
  cases ha : hp.assemble_system_temperature L fe with
  | error e => simp [ha] at h
  | ok a =>
    cases hs : a.solve_temperature fe with
    | error e => simp [ha, hs] at h
    | ok st =>
      simp only [ha, hs, Except.ok.injEq] at h
      subst h
      exact ⟨rfl, hs, rfl⟩

/-- The exit of the loop, for any start value of the counter: the loop ends
normally in pass `j + 1` exactly when that pass is the first whose
`total_error` is NaN or at most `5e-4` in absolute value. -/
theorem converge_ok_iff (L : Libm α) (fe : FiniteElements α V S) :
    ∀ (fuel : Nat) (hp : Heat_Pipe α V S) (it : Nat) (hp' : Heat_Pipe α V S) (m : Nat),
      Heat_Pipe.converge L fe fuel hp it = some (Except.ok (hp', m)) ↔
        ∃ j r, j < fuel ∧ m = it + j + 1 ∧
          Heat_Pipe.iterates L fe hp j = Except.ok r ∧ r.state = hp' ∧
          (r.total_error_is_nan = true ∨ |r.total_error| ≤ 5e-4) ∧
          ∀ i, i < j → ∃ ri, Heat_Pipe.iterates L fe hp i = Except.ok ri ∧
            ri.total_error_is_nan = false ∧ 5e-4 < |ri.total_error| := by
  intro fuel
  induction fuel with
  | zero =>
    intro hp it hp' m
    simp [Heat_Pipe.converge]
  | succ fuel ih =>
    intro hp it hp' m
    cases hb : hp.iteration_body L fe with
    | error e =>
      simp only [Heat_Pipe.converge, hb]
      constructor
      · intro h
        simp at h
      · rintro ⟨j, r, _, _, hr, _⟩
        rw [iterates_of_error L fe hp e j hb] at hr
        simp at hr
    | ok r0 =>
      by_cases hc : r0.total_error_is_nan = false ∧ |r0.total_error| > 5e-4
      · simp only [Heat_Pipe.converge, hb, if_pos hc]
        rw [ih]
        constructor
        · rintro ⟨j, r, hj, hm, hr, hst, hle, hall⟩
          refine ⟨j + 1, r, by omega, by omega, ?_, hst, hle, ?_⟩
          · rw [iterates_succ_ok L fe hp r0 j hb]
            exact hr
          · intro i hi
            cases i with
            | zero => exact ⟨r0, by simpa only [Heat_Pipe.iterates] using hb, hc⟩
            | succ i =>
              rw [iterates_succ_ok L fe hp r0 i hb]
              exact hall i (by omega)
        · rintro ⟨j, r, hj, hm, hr, hst, hle, hall⟩
          cases j with
          | zero =>
            simp only [Heat_Pipe.iterates, hb, Except.ok.injEq] at hr
            subst hr
            rcases hle with hnan | hle
            · rw [hc.1] at hnan
              exact absurd hnan (by simp)
            · exact absurd hc.2 (not_lt.mpr hle)
          | succ j =>
            rw [iterates_succ_ok L fe hp r0 j hb] at hr
            refine ⟨j, r, by omega, by omega, hr, hst, hle, ?_⟩
            intro i hi
            have h := hall (i + 1) (by omega)
            rw [iterates_succ_ok L fe hp r0 i hb] at h
            exact h
      · simp only [Heat_Pipe.converge, hb, if_neg hc]
        constructor
        · intro h
          simp only [Option.some.injEq, Except.ok.injEq, Prod.mk.injEq] at h
          refine ⟨0, r0, by omega, by omega, by simpa only [Heat_Pipe.iterates] using hb,
            h.1, ?_, ?_⟩
          · by_cases hn : r0.total_error_is_nan = true
            · exact Or.inl hn
            · exact Or.inr (not_lt.mp (fun hlt => hc ⟨by simpa using hn, hlt⟩))
          · intro i hi
            omega
        · rintro ⟨j, r, hj, hm, hr, hst, hle, hall⟩
          cases j with
          | zero =>
            simp only [Heat_Pipe.iterates, hb, Except.ok.injEq] at hr
            subst hr
            simp only [Option.some.injEq, Except.ok.injEq, Prod.mk.injEq]
            exact ⟨hst, by omega⟩
          | succ j =>
            obtain ⟨ri, hri, hlt⟩ := hall 0 (by omega)
            simp only [Heat_Pipe.iterates, hb, Except.ok.injEq] at hri
            subst hri
            exact absurd hlt hc

/-- When the loop ends with an error, the error is the one thrown inside some
pass of the loop body. -/
theorem converge_error (L : Libm α) (fe : FiniteElements α V S) :
    ∀ (fuel : Nat) (hp : Heat_Pipe α V S) (it : Nat) (e : Int),
      Heat_Pipe.converge L fe fuel hp it = some (Except.error e) →
        ∃ j, j < fuel ∧ Heat_Pipe.iterates L fe hp j = Except.error e := by
  intro fuel
  induction fuel with
  | zero =>
    intro hp it e h
    simp [Heat_Pipe.converge] at h
  | succ fuel ih =>
    intro hp it e h
    cases hb : hp.iteration_body L fe with
    | error e0 =>
      simp only [Heat_Pipe.converge, hb, Option.some.injEq, Except.error.injEq] at h
      subst h
      exact ⟨0, by omega, by simpa only [Heat_Pipe.iterates] using hb⟩
    | ok r0 =>
      by_cases hc : r0.total_error_is_nan = false ∧ |r0.total_error| > 5e-4
      · simp only [Heat_Pipe.converge, hb, if_pos hc] at h
        obtain ⟨j, hj, hr⟩ := ih r0.state (it + 1) e h
        exact ⟨j + 1, by omega, by rw [iterates_succ_ok L fe hp r0 j hb]; exact hr⟩
      · simp [Heat_Pipe.converge, hb, if_neg hc] at h

/-- An error of the loop body is an error of `assemble_system_temperature` or
of `solve_temperature`. -/
theorem iteration_body_error (L : Libm α) (fe : FiniteElements α V S) (hp : Heat_Pipe α V S)
    (e : Int) (h : hp.iteration_body L fe = Except.error e) :
    hp.assemble_system_temperature L fe = Except.error e ∨
      ∃ a, hp.assemble_system_temperature L fe = Except.ok a ∧
        a.solve_temperature fe = Except.error e := by
  unfold Heat_Pipe.iteration_body at h
  cases ha : hp.assemble_system_temperature L fe with
  | error e0 =>
    simp only [ha, Except.error.injEq] at h
    subst h
    exact Or.inl rfl
  | ok a =>
    cases hs : a.solve_temperature fe with
    | error e0 =>
      simp only [ha, hs, Except.error.injEq] at h
      subst h
      exact Or.inr ⟨a, rfl, hs⟩
    | ok st => simp [ha, hs] at h

theorem assemble_old_solution (L : Libm α) (fe : FiniteElements α V S)
    (hp a : Heat_Pipe α V S) (h : hp.assemble_system_temperature L fe = Except.ok a) :
    a.old_solution = hp.old_solution := by
  unfold Heat_Pipe.assemble_system_temperature at h
  split at h
  · simp at h
  · simp only [Except.ok.injEq] at h
    subst h
    rfl

omit [LinearOrderedField α] in
theorem solve_old_solution (fe : FiniteElements α V S)
    (hp st : Heat_Pipe α V S) (h : hp.solve_temperature fe = Except.ok st) :
    st.old_solution = hp.old_solution := by
  unfold Heat_Pipe.solve_temperature at h
  split at h
  · simp at h
  · simp only [Except.ok.injEq] at h
    subst h
    rfl

/-- No pass of the loop body writes `old_solution`. -/
theorem iterates_old_solution (L : Libm α) (fe : FiniteElements α V S) :
    ∀ (j : Nat) (hp : Heat_Pipe α V S) (r : IterationResult α V S),
      Heat_Pipe.iterates L fe hp j = Except.ok r →
        r.assembled.old_solution = hp.old_solution ∧
          r.state.old_solution = hp.old_solution := by
  have hbody : ∀ (hp : Heat_Pipe α V S) (r : IterationResult α V S),
      hp.iteration_body L fe = Except.ok r →
        r.assembled.old_solution = hp.old_solution ∧
          r.state.old_solution = hp.old_solution := by
    intro hp r h
    obtain ⟨ha, hs, _⟩ := iteration_body_ok L fe hp r h
    have h1 := assemble_old_solution L fe hp r.assembled ha
    have h2 := solve_old_solution fe r.assembled r.state hs
    exact ⟨h1, h2.trans h1⟩
  intro j
  induction j with
  | zero =>
    intro hp r h
    exact hbody hp r (by simpa only [Heat_Pipe.iterates] using h)
  | succ j ih =>
    intro hp r h
    cases hb : hp.iteration_body L fe with
    | error e =>
      rw [iterates_of_error L fe hp e (j + 1) hb] at h
      simp at h
    | ok r0 =>
      rw [iterates_succ_ok L fe hp r0 j hb] at h
      have h1 := ih r0.state r h
      have h2 := (hbody hp r0 hb).2
      exact ⟨h1.1.trans h2, h1.2.trans h2⟩

theorem except_bind_eq_ok {ε β γ : Type} (x : Except ε β) (f : β → Except ε γ) (c : γ) :
    (x >>= f) = Except.ok c ↔ ∃ b, x = Except.ok b ∧ f b = Except.ok c := by
  cases x with
  | error e => simp [bind, Except.bind]
  | ok b => simp [bind, Except.bind]

theorem update_met_data_old_solution (L : Libm α) (files : DataFiles α V S)
    (hp hp0 : Heat_Pipe α V S) (h : hp.update_met_data L files = Except.ok hp0) :
    hp0.old_solution = hp.old_solution ∧ hp0.solution = hp.solution := by
  unfold Heat_Pipe.update_met_data at h
  rw [except_bind_eq_ok] at h
  obtain ⟨hp2, h2, h⟩ := h
  have e2 : hp2.old_solution = hp.old_solution ∧ hp2.solution = hp.solution := by
    split_ifs at h2
    · rw [except_bind_eq_ok] at h2
      obtain ⟨hp1, h1, h2⟩ := h2
      simp only [Except.ok.injEq] at h2
      subst h2
      rw [except_bind_eq_ok] at h1
      obtain ⟨tables, _, h1⟩ := h1
      simp only [Except.ok.injEq] at h1
      subst h1
      exact ⟨rfl, rfl⟩
    · rw [except_bind_eq_ok] at h2
      obtain ⟨hp1, h1, h2⟩ := h2
      simp only [Except.ok.injEq] at h2 h1
      subst h2
      subst h1
      exact ⟨rfl, rfl⟩
    · simp only [Except.ok.injEq] at h2
      subst h2
      exact ⟨rfl, rfl⟩
  have e0 : hp0.old_solution = hp2.old_solution ∧ hp0.solution = hp2.solution := by
    by_cases hps : hp2.parameters.point_source = true
    · rw [if_pos hps, except_bind_eq_ok] at h
      obtain ⟨hp3, h3, h⟩ := h
      rw [except_bind_eq_ok] at h
      obtain ⟨old_entry, _, h⟩ := h
      rw [except_bind_eq_ok] at h
      obtain ⟨new_entry, _, h⟩ := h
      rw [Except.ok.injEq] at h
      subst h
      by_cases hlen : hp2.point_source_magnitudes.length = 0
      · rw [if_pos hlen, except_bind_eq_ok] at h3
        obtain ⟨table, _, h3⟩ := h3
        rw [Except.ok.injEq] at h3
        subst h3
        exact ⟨rfl, rfl⟩
      · rw [if_neg hlen, Except.ok.injEq] at h3
        subst h3
        exact ⟨rfl, rfl⟩
    · rw [if_neg hps, Except.ok.injEq] at h
      subst h
      exact ⟨rfl, rfl⟩
  exact ⟨e0.1.trans e2.1, e0.2.trans e2.2⟩

theorem fill_output_vectors_solution (fe : FiniteElements α V S)
    (hp hp3 : Heat_Pipe α V S) (h : hp.fill_output_vectors fe = Except.ok hp3) :
    hp3.solution = hp.solution ∧ hp3.old_solution = hp.old_solution := by
  unfold Heat_Pipe.fill_output_vectors at h
  split at h
  · simp at h
  · simp only [Except.ok.injEq] at h
    subst h
    exact ⟨rfl, rfl⟩

end Loop

/-- One pass of the loop body over the one-number library without cells:
`assemble` keeps `solution`, the solver returns `v`, and `total_error`
compares the absolute values before and after. -/
theorem scalar_iteration_body (solve : ℝ → Except Int ℝ) (hp : Heat_Pipe ℝ ℝ Unit) (v : ℝ)
    (h : solve hp.solution = Except.ok v) :
    hp.iteration_body Libm.real (FiniteElements.scalar [] solve) =
      Except.ok
        { assembled := { hp with column_thermal_energy := 0 }
          state := { hp with column_thermal_energy := 0, solution := v }
          total_error := 1 - |(|hp.solution| / |v|)|
          total_error_is_nan := decide (hp.solution = 0 ∧ v = 0) } := by
  simp [Heat_Pipe.iteration_body, Heat_Pipe.assemble_system_temperature,
    Heat_Pipe.solve_temperature, FiniteElements.scalar, h, pure, Except.pure,
    List.mapM.loop]

/-- With the solver that doubles the field, every pass has `total_error = 1/2`
and the loop is still running after any number of passes. -/
theorem doubling_never_converges :
    ∀ (fuel : Nat) (hp : Heat_Pipe ℝ ℝ Unit) (it : Nat), 0 < hp.solution →
      Heat_Pipe.converge Libm.real (FiniteElements.scalar [] (fun v => Except.ok (2 * v)))
        fuel hp it = none := by
  intro fuel
  induction fuel with
  | zero =>
    intro hp it _
    rfl
  | succ fuel ih =>
    intro hp it hpos
    have hb := scalar_iteration_body (fun v => Except.ok (2 * v)) hp (2 * hp.solution) rfl
    have he : (1 : ℝ) - |(|hp.solution| / |2 * hp.solution|)| = 1 / 2 := by
      rw [abs_of_pos hpos, abs_of_pos (by linarith : (0 : ℝ) < 2 * hp.solution)]
      have : hp.solution / (2 * hp.solution) = 1 / 2 := by
        rw [div_eq_iff (by linarith : (2 : ℝ) * hp.solution ≠ 0)]
        ring
      rw [this, abs_of_pos (by norm_num : (0 : ℝ) < 1 / 2)]
      norm_num
    simp only [Heat_Pipe.converge, hb, he]
    rw [if_pos ⟨by simp [hpos.ne'], by rw [abs_of_pos (by norm_num : (0 : ℝ) < 1 / 2)]; norm_num⟩]
    exact ih _ _ (by simpa using hpos)

theorem doubling_iterates :
    ∀ (j : Nat) (hp : Heat_Pipe ℝ ℝ Unit), 0 < hp.solution →
      ∃ r, Heat_Pipe.iterates Libm.real
          (FiniteElements.scalar [] (fun v => Except.ok (2 * v))) hp j = Except.ok r ∧
        r.total_error = 1 / 2 := by
  intro j
  induction j with
  | zero =>
    intro hp hpos
    have hb := scalar_iteration_body (fun v => Except.ok (2 * v)) hp (2 * hp.solution) rfl
    refine ⟨_, by simpa only [Heat_Pipe.iterates] using hb, ?_⟩
    show (1 : ℝ) - |(|hp.solution| / |2 * hp.solution|)| = 1 / 2
    rw [abs_of_pos hpos, abs_of_pos (by linarith : (0 : ℝ) < 2 * hp.solution)]
    have : hp.solution / (2 * hp.solution) = 1 / 2 := by
      rw [div_eq_iff (by linarith : (2 : ℝ) * hp.solution ≠ 0)]
      ring
    rw [this, abs_of_pos (by norm_num : (0 : ℝ) < 1 / 2)]
    norm_num
  | succ j ih =>
    intro hp hpos
    have hb := scalar_iteration_body (fun v => Except.ok (2 * v)) hp (2 * hp.solution) rfl
    rw [iterates_succ_ok Libm.real _ hp _ j hb]
    exact ih _ (by simpa using hpos)

/-- C20: the convergence loop has no iteration cap.  There is a solver (one
that doubles the field in every solve) for which every pass has
`|total_error| > 5e-4` and the loop is still running after `k` passes, for
every `k`; and when the loop ends with an error, that error was thrown in
some pass by `assemble_system_temperature` or by `solve_temperature`, never
by the loop itself. -/
theorem converge_has_no_iteration_cap :
    (∃ (fe : FiniteElements ℝ ℝ Unit) (hp : Heat_Pipe ℝ ℝ Unit), ∀ k : Nat,
      Heat_Pipe.converge Libm.real fe k hp 0 = none ∧
        ∃ r, Heat_Pipe.iterates Libm.real fe hp k = Except.ok r ∧ 5e-4 < |r.total_error|) ∧
    (∀ (V S : Type) (fe : FiniteElements ℝ V S) (fuel : Nat) (hp : Heat_Pipe ℝ V S) (e : Int),
      Heat_Pipe.converge Libm.real fe fuel hp 0 = some (Except.error e) →
        ∃ j, j < fuel ∧ Heat_Pipe.iterates Libm.real fe hp j = Except.error e) ∧
    (∀ (V S : Type) (fe : FiniteElements ℝ V S) (h : Heat_Pipe ℝ V S) (e : Int),
      h.iteration_body Libm.real fe = Except.error e →
        h.assemble_system_temperature Libm.real fe = Except.error e ∨
          ∃ a, h.assemble_system_temperature Libm.real fe = Except.ok a ∧
            a.solve_temperature fe = Except.error e) := by
  refine ⟨⟨FiniteElements.scalar [] (fun v => Except.ok (2 * v)), Heat_Pipe.unit_field,
    fun k => ⟨doubling_never_converges k _ 0 (by norm_num [Heat_Pipe.unit_field]), ?_⟩⟩,
    fun V S fe fuel hp e h => converge_error Libm.real fe fuel hp 0 e h,
    fun V S fe h e he => iteration_body_error Libm.real fe h e he⟩
  obtain ⟨r, hr, he⟩ := doubling_iterates k Heat_Pipe.unit_field
    (by norm_num [Heat_Pipe.unit_field])
  refine ⟨r, hr, ?_⟩
  rw [he, abs_of_pos (by norm_num : (0 : ℝ) < 1 / 2)]
  norm_num

/-- A time step that ends normally: `update_met_data` and the loop ended
normally, and the step leaves `solution` as the loop left it and
`old_solution` equal to it. -/
theorem run_time_step_ok {α V S : Type} [LinearOrderedField α] (L : Libm α)
    (fe : FiniteElements α V S) (files : DataFiles α V S) (fuel : Nat)
    (hp hp' : Heat_Pipe α V S) (oc oc' : Nat)
    (h : Heat_Pipe.run_time_step L fe files fuel hp oc = some (Except.ok (hp', oc'))) :
    ∃ hp0 hpc n, hp.update_met_data L files = Except.ok hp0 ∧
      Heat_Pipe.converge L fe fuel hp0 0 = some (Except.ok (hpc, n)) ∧
      hp'.solution = hpc.solution ∧ hp'.old_solution = hpc.solution := by
  unfold Heat_Pipe.run_time_step at h
  cases hu : hp.update_met_data L files with
  | error e => simp [hu] at h
  | ok hp0 =>
    cases hc : Heat_Pipe.converge L fe fuel hp0 0 with
    | none => simp [hu, hc] at h
    | some res =>
      cases res with
      | error e => simp [hu, hc] at h
      | ok pair =>
        obtain ⟨hpc, n⟩ := pair
        refine ⟨hp0, hpc, n, rfl, hc, ?_⟩
        simp only [hu, hc] at h
        split at h
        · simp at h
        · split at h
          · simp at h
          · rename_i hp3 hfill
            simp only [Option.some.injEq, Except.ok.injEq, Prod.mk.injEq] at h
            obtain ⟨h, _⟩ := h
            subst h
            have hs := (fill_output_vectors_solution fe _ hp3 hfill).1
            exact ⟨hs, hs⟩

/-- C19: the old field is overwritten only after convergence.  In a time step
no pass of the assemble and solve loop changes `old_solution`: after
`update_met_data`, after every assembly and after every solve it is the
vector the step began with.  When the step ends normally, the loop has ended
normally, still with that `old_solution`, and the step has then set
`old_solution` to the converged `solution`. -/
theorem old_solution_overwritten_after_convergence {V S : Type} (fe : FiniteElements ℝ V S)
    (files : DataFiles ℝ V S) (fuel : Nat) (hp : Heat_Pipe ℝ V S) (output_count : Nat) :
    (∀ hp0, hp.update_met_data Libm.real files = Except.ok hp0 →
      hp0.old_solution = hp.old_solution ∧
        ∀ j r, Heat_Pipe.iterates Libm.real fe hp0 j = Except.ok r →
          r.assembled.old_solution = hp.old_solution ∧
            r.state.old_solution = hp.old_solution) ∧
    (∀ hp' output_count',
      Heat_Pipe.run_time_step Libm.real fe files fuel hp output_count
          = some (Except.ok (hp', output_count')) →
        ∃ hp0 hpc n, hp.update_met_data Libm.real files = Except.ok hp0 ∧
          Heat_Pipe.converge Libm.real fe fuel hp0 0 = some (Except.ok (hpc, n)) ∧
          hpc.old_solution = hp.old_solution ∧
          hp'.solution = hpc.solution ∧ hp'.old_solution = hpc.solution) := by
  constructor
  · intro hp0 hu
    have h0 := (update_met_data_old_solution Libm.real files hp hp0 hu).1
    refine ⟨h0, fun j r hr => ?_⟩
    have h1 := iterates_old_solution Libm.real fe j hp0 r hr
    exact ⟨h1.1.trans h0, h1.2.trans h0⟩
  · intro hp' oc' h
    obtain ⟨hp0, hpc, n, hu, hc, hs, ho⟩ :=
      run_time_step_ok Libm.real fe files fuel hp hp' output_count oc' h
    refine ⟨hp0, hpc, n, hu, hc, ?_, hs, ho⟩
    have h0 := (update_met_data_old_solution Libm.real files hp hp0 hu).1
    obtain ⟨j, r, _, _, hr, hst, _, _⟩ := (converge_ok_iff Libm.real fe fuel hp0 0 hpc n).mp hc
    have h1 := (iterates_old_solution Libm.real fe j hp0 r hr).2
    rw [← hst]
    exact h1.trans h0

/-- A time step on `unit_field` with the solver that returns its input ends
normally after one pass. -/
theorem unit_field_run_time_step :
    ∃ hp', Heat_Pipe.run_time_step Libm.real (FiniteElements.scalar [] Except.ok)
      DataFiles.missing 1 (Heat_Pipe.unit_field : Heat_Pipe ℝ ℝ Unit) 0
        = some (Except.ok (hp', 0)) := by
  have hu : (Heat_Pipe.unit_field : Heat_Pipe ℝ ℝ Unit).update_met_data Libm.real
      DataFiles.missing = Except.ok Heat_Pipe.unit_field := by
    simp [Heat_Pipe.update_met_data, Heat_Pipe.unit_field, Heat_Pipe.init,
      AllParameters.unit_layers, bind, Except.bind]
  have hb := scalar_iteration_body Except.ok (Heat_Pipe.unit_field : Heat_Pipe ℝ ℝ Unit) 1 rfl
  have he : (1 : ℝ) - |(|(Heat_Pipe.unit_field : Heat_Pipe ℝ ℝ Unit).solution| / |(1 : ℝ)|)|
      = 0 := by
    simp [Heat_Pipe.unit_field]
  have hc : Heat_Pipe.converge Libm.real (FiniteElements.scalar [] Except.ok) 1
      (Heat_Pipe.unit_field : Heat_Pipe ℝ ℝ Unit) 0 = some (Except.ok
        ({ (Heat_Pipe.unit_field : Heat_Pipe ℝ ℝ Unit) with
            column_thermal_energy := 0, solution := 1 }, 1)) := by
    simp only [Heat_Pipe.converge, hb, he]
    norm_num [Heat_Pipe.unit_field]
  simp only [Heat_Pipe.run_time_step, hu, hc]
  simp [Heat_Pipe.fill_output_vectors, Heat_Pipe.unit_field,
    Heat_Pipe.init, AllParameters.unit_layers, List.mapM.loop, pure, Except.pure]

theorem old_solution_overwritten_after_convergence_witness :
    ∃ hp' hpc : Heat_Pipe ℝ ℝ Unit,
      Heat_Pipe.run_time_step Libm.real (FiniteElements.scalar [] Except.ok)
        DataFiles.missing 1 (Heat_Pipe.unit_field : Heat_Pipe ℝ ℝ Unit) 0
          = some (Except.ok (hp', 0)) ∧
      hpc.old_solution = (Heat_Pipe.unit_field : Heat_Pipe ℝ ℝ Unit).old_solution ∧
      hp'.old_solution = hpc.solution := by
  obtain ⟨hp', h⟩ := unit_field_run_time_step
  obtain ⟨_, hpc, _, _, _, h1, _, h2⟩ :=
    (old_solution_overwritten_after_convergence (FiniteElements.scalar [] Except.ok)
      DataFiles.missing 1 Heat_Pipe.unit_field 0).2 hp' 0 h
  exact ⟨hp', hpc, h, h1, h2⟩

/-! ### The apparent heat capacity and the stored energy -/

/-- Away from the freezing point the ice saturation has the derivative that
`degree_of_saturation_ice_derivative` returns. -/
theorem ice_saturation_hasDerivAt (m : PorousMaterial ℝ) (T : ℝ)
    (hT : T ≠ m.freezing_point) :
    HasDerivAt (fun t => m.degree_of_saturation_ice Libm.real t)
      (m.degree_of_saturation_ice_derivative Libm.real T) T := by
  rcases lt_or_gt_of_ne hT with hlt | hgt
  · have hu : (0 : ℝ) < 1 - (T - m.freezing_point) := by linarith
    have h1 : HasDerivAt (fun t : ℝ => 1 - (t - m.freezing_point)) (-1) T := by
      simpa using ((hasDerivAt_id T).sub_const m.freezing_point).const_sub 1
    have h2 := (h1.rpow_const (Or.inl hu.ne') : HasDerivAt
      (fun t : ℝ => (1 - (t - m.freezing_point)) ^ m.coefficient_alpha) _ T).const_sub 1
    have hev : (fun t => m.degree_of_saturation_ice Libm.real t) =ᶠ[nhds T]
        (fun t : ℝ => 1 - (1 - (t - m.freezing_point)) ^ m.coefficient_alpha) := by
      filter_upwards [eventually_lt_nhds hlt] with t ht
      simp only [PorousMaterial.degree_of_saturation_ice, if_pos ht.le, Libm.real_pow]
    have h3 := h2.congr_of_eventuallyEq hev
    convert h3 using 1
    simp only [PorousMaterial.degree_of_saturation_ice_derivative, if_pos hlt.le, Libm.real_pow]
    ring
  · have hev : (fun t => m.degree_of_saturation_ice Libm.real t) =ᶠ[nhds T]
        (fun _ : ℝ => (0 : ℝ)) := by
      filter_upwards [eventually_gt_nhds hgt] with t ht
      simp only [PorousMaterial.degree_of_saturation_ice, if_neg (not_le.mpr ht)]
    have h0 := (hasDerivAt_const T (0 : ℝ)).congr_of_eventuallyEq hev
    convert h0 using 1
    simp only [PorousMaterial.degree_of_saturation_ice_derivative, if_neg (not_le.mpr hgt)]

/-- C22: the apparent heat capacity is the temperature derivative of the
stored thermal energy: at every temperature other than the freezing point
`thermal_energy` is differentiable and its derivative is
`volumetric_heat_capacity`. -/
theorem thermal_energy_hasDerivAt (m : PorousMaterial ℝ) (T : ℝ)
    (hT : T ≠ m.freezing_point) :
    HasDerivAt (fun t => m.thermal_energy Libm.real t)
      (m.volumetric_heat_capacity Libm.real T) T := by
  have hf := ice_saturation_hasDerivAt m T hT
  have hfun : (fun t => m.thermal_energy Libm.real t) = fun t =>
      ((m.porosity * m.degree_of_saturation * m.liquid_specific_heat_capacity * m.liquid_density
          + m.porosity * m.gas_specific_heat_capacity * m.gas_density *
            (1 - m.degree_of_saturation)
          + m.solids_specific_heat_capacity * m.solids_density * (1 - m.porosity))
        + (m.porosity * m.degree_of_saturation *
            (m.ice_specific_heat_capacity * m.ice_density
              - m.liquid_specific_heat_capacity * m.liquid_density)) *
          m.degree_of_saturation_ice Libm.real t) * (t - m.reference_temperature)
      - (m.latent_heat_of_fusion * m.porosity * m.degree_of_saturation * m.ice_density) *
          m.degree_of_saturation_ice Libm.real t := by
    funext t
    simp only [PorousMaterial.thermal_energy]
    ring
  rw [hfun]
  have h := (((hf.const_mul (m.porosity * m.degree_of_saturation *
      (m.ice_specific_heat_capacity * m.ice_density
        - m.liquid_specific_heat_capacity * m.liquid_density))).const_add
      (m.porosity * m.degree_of_saturation * m.liquid_specific_heat_capacity * m.liquid_density
        + m.porosity * m.gas_specific_heat_capacity * m.gas_density *
          (1 - m.degree_of_saturation)
        + m.solids_specific_heat_capacity * m.solids_density * (1 - m.porosity))).mul
      ((hasDerivAt_id T).sub_const m.reference_temperature)).sub
      (hf.const_mul (m.latent_heat_of_fusion * m.porosity * m.degree_of_saturation *
        m.ice_density))
  convert h using 1
  simp only [PorousMaterial.volumetric_heat_capacity, id]
  ring

theorem thermal_energy_hasDerivAt_witness :
    HasDerivAt
      (fun t => (PorousMaterial.ofValues 1 2 3 (1 / 2) (1 / 2) : PorousMaterial ℝ).thermal_energy
        Libm.real t)
      ((PorousMaterial.ofValues 1 2 3 (1 / 2) (1 / 2) : PorousMaterial ℝ).volumetric_heat_capacity
        Libm.real (-10)) (-10) :=
  thermal_energy_hasDerivAt (PorousMaterial.ofValues 1 2 3 (1 / 2) (1 / 2)) (-10)
    (by norm_num [PorousMaterial.ofValues, PorousMaterial.init])

/-- C26: the derivative used for the latent heat does not vanish at the
freezing point: `degree_of_saturation_ice_derivative` returns `alpha` there
and `0` above it, so the heat capacity at the freezing point exceeds the
heat capacity at any temperature above it by
`porosity * alpha * S * ((T_f - T_ref) * (rho_ice*cp_ice - rho_liquid*cp_liquid) - rho_ice*L_fusion)`. -/
theorem volumetric_heat_capacity_jump_at_freezing_point (m : PorousMaterial ℝ) :
    m.degree_of_saturation_ice_derivative Libm.real m.freezing_point = m.coefficient_alpha ∧
    (∀ T : ℝ, m.freezing_point < T →
      m.degree_of_saturation_ice_derivative Libm.real T = 0) ∧
    (∀ T : ℝ, m.freezing_point < T →
      m.volumetric_heat_capacity Libm.real m.freezing_point =
        m.volumetric_heat_capacity Libm.real T +
          m.porosity * m.coefficient_alpha * m.degree_of_saturation *
            ((m.freezing_point - m.reference_temperature) *
                (m.ice_density * m.ice_specific_heat_capacity
                  - m.liquid_density * m.liquid_specific_heat_capacity)
              - m.ice_density * m.latent_heat_of_fusion)) := by
  refine ⟨?_, fun T hT => ?_, fun T hT => ?_⟩
  · simp [PorousMaterial.degree_of_saturation_ice_derivative, Libm.real_pow]
  · simp [PorousMaterial.degree_of_saturation_ice_derivative, not_le.mpr hT]
  · simp only [PorousMaterial.volumetric_heat_capacity, PorousMaterial.degree_of_saturation_ice,
      PorousMaterial.degree_of_saturation_ice_derivative, if_neg (not_le.mpr hT),
      if_pos (le_refl m.freezing_point), Libm.real_pow, sub_self, sub_zero, Real.one_rpow]
    ring

/-- C23: for a contiguous stack, `depth_{i+1} = depth_i + thickness_i` for
`i = 0, 1, 2, 3`, the layer lookup is total: every position selects exactly
one of the layers `0..4`, and the branch that throws "Cell centre not found"
is never taken. -/
theorem layer_number_total (P : AllParameters ℝ) (x : ℝ)
    (c1 : P.material_1_depth = P.material_0_depth + P.material_0_thickness)
    (c2 : P.material_2_depth = P.material_1_depth + P.material_1_thickness)
    (c3 : P.material_3_depth = P.material_2_depth + P.material_2_thickness)
    (c4 : P.material_4_depth = P.material_3_depth + P.material_3_thickness) :
    (∃! i : Fin 5, Heat_Pipe.layer_number P x = Except.ok i) ∧
      ∀ e, Heat_Pipe.layer_number P x ≠ Except.error e := by
  have hex : ∃ i : Fin 5, Heat_Pipe.layer_number P x = Except.ok i := by
    unfold Heat_Pipe.layer_number
    by_cases h0 : x > -1 * (P.material_0_depth + P.material_0_thickness)
    · exact ⟨0, by rw [if_pos h0]⟩
    · by_cases h1 : x > -1 * (P.material_1_depth + P.material_1_thickness)
      · exact ⟨1, by rw [if_neg h0, if_pos ⟨by linarith, h1⟩]⟩
      · by_cases h2 : x > -1 * (P.material_2_depth + P.material_2_thickness)
        · exact ⟨2, by rw [if_neg h0, if_neg (fun hc => h1 hc.2),
            if_pos ⟨by linarith, h2⟩]⟩
        · by_cases h3 : x > -1 * (P.material_3_depth + P.material_3_thickness)
          · exact ⟨3, by rw [if_neg h0, if_neg (fun hc => h1 hc.2),
              if_neg (fun hc => h2 hc.2), if_pos ⟨by linarith, h3⟩]⟩
          · exact ⟨4, by rw [if_neg h0, if_neg (fun hc => h1 hc.2),
              if_neg (fun hc => h2 hc.2), if_neg (fun hc => h3 hc.2),
              if_pos (by linarith)]⟩
  obtain ⟨i, hi⟩ := hex
  refine ⟨⟨i, hi, fun j hj => ?_⟩, fun e he => ?_⟩
  · rw [hi, Except.ok.injEq] at hj
    exact hj.symm
  · rw [hi] at he
    simp at he

theorem layer_number_total_witness :
    (∃! i : Fin 5, Heat_Pipe.layer_number (AllParameters.unit_layers : AllParameters ℝ) (-2.5)
      = Except.ok i) ∧
      ∀ e, Heat_Pipe.layer_number (AllParameters.unit_layers : AllParameters ℝ) (-2.5)
        ≠ Except.error e :=
  layer_number_total (AllParameters.unit_layers) (-2.5)
    (by norm_num [AllParameters.unit_layers]) (by norm_num [AllParameters.unit_layers])
    (by norm_num [AllParameters.unit_layers]) (by norm_num [AllParameters.unit_layers])

/-! ### The outputs of `material_data` and the column energy -/

/-- A normal return of `material_data`: the layer was found, the relationship
was known, no coefficient was negative, and the four outputs are these. -/
theorem material_data_ok {α V S : Type} [LinearOrderedField α] (L : Libm α)
    (fe : FiniteElements α V S) (hp : Heat_Pipe α V S) (x T d : α) (out : MaterialData α)
    (h : hp.material_data L fe x T d = Except.ok out) :
    ∃ i k, Heat_Pipe.layer_number hp.parameters x = Except.ok i ∧
      (hp.layer_material i).thermal_conductivity L (hp.layer_relationship i) = Except.ok k ∧
      out =
        { thermal_conductivity := k
          total_volumetric_heat_capacity := (hp.layer_material i).volumetric_heat_capacity L T
          thermal_energy :=
            d * (hp.layer_material i).thermal_energy L
              (hp.theta_temperature * fe.point_value hp.solution x +
                (1 - hp.theta_temperature) * fe.point_value hp.old_solution x)
          ice_saturation := (hp.layer_material i).degree_of_saturation_ice L T } := by
  cases hi : Heat_Pipe.layer_number hp.parameters x with
  | error e => simp [Heat_Pipe.material_data, hi] at h
  | ok i =>
    cases hk : (hp.layer_material i).thermal_conductivity L (hp.layer_relationship i) with
    | error e =>
      simp only [Heat_Pipe.layer_material, Heat_Pipe.layer_relationship] at hk
      simp [Heat_Pipe.material_data, hi, hk] at h
    | ok k =>
      rw [material_data_of_layer L fe hp x T d i k hi hk] at h
      split_ifs at h
      rw [Except.ok.injEq] at h
      exact ⟨i, k, rfl, hk, h.symm⟩

/-- Two normal returns of `material_data` at the same position and with the
same cell diameter carry the same `thermal_energy`. -/
theorem material_data_thermal_energy_eq {α V S : Type} [LinearOrderedField α] (L : Libm α)
    (fe : FiniteElements α V S) (hp : Heat_Pipe α V S) (x d T1 T2 : α)
    (o1 o2 : MaterialData α)
    (h1 : hp.material_data L fe x T1 d = Except.ok o1)
    (h2 : hp.material_data L fe x T2 d = Except.ok o2) :
    o1.thermal_energy = o2.thermal_energy := by
  obtain ⟨i, k, hi, _, e1⟩ := material_data_ok L fe hp x T1 d o1 h1
  obtain ⟨j, l, hj, _, e2⟩ := material_data_ok L fe hp x T2 d o2 h2
  rw [hi, Except.ok.injEq] at hj
  subst hj
  rw [e1, e2]

/-- C27: the `thermal_energy` output of `material_data` does not depend on
the argument `cell_temperature`.  It is the cell diameter times
`thermal_energy` at the blend of the stored fields at the position, while
the heat capacity and the ice saturation are taken at `cell_temperature`;
two calls that differ only in `cell_temperature` return the same
`thermal_energy`, and so do the five calls of the layer print-out of `run`,
which pass `25`. -/
theorem material_data_thermal_energy_independent {V S : Type} (fe : FiniteElements ℝ V S)
    (hp : Heat_Pipe ℝ V S) :
    (∀ (x T d : ℝ) (out : MaterialData ℝ),
      hp.material_data Libm.real fe x T d = Except.ok out →
        ∃ i, Heat_Pipe.layer_number hp.parameters x = Except.ok i ∧
          out.thermal_energy =
            d * (hp.layer_material i).thermal_energy Libm.real
              (hp.theta_temperature * fe.point_value hp.solution x +
                (1 - hp.theta_temperature) * fe.point_value hp.old_solution x) ∧
          out.total_volumetric_heat_capacity =
            (hp.layer_material i).volumetric_heat_capacity Libm.real T ∧
          out.ice_saturation = (hp.layer_material i).degree_of_saturation_ice Libm.real T) ∧
    (∀ (x d T1 T2 : ℝ) (o1 o2 : MaterialData ℝ),
      hp.material_data Libm.real fe x T1 d = Except.ok o1 →
      hp.material_data Libm.real fe x T2 d = Except.ok o2 →
        o1.thermal_energy = o2.thermal_energy) ∧
    (∀ outs, hp.run_print_layers Libm.real fe = Except.ok outs →
      ∃ o0 o1 o2 o3 o4, outs = [o0, o1, o2, o3, o4] ∧
        ∀ (T : ℝ) (o : MaterialData ℝ),
          (hp.material_data Libm.real fe
              (-hp.parameters.material_0_depth - 0.5 * hp.parameters.material_0_thickness) T
              (hp.parameters.domain_size / hp.parameters.refinement_level ^ (2 : ℝ))
            = Except.ok o → o.thermal_energy = o0.thermal_energy) ∧
          (hp.material_data Libm.real fe
              (-hp.parameters.material_1_depth - 0.5 * hp.parameters.material_1_thickness) T
              (hp.parameters.domain_size / hp.parameters.refinement_level ^ (2 : ℝ))
            = Except.ok o → o.thermal_energy = o1.thermal_energy) ∧
          (hp.material_data Libm.real fe
              (-hp.parameters.material_2_depth - 0.5 * hp.parameters.material_2_thickness) T
              (hp.parameters.domain_size / hp.parameters.refinement_level ^ (2 : ℝ))
            = Except.ok o → o.thermal_energy = o2.thermal_energy) ∧
          (hp.material_data Libm.real fe
              (-hp.parameters.material_3_depth - 0.5 * hp.parameters.material_3_thickness) T
              (hp.parameters.domain_size / hp.parameters.refinement_level ^ (2 : ℝ))
            = Except.ok o → o.thermal_energy = o3.thermal_energy) ∧
          (hp.material_data Libm.real fe
              (-hp.parameters.material_4_depth - 0.5 * hp.parameters.material_4_thickness) T
              (hp.parameters.domain_size / hp.parameters.refinement_level ^ (2 : ℝ))
            = Except.ok o → o.thermal_energy = o4.thermal_energy)) := by
  refine ⟨fun x T d out h => ?_, fun x d T1 T2 o1 o2 h1 h2 =>
    material_data_thermal_energy_eq Libm.real fe hp x d T1 T2 o1 o2 h1 h2, fun outs h => ?_⟩
  · obtain ⟨i, k, hi, _, e⟩ := material_data_ok Libm.real fe hp x T d out h
    exact ⟨i, hi, by rw [e], by rw [e], by rw [e]⟩
  · unfold Heat_Pipe.run_print_layers at h
    simp only [Libm.real_pow] at h
    rw [except_bind_eq_ok] at h
    obtain ⟨o0, h0, h⟩ := h
    rw [except_bind_eq_ok] at h
    obtain ⟨o1, h1, h⟩ := h
    rw [except_bind_eq_ok] at h
    obtain ⟨o2, h2, h⟩ := h
    rw [except_bind_eq_ok] at h
    obtain ⟨o3, h3, h⟩ := h
    rw [except_bind_eq_ok] at h
    obtain ⟨o4, h4, h⟩ := h
    rw [Except.ok.injEq] at h
    refine ⟨o0, o1, o2, o3, o4, h.symm, fun T o => ⟨fun ho => ?_, fun ho => ?_, fun ho => ?_,
      fun ho => ?_, fun ho => ?_⟩⟩
    · exact material_data_thermal_energy_eq Libm.real fe hp _ _ T 25 o o0 ho h0
    · exact material_data_thermal_energy_eq Libm.real fe hp _ _ T 25 o o1 ho h1
    · exact material_data_thermal_energy_eq Libm.real fe hp _ _ T 25 o o2 ho h2
    · exact material_data_thermal_energy_eq Libm.real fe hp _ _ T 25 o o3 ho h3
    · exact material_data_thermal_energy_eq Libm.real fe hp _ _ T 25 o o4 ho h4

/-- The call `material_data(-0.5, T, 1, ...)` of `material_data_unit_layers`
for any temperature above the freezing point `0`. -/
theorem material_data_unit_layers_above (T : ℝ) (hT : 0 < T) :
    (Heat_Pipe.init (FiniteElements.scalar [] Except.ok)
        (AllParameters.unit_layers : AllParameters ℝ) []).material_data Libm.real
        (FiniteElements.scalar [] Except.ok) (-0.5) T 1
      = Except.ok ⟨1, 6, 0, 0⟩ := by
  have hl : Heat_Pipe.layer_number (Heat_Pipe.init (FiniteElements.scalar [] Except.ok)
      (AllParameters.unit_layers : AllParameters ℝ) []).parameters (-0.5) = Except.ok 0 := by
    norm_num [Heat_Pipe.layer_number, AllParameters.unit_layers, Heat_Pipe.init]
  have hm : (Material.ofName "dummy_1" : Material ℝ) = ⟨1, 2, 3⟩ := by
    simp [Material.ofName, Material.material_data]
  rw [material_data_of_layer Libm.real _ _ _ _ _ 0 1 hl (thermal_conductivity_bulk_eq _ _)]
  norm_num [Heat_Pipe.layer_material, Heat_Pipe.init, AllParameters.unit_layers,
    PorousMaterial.ofName, PorousMaterial.init, hm,
    PorousMaterial.volumetric_heat_capacity,
    PorousMaterial.thermal_energy, PorousMaterial.degree_of_saturation_ice,
    PorousMaterial.degree_of_saturation_ice_derivative, FiniteElements.scalar, Libm.real_pow,
    not_le.mpr hT]

theorem material_data_thermal_energy_independent_witness :
    ∃ o1 o2 : MaterialData ℝ,
      (Heat_Pipe.init (FiniteElements.scalar [] Except.ok)
        (AllParameters.unit_layers : AllParameters ℝ) []).material_data Libm.real
        (FiniteElements.scalar [] Except.ok) (-0.5) 25 1 = Except.ok o1 ∧
      (Heat_Pipe.init (FiniteElements.scalar [] Except.ok)
        (AllParameters.unit_layers : AllParameters ℝ) []).material_data Libm.real
        (FiniteElements.scalar [] Except.ok) (-0.5) 10 1 = Except.ok o2 ∧
      o1.thermal_energy = o2.thermal_energy :=
  ⟨_, _, material_data_unit_layers_above 25 (by norm_num),
    material_data_unit_layers_above 10 (by norm_num),
    (material_data_thermal_energy_independent (FiniteElements.scalar [] Except.ok)
      (Heat_Pipe.init (FiniteElements.scalar [] Except.ok) AllParameters.unit_layers [])).2.1
      (-0.5) 1 25 10 _ _ (material_data_unit_layers_above 25 (by norm_num))
      (material_data_unit_layers_above 10 (by norm_num))⟩

/-- `List.mapM` into `Except` returns a list exactly when the function
returns on every element, and then element by element. -/
theorem mapM_except_ok_iff {ε β γ : Type} (f : β → Except ε γ) :
    ∀ (l : List β) (ys : List γ),
      l.mapM f = Except.ok ys ↔ List.Forall₂ (fun b y => f b = Except.ok y) l ys := by
  intro l
  induction l with
  | nil =>
    intro ys
    rw [List.mapM_nil]
    constructor
    · intro h
      simp only [pure, Except.pure, Except.ok.injEq] at h
      subst h
      exact List.Forall₂.nil
    · intro h
      cases h
      rfl
  | cons b l ih =>
    intro ys
    rw [List.mapM_cons, except_bind_eq_ok]
    constructor
    · rintro ⟨y, hy, h⟩
      rw [except_bind_eq_ok] at h
      obtain ⟨ys', hys, h⟩ := h
      simp only [pure, Except.pure, Except.ok.injEq] at h
      subst h
      exact List.Forall₂.cons hy ((ih ys').mp hys)
    · intro h
      cases h with
      | cons hy hrest =>
        rename_i y ys'
        refine ⟨y, hy, ?_⟩
        rw [except_bind_eq_ok]
        exact ⟨ys', (ih ys').mpr hrest, rfl⟩

theorem foldl_add_eq_sum {α γ : Type} [LinearOrderedField α] (g : γ → α) :
    ∀ (l : List γ) (a : α), l.foldl (fun e c => e + g c) a = a + (l.map g).sum := by
  intro l
  induction l with
  | nil =>
    intro a
    simp
  | cons c l ih =>
    intro a
    rw [List.foldl_cons, ih, List.map_cons, List.sum_cons]
    ring

theorem mapM_except_ok_of_forall {ε β γ : Type} (f : β → Except ε γ) :
    ∀ l : List β, (∀ b ∈ l, ∃ y, f b = Except.ok y) → ∃ ys, l.mapM f = Except.ok ys := by
  intro l
  induction l with
  | nil =>
    intro _
    exact ⟨[], rfl⟩
  | cons b l ih =>
    intro h
    obtain ⟨y, hy⟩ := h b (List.mem_cons_self b l)
    obtain ⟨ys, hys⟩ := ih (fun c hc => h c (List.mem_cons_of_mem b hc))
    exact ⟨y :: ys, (mapM_except_ok_iff f (b :: l) (y :: ys)).mpr
      (List.Forall₂.cons hy ((mapM_except_ok_iff f l ys).mp hys))⟩

theorem mapM_except_error {ε β γ : Type} (f : β → Except ε γ) (l : List β) (e : ε)
    (h : l.mapM f = Except.error e) : ∃ b ∈ l, ∃ e0, f b = Except.error e0 := by
  by_contra hne
  push_neg at hne
  have hall : ∀ b ∈ l, ∃ y, f b = Except.ok y := by
    intro b hb
    cases hf : f b with
    | error e0 => exact absurd hf (hne b hb e0)
    | ok y => exact ⟨y, rfl⟩
  obtain ⟨ys, hys⟩ := mapM_except_ok_of_forall f l hall
  rw [hys] at h
  simp at h

theorem map_eq_map_of_forall₂ {β γ δ : Type} (R : β → γ → Prop) (g : γ → δ) (k : β → δ)
    (hR : ∀ b y, R b y → g y = k b) :
    ∀ (l : List β) (ys : List γ), List.Forall₂ R l ys → ys.map g = l.map k := by
  intro l ys h
  induction h with
  | nil => rfl
  | cons hy _ ih => rw [List.map_cons, List.map_cons, hR _ _ hy, ih]

/-- C24: after a call of `assemble_system_temperature` that returns,
`column_thermal_energy` is the sum over the active cells of the cell
diameter times `thermal_energy` at `theta * T_new + (1 - theta) * T_old` at
the cell centre, for the material of the layer resolved there; the value
does not depend on `column_thermal_energy` before the call; and the call
returns whenever `material_data` returns for every cell. -/
theorem column_thermal_energy_eq_sum {V S : Type} (fe : FiniteElements ℝ V S)
    (hp : Heat_Pipe ℝ V S) :
    (∀ a, hp.assemble_system_temperature Libm.real fe = Except.ok a →
      a.column_thermal_energy = hp.spec_column_thermal_energy Libm.real fe) ∧
    (∀ (c0 : ℝ) (a a' : Heat_Pipe ℝ V S),
      hp.assemble_system_temperature Libm.real fe = Except.ok a →
      ({ hp with column_thermal_energy := c0 } : Heat_Pipe ℝ V S).assemble_system_temperature
        Libm.real fe = Except.ok a' →
      a'.column_thermal_energy = a.column_thermal_energy) ∧
    ((∀ cell ∈ fe.active_cells, ∃ out,
        hp.material_data Libm.real fe cell.1
          (hp.theta_temperature * fe.point_value hp.solution cell.1 +
            (1 - hp.theta_temperature) * fe.point_value hp.old_solution cell.1) cell.2
          = Except.ok out) →
      ∃ a, hp.assemble_system_temperature Libm.real fe = Except.ok a) := by
  have key : ∀ (h0 : Heat_Pipe ℝ V S) (a : Heat_Pipe ℝ V S),
      h0.assemble_system_temperature Libm.real fe = Except.ok a →
        a.column_thermal_energy = h0.spec_column_thermal_energy Libm.real fe := by
    intro h0 a h
    unfold Heat_Pipe.assemble_system_temperature at h
    split at h
    · simp at h
    · rename_i cells hcells
      rw [Except.ok.injEq] at h
      subst h
      rw [mapM_except_ok_iff] at hcells
      show List.foldl (fun energy cell => energy + cell.data.thermal_energy) 0 cells = _
      rw [foldl_add_eq_sum (fun cell : CellCoefficients ℝ => cell.data.thermal_energy), zero_add,
        Heat_Pipe.spec_column_thermal_energy]
      congr 1
      refine map_eq_map_of_forall₂ _ _ _ (fun cell y hy => ?_) _ _ hcells
      cases hd : h0.material_data Libm.real fe cell.1
          (h0.theta_temperature * fe.point_value h0.solution cell.1 +
            (1 - h0.theta_temperature) * fe.point_value h0.old_solution cell.1) cell.2 with
      | error e => simp [hd] at hy
      | ok data =>
        simp only [hd, Except.ok.injEq] at hy
        subst hy
        obtain ⟨i, k, hi, _, e⟩ := material_data_ok Libm.real fe h0 _ _ _ data hd
        simp only [Heat_Pipe.spec_cell_thermal_energy, hi]
        rw [e]
  refine ⟨key hp, fun c0 a a' h h' => ?_, fun hall => ?_⟩
  · rw [key hp a h, key _ a' h']
    rfl
  · cases h : hp.assemble_system_temperature Libm.real fe with
    | ok a => exact ⟨a, rfl⟩
    | error e =>
      exfalso
      unfold Heat_Pipe.assemble_system_temperature at h
      split at h
      · rename_i e0 hcells
        obtain ⟨cell, hc, e1, he1⟩ := mapM_except_error _ _ _ hcells
        obtain ⟨out, ho⟩ := hall cell hc
        simp only [ho] at he1
        simp at he1
      · simp at h

/-- On `unit_field` the layer at `-0.5` is layer 0, made of "dummy_1". -/
theorem unit_field_layer :
    Heat_Pipe.layer_number (Heat_Pipe.unit_field : Heat_Pipe ℝ ℝ Unit).parameters (-0.5)
      = Except.ok 0 ∧
    (Heat_Pipe.unit_field : Heat_Pipe ℝ ℝ Unit).layer_material 0 =
      PorousMaterial.init ⟨1, 2, 3⟩ 0 0 := by
  have hm : (Material.ofName "dummy_1" : Material ℝ) = ⟨1, 2, 3⟩ := by
    simp [Material.ofName, Material.material_data]
  constructor
  · norm_num [Heat_Pipe.layer_number, AllParameters.unit_layers, Heat_Pipe.init,
      Heat_Pipe.unit_field]
  · simp [Heat_Pipe.layer_material, Heat_Pipe.unit_field, Heat_Pipe.init,
      AllParameters.unit_layers, PorousMaterial.ofName, hm]

/-- The cell energy of the cell with centre `-0.5` and diameter `1` on
`unit_field`: the blend of the fields is `1` and the energy is `6`. -/
theorem unit_field_cell_energy :
    (Heat_Pipe.unit_field : Heat_Pipe ℝ ℝ Unit).spec_cell_thermal_energy Libm.real
      (FiniteElements.scalar [(-0.5, 1)] Except.ok) (-0.5, 1) = 6 := by
  simp only [Heat_Pipe.spec_cell_thermal_energy, unit_field_layer.1, unit_field_layer.2]
  norm_num [Heat_Pipe.unit_field, Heat_Pipe.init, AllParameters.unit_layers,
    FiniteElements.scalar, PorousMaterial.init, PorousMaterial.thermal_energy,
    PorousMaterial.degree_of_saturation_ice]

/-- The call of `material_data` that `assemble_system_temperature` makes for
that cell returns. -/
theorem unit_field_material_data :
    ∃ out, (Heat_Pipe.unit_field : Heat_Pipe ℝ ℝ Unit).material_data Libm.real
      (FiniteElements.scalar [(-0.5, 1)] Except.ok) (-0.5)
      ((Heat_Pipe.unit_field : Heat_Pipe ℝ ℝ Unit).theta_temperature *
          (FiniteElements.scalar [(-0.5, 1)] Except.ok).point_value
            (Heat_Pipe.unit_field : Heat_Pipe ℝ ℝ Unit).solution (-0.5) +
        (1 - (Heat_Pipe.unit_field : Heat_Pipe ℝ ℝ Unit).theta_temperature) *
          (FiniteElements.scalar [(-0.5, 1)] Except.ok).point_value
            (Heat_Pipe.unit_field : Heat_Pipe ℝ ℝ Unit).old_solution (-0.5)) 1
      = Except.ok out := by
  have hk : ((Heat_Pipe.unit_field : Heat_Pipe ℝ ℝ Unit).layer_material 0).thermal_conductivity
      Libm.real ((Heat_Pipe.unit_field : Heat_Pipe ℝ ℝ Unit).layer_relationship 0)
      = Except.ok 1 := by
    rw [unit_field_layer.2]
    exact thermal_conductivity_bulk_eq _ _
  rw [material_data_of_layer Libm.real _ _ _ _ _ 0 1 unit_field_layer.1 hk, unit_field_layer.2]
  rw [if_neg]
  · exact ⟨_, rfl⟩
  · norm_num [Heat_Pipe.unit_field, Heat_Pipe.init, AllParameters.unit_layers,
      FiniteElements.scalar, PorousMaterial.init, PorousMaterial.volumetric_heat_capacity,
      PorousMaterial.degree_of_saturation_ice,
      PorousMaterial.degree_of_saturation_ice_derivative]

theorem column_thermal_energy_eq_sum_witness :
    ∃ a, (Heat_Pipe.unit_field : Heat_Pipe ℝ ℝ Unit).assemble_system_temperature Libm.real
        (FiniteElements.scalar [(-0.5, 1)] Except.ok) = Except.ok a ∧
      a.column_thermal_energy = 6 := by
  have h := column_thermal_energy_eq_sum (FiniteElements.scalar [(-0.5, 1)] Except.ok)
    (Heat_Pipe.unit_field : Heat_Pipe ℝ ℝ Unit)
  obtain ⟨a, ha⟩ := h.2.2 (fun cell hc => by
    have hcell : cell = (-0.5, 1) := by simpa [FiniteElements.scalar] using hc
    subst hcell
    exact unit_field_material_data)
  refine ⟨a, ha, ?_⟩
  rw [h.1 a ha, Heat_Pipe.spec_column_thermal_energy]
  show ([((-0.5 : ℝ), (1 : ℝ))].map _).sum = 6
  rw [List.map_cons, List.map_nil, List.sum_cons, List.sum_nil, unit_field_cell_energy]
  norm_num

/-! ### The boundary scalars -/

/-- What `update_met_data` leaves in the four boundary temperatures when the
top boundary type is "first" or "third": the values of the diurnal formula
at `timestep_number` and at `timestep_number - 1`. -/
theorem update_met_data_temperatures {α V S : Type} [LinearOrderedField α] (L : Libm α)
    (files : DataFiles α V S) (hp out : Heat_Pipe α V S)
    (hbc : hp.parameters.boundary_condition_top = "first" ∨
      hp.parameters.boundary_condition_top = "third")
    (h : hp.update_met_data L files = Except.ok out) :
    out.new_room_temperature =
        15 + 10 * L.cos ((2 * L.M_PI / 86400) *
          ((hp.timestep_number : α) * hp.time_step - 54000)) ∧
      out.new_surface_temperature =
        15 + 10 * L.cos ((2 * L.M_PI / 86400) *
          ((hp.timestep_number : α) * hp.time_step - 54000)) ∧
      out.old_room_temperature =
        15 + 10 * L.cos ((2 * L.M_PI / 86400) *
          ((unsigned_pred hp.timestep_number : α) * hp.time_step - 54000)) ∧
      out.old_surface_temperature =
        15 + 10 * L.cos ((2 * L.M_PI / 86400) *
          ((unsigned_pred hp.timestep_number : α) * hp.time_step - 54000)) := by
  unfold Heat_Pipe.update_met_data at h
  rw [except_bind_eq_ok] at h
  obtain ⟨hp2, h2, h⟩ := h
  rw [if_pos hbc, except_bind_eq_ok] at h2
  obtain ⟨hp1, h1, h2⟩ := h2
  rw [Except.ok.injEq] at h2
  have e1 : hp1.timestep_number = hp.timestep_number ∧ hp1.time_step = hp.time_step := by
    by_cases hlen : hp.met_data.length = 0
    · rw [if_pos hlen, except_bind_eq_ok] at h1
      obtain ⟨tables, _, h1⟩ := h1
      rw [Except.ok.injEq] at h1
      subst h1
      exact ⟨rfl, rfl⟩
    · rw [if_neg hlen, Except.ok.injEq] at h1
      subst h1
      exact ⟨rfl, rfl⟩
  have e0 : out.new_room_temperature = hp2.new_room_temperature ∧
      out.new_surface_temperature = hp2.new_surface_temperature ∧
      out.old_room_temperature = hp2.old_room_temperature ∧
      out.old_surface_temperature = hp2.old_surface_temperature := by
    by_cases hps : hp2.parameters.point_source = true
    · rw [if_pos hps, except_bind_eq_ok] at h
      obtain ⟨hp3, h3, h⟩ := h
      rw [except_bind_eq_ok] at h
      obtain ⟨old_entry, _, h⟩ := h
      rw [except_bind_eq_ok] at h
      obtain ⟨new_entry, _, h⟩ := h
      rw [Except.ok.injEq] at h
      subst h
      by_cases hlen : hp2.point_source_magnitudes.length = 0
      · rw [if_pos hlen, except_bind_eq_ok] at h3
        obtain ⟨table, _, h3⟩ := h3
        rw [Except.ok.injEq] at h3
        subst h3
        exact ⟨rfl, rfl, rfl, rfl⟩
      · rw [if_neg hlen, Except.ok.injEq] at h3
        subst h3
        exact ⟨rfl, rfl, rfl, rfl⟩
    · rw [if_neg hps, Except.ok.injEq] at h
      subst h
      exact ⟨rfl, rfl, rfl, rfl⟩
  subst h2
  rw [e0.1, e0.2.1, e0.2.2.1, e0.2.2.2]
  simp only [e1.1, e1.2, and_self]

/-- For `1 ≤ n < 2 ^ 32` the `unsigned int` value of `n - 1` is `n - 1`. -/
theorem unsigned_pred_cast (n : Nat) (h1 : 1 ≤ n) (h2 : n < 4294967296) :
    ((unsigned_pred n : Nat) : ℝ) = (n : ℝ) - 1 := by
  have h : unsigned_pred n = n - 1 := by
    unfold unsigned_pred
    omega
  rw [h, Nat.cast_sub h1, Nat.cast_one]

/-- C21: for the top boundary types "first" and "third", at a step
`n ≥ 1` the four boundary temperatures that `update_met_data` leaves are the
values of the diurnal formula `15 + 10 cos((2 pi / 86400) (k dt - 54000))`
at `k = n` (new) and `k = n - 1` (old); they are the same for any two runs
with the same step number and step size, whatever the files and the tables
hold; and the function returns when the surface table is there (already
read, or read now) and the point source is off. -/
theorem update_met_data_boundary_scalars {V S : Type} (files : DataFiles ℝ V S)
    (hp : Heat_Pipe ℝ V S)
    (hbc : hp.parameters.boundary_condition_top = "first" ∨
      hp.parameters.boundary_condition_top = "third")
    (hn : 1 ≤ hp.timestep_number) (hlt : hp.timestep_number < 4294967296) :
    (∀ out, hp.update_met_data Libm.real files = Except.ok out →
      out.new_room_temperature =
          15 + 10 * Real.cos ((2 * Real.pi / 86400) *
            ((hp.timestep_number : ℝ) * hp.time_step - 54000)) ∧
        out.new_surface_temperature =
          15 + 10 * Real.cos ((2 * Real.pi / 86400) *
            ((hp.timestep_number : ℝ) * hp.time_step - 54000)) ∧
        out.old_room_temperature =
          15 + 10 * Real.cos ((2 * Real.pi / 86400) *
            (((hp.timestep_number : ℝ) - 1) * hp.time_step - 54000)) ∧
        out.old_surface_temperature =
          15 + 10 * Real.cos ((2 * Real.pi / 86400) *
            (((hp.timestep_number : ℝ) - 1) * hp.time_step - 54000))) ∧
    (∀ (files2 : DataFiles ℝ V S) (hp2 out out2 : Heat_Pipe ℝ V S),
      hp2.timestep_number = hp.timestep_number → hp2.time_step = hp.time_step →
      (hp2.parameters.boundary_condition_top = "first" ∨
        hp2.parameters.boundary_condition_top = "third") →
      hp.update_met_data Libm.real files = Except.ok out →
      hp2.update_met_data Libm.real files2 = Except.ok out2 →
        out2.new_room_temperature = out.new_room_temperature ∧
        out2.new_surface_temperature = out.new_surface_temperature ∧
        out2.old_room_temperature = out.old_room_temperature ∧
        out2.old_surface_temperature = out.old_surface_temperature) ∧
    (hp.parameters.point_source = false →
      (hp.met_data.length ≠ 0 ∨ ∃ tables, files.load_met_data hp = Except.ok tables) →
      ∃ out, hp.update_met_data Libm.real files = Except.ok out) := by
  refine ⟨fun out h => ?_, fun files2 hp2 out out2 hn2 hdt2 hbc2 h h2 => ?_, fun hps hload => ?_⟩
  · have e := update_met_data_temperatures Libm.real files hp out hbc h
    rw [unsigned_pred_cast _ hn hlt] at e
    exact e
  · have e := update_met_data_temperatures Libm.real files hp out hbc h
    have e2 := update_met_data_temperatures Libm.real files2 hp2 out2 hbc2 h2
    rw [hn2, hdt2] at e2
    exact ⟨e2.1.trans e.1.symm, e2.2.1.trans e.2.1.symm, e2.2.2.1.trans e.2.2.1.symm,
      e2.2.2.2.trans e.2.2.2.symm⟩
  · unfold Heat_Pipe.update_met_data
    rw [if_pos hbc]
    by_cases hlen : hp.met_data.length = 0
    · rcases hload with h | ⟨tables, ht⟩
      · exact absurd hlen h
      · simp [hlen, ht, bind, Except.bind, hps]
    · simp [hlen, bind, Except.bind, hps]

theorem update_met_data_boundary_scalars_witness :
    ∃ out, (Heat_Pipe.first_step : Heat_Pipe ℝ ℝ Unit).update_met_data Libm.real
        DataFiles.missing = Except.ok out ∧
      out.new_room_temperature =
        15 + 10 * Real.cos ((2 * Real.pi / 86400) * (1 * 1 - 54000)) ∧
      out.old_room_temperature =
        15 + 10 * Real.cos ((2 * Real.pi / 86400) * ((1 - 1) * 1 - 54000)) := by
  have h := update_met_data_boundary_scalars DataFiles.missing
    (Heat_Pipe.first_step : Heat_Pipe ℝ ℝ Unit)
    (Or.inl rfl) (by norm_num [Heat_Pipe.first_step])
    (by norm_num [Heat_Pipe.first_step])
  obtain ⟨out, ho⟩ := h.2.2 rfl (Or.inl (by simp [Heat_Pipe.first_step]))
  have e := h.1 out ho
  refine ⟨out, ho, ?_, ?_⟩
  · rw [e.1]
    norm_num [Heat_Pipe.first_step, Heat_Pipe.init, AllParameters.unit_layers]
  · rw [e.2.2.1]
    norm_num [Heat_Pipe.first_step, Heat_Pipe.init, AllParameters.unit_layers]

/-! ### Double precision: rounding -/

section RoundingLemmas

variable {α : Type} [LinearOrderedField α] [FloorRing α]

theorem round_ties_to_even_eq (x : α) (k : ℤ) (h : |x - k| < 1 / 2) :
    round_ties_to_even x = k := by
  rw [abs_lt] at h
  unfold round_ties_to_even
  by_cases hk : (k : α) ≤ x
  · have hf : ⌊x⌋ = k := by
      rw [Int.floor_eq_iff]
      constructor
      · exact hk
      · linarith [h.2]
    rw [hf, if_pos (by linarith [h.2])]
  · push_neg at hk
    have hf : ⌊x⌋ = k - 1 := by
      rw [Int.floor_eq_iff]
      push_cast
      constructor
      · linarith [h.1]
      · linarith
    rw [hf]
    push_cast
    rw [if_neg (by linarith [h.1]), if_pos (by linarith [h.1])]
    ring

/-- A tie goes to the even neighbour. -/
theorem round_ties_to_even_tie (x : α) (k : ℤ) (h : x = k + 1 / 2) :
    round_ties_to_even x = if k % 2 = 0 then k else k + 1 := by
  have hf : ⌊x⌋ = k := by
    rw [Int.floor_eq_iff, h]
    constructor <;> linarith
  unfold round_ties_to_even
  rw [hf, h, if_neg (by linarith), if_neg (by linarith)]

theorem int_log_two_eq (x : α) (e : ℤ) (h1 : 2 ^ e ≤ x) (h2 : x < 2 ^ (e + 1)) :
    Int.log 2 x = e := by
  have hx : 0 < x := lt_of_lt_of_le (by positivity) h1
  have a : e ≤ Int.log 2 x := by
    rw [← Int.zpow_le_iff_le_log (by norm_num) hx]
    simpa using h1
  have b : Int.log 2 x < e + 1 := by
    rw [← Int.lt_zpow_iff_log_lt (by norm_num) hx]
    simpa using h2
  omega

/-- The rounding of `x` with `2 ^ (e + 52) ≤ |x| < 2 ^ (e + 53)` is the
multiple `k * 2 ^ e` given by the rounding of `x / 2 ^ e` to an integer. -/
theorem round_to_double_of_log (x : α) (e : ℤ) (h1 : 2 ^ (e + 52) ≤ |x|)
    (h2 : |x| < 2 ^ (e + 53)) :
    round_to_double x = (round_ties_to_even (x / 2 ^ e) : α) * 2 ^ e := by
  have hx : x ≠ 0 := by
    intro h
    rw [h, abs_zero] at h1
    exact absurd h1 (not_le.mpr (by positivity))
  have hl : Int.log 2 |x| = e + 52 := int_log_two_eq |x| (e + 52) h1 (by
    rw [show e + 52 + 1 = e + 53 by ring]; exact h2)
  unfold round_to_double
  rw [if_neg hx, hl, show e + 52 - 52 = e by ring]

theorem round_to_double_eq (x : α) (k e : ℤ) (h1 : 2 ^ (e + 52) ≤ |x|)
    (h2 : |x| < 2 ^ (e + 53)) (hk : |x / 2 ^ e - k| < 1 / 2) :
    round_to_double x = k * 2 ^ e := by
  rw [round_to_double_of_log x e h1 h2, round_ties_to_even_eq _ k hk]

theorem round_to_double_tie (x : α) (k e : ℤ) (h1 : 2 ^ (e + 52) ≤ |x|)
    (h2 : |x| < 2 ^ (e + 53)) (hk : x / 2 ^ e = k + 1 / 2) :
    round_to_double x = ((if k % 2 = 0 then k else k + 1 : ℤ) : α) * 2 ^ e := by
  rw [round_to_double_of_log x e h1 h2, round_ties_to_even_tie _ k hk]

theorem round_to_double_zero : round_to_double (0 : α) = 0 := by
  simp [round_to_double]

theorem round_to_double_one : round_to_double (1 : α) = 1 := by
  have h := round_to_double_eq (1 : α) (2 ^ 52) (-52)
    (by rw [abs_one]; norm_num) (by rw [abs_one]; norm_num) (by norm_num)
  rw [h]
  norm_num

/-- The rounding of a positive number is positive. -/
theorem round_to_double_pos (x : α) (hx : 0 < x) : 0 < round_to_double x := by
  have h1 : (2 : α) ^ (Int.log 2 |x|) ≤ |x| := by
    have := Int.zpow_log_le_self (b := 2) (by norm_num) (abs_pos.mpr hx.ne')
    simpa using this
  unfold round_to_double
  rw [if_neg hx.ne']
  set e := Int.log 2 |x| - 52 with he
  have hpe : (0 : α) < 2 ^ e := by positivity
  apply mul_pos _ hpe
  have hq : (2 : α) ^ (52 : ℤ) ≤ x / 2 ^ e := by
    rw [le_div_iff₀ hpe, ← zpow_add₀ (by norm_num : (2 : α) ≠ 0)]
    rw [show (52 : ℤ) + e = Int.log 2 |x| by omega]
    exact le_trans h1 (le_of_eq (abs_of_pos hx))
  have hfl : (1 : ℤ) ≤ ⌊x / 2 ^ e⌋ := by
    rw [Int.le_floor]
    refine le_trans ?_ hq
    norm_num
  have hr : ⌊x / 2 ^ e⌋ ≤ round_ties_to_even (x / 2 ^ e) := by
    unfold round_ties_to_even
    split_ifs <;> omega
  have : (1 : ℤ) ≤ round_ties_to_even (x / 2 ^ e) := le_trans hfl hr
  have : (1 : α) ≤ (round_ties_to_even (x / 2 ^ e) : α) := by exact_mod_cast this
  linarith

end RoundingLemmas

section RoundingBounds

variable {α : Type} [LinearOrderedField α] [FloorRing α]

theorem floor_le_round_ties_to_even (x : α) :
    ⌊x⌋ ≤ round_ties_to_even x ∧ round_ties_to_even x ≤ ⌊x⌋ + 1 := by
  unfold round_ties_to_even
  split_ifs <;> constructor <;> omega

theorem round_ties_to_even_intCast (z : ℤ) : round_ties_to_even (z : α) = z :=
  round_ties_to_even_eq _ z (by simp)

theorem le_round_ties_to_even (x : α) (z : ℤ) (h : (z : α) ≤ x) :
    z ≤ round_ties_to_even x :=
  le_trans (Int.le_floor.mpr h) (floor_le_round_ties_to_even x).1

theorem round_ties_to_even_le (x : α) (z : ℤ) (h : x ≤ (z : α)) :
    round_ties_to_even x ≤ z := by
  rcases eq_or_lt_of_le h with h | h
  · rw [h, round_ties_to_even_intCast]
  · have : ⌊x⌋ < z := Int.floor_lt.mpr h
    have := (floor_le_round_ties_to_even x).2
    omega

/-- The binade of a nonzero number. -/
theorem zpow_log_le_abs (x : α) (hx : x ≠ 0) :
    (2 : α) ^ (Int.log 2 |x| - 52 + 52) ≤ |x| ∧ |x| < (2 : α) ^ (Int.log 2 |x| - 52 + 53) := by
  have h1 := Int.zpow_log_le_self (b := 2) (by norm_num) (abs_pos.mpr hx)
  have h2 := Int.lt_zpow_succ_log_self (b := 2) (by norm_num) |x|
  rw [show Int.log 2 |x| - 52 + 52 = Int.log 2 |x| by ring,
    show Int.log 2 |x| - 52 + 53 = Int.log 2 |x| + 1 by ring]
  exact ⟨by simpa using h1, by simpa using h2⟩

omit [FloorRing α] in
theorem intCast_two_pow (n : ℕ) : (((2 : ℤ) ^ n : ℤ) : α) = (2 : α) ^ (n : ℤ) := by
  rw [zpow_natCast]
  push_cast
  rfl

theorem round_to_double_intCast_mul_zpow_of_lt (k e : ℤ) (h1 : 2 ^ 52 ≤ |k|)
    (h2 : |k| < 2 ^ 53) : round_to_double ((k : α) * 2 ^ e) = k * 2 ^ e := by
  have hpe : (0 : α) < 2 ^ e := by positivity
  have habs : |(k : α) * 2 ^ e| = ((|k| : ℤ) : α) * 2 ^ e := by
    rw [abs_mul, abs_of_pos hpe, Int.cast_abs]
  have c52 : (2 : α) ^ (e + 52) = (((2 : ℤ) ^ 52 : ℤ) : α) * 2 ^ e := by
    rw [intCast_two_pow 52, ← zpow_add₀ (by norm_num : (2 : α) ≠ 0)]
    congr 1
    push_cast
    ring
  have c53 : (2 : α) ^ (e + 53) = (((2 : ℤ) ^ 53 : ℤ) : α) * 2 ^ e := by
    rw [intCast_two_pow 53, ← zpow_add₀ (by norm_num : (2 : α) ≠ 0)]
    congr 1
    push_cast
    ring
  apply round_to_double_eq
  · rw [habs, c52]
    apply mul_le_mul_of_nonneg_right _ hpe.le
    exact Int.cast_le.mpr h1
  · rw [habs, c53]
    apply mul_lt_mul_of_pos_right _ hpe
    exact Int.cast_lt.mpr h2
  · rw [mul_div_assoc, div_self hpe.ne', mul_one, sub_self, abs_zero]
    norm_num

/-- A number `k * 2 ^ e` whose significand `k` has 53 bits is a `double`. -/
theorem round_to_double_intCast_mul_zpow (k e : ℤ) (h1 : 2 ^ 52 ≤ |k|) (h2 : |k| ≤ 2 ^ 53) :
    round_to_double ((k : α) * 2 ^ e) = k * 2 ^ e := by
  rcases lt_or_eq_of_le h2 with h2 | h2
  · exact round_to_double_intCast_mul_zpow_of_lt k e h1 h2
  · have hk : k = 2 ^ 53 ∨ k = -2 ^ 53 := by
      rcases abs_cases k with ⟨h, _⟩ | ⟨h, _⟩ <;> omega
    have he1 : (2 : α) ^ (e + 1) = 2 ^ e * 2 := by
      rw [zpow_add₀ (by norm_num : (2 : α) ≠ 0), zpow_one]
    rcases hk with hk | hk
    · have hx : (k : α) * 2 ^ e = (((2 : ℤ) ^ 52 : ℤ) : α) * 2 ^ (e + 1) := by
        rw [hk, he1]
        push_cast
        ring
      rw [hx]
      exact round_to_double_intCast_mul_zpow_of_lt _ _ (by norm_num) (by norm_num)
    · have hx : (k : α) * 2 ^ e = ((-(2 : ℤ) ^ 52 : ℤ) : α) * 2 ^ (e + 1) := by
        rw [hk, he1]
        push_cast
        ring
      rw [hx]
      exact round_to_double_intCast_mul_zpow_of_lt _ _ (by norm_num) (by norm_num)

/-- The significand of the rounding of a nonzero number has 53 bits. -/
theorem round_ties_to_even_significand (x : α) (hx : x ≠ 0) :
    2 ^ 52 ≤ |round_ties_to_even (x / 2 ^ (Int.log 2 |x| - 52))| ∧
      |round_ties_to_even (x / 2 ^ (Int.log 2 |x| - 52))| ≤ 2 ^ 53 := by
  obtain ⟨h1, h2⟩ := zpow_log_le_abs x hx
  set e := Int.log 2 |x| - 52 with he
  have hpe : (0 : α) < 2 ^ e := by positivity
  have c52 : (2 : α) ^ (e + 52) = (((2 : ℤ) ^ 52 : ℤ) : α) * 2 ^ e := by
    rw [intCast_two_pow 52, ← zpow_add₀ (by norm_num : (2 : α) ≠ 0)]
    congr 1
    push_cast
    ring
  have c53 : (2 : α) ^ (e + 53) = (((2 : ℤ) ^ 53 : ℤ) : α) * 2 ^ e := by
    rw [intCast_two_pow 53, ← zpow_add₀ (by norm_num : (2 : α) ≠ 0)]
    congr 1
    push_cast
    ring
  have hq1 : (((2 : ℤ) ^ 52 : ℤ) : α) ≤ |x / 2 ^ e| := by
    rw [abs_div, abs_of_pos hpe, le_div_iff₀ hpe, ← c52]
    exact h1
  have hq2 : |x / 2 ^ e| < (((2 : ℤ) ^ 53 : ℤ) : α) := by
    rw [abs_div, abs_of_pos hpe, div_lt_iff₀ hpe, ← c53]
    exact h2
  rcases le_or_lt 0 (x / 2 ^ e) with hs | hs
  · rw [abs_of_nonneg hs] at hq1 hq2
    have a := le_round_ties_to_even (x / 2 ^ e) (2 ^ 52) hq1
    have b := round_ties_to_even_le (x / 2 ^ e) (2 ^ 53) hq2.le
    rw [abs_of_nonneg (by omega)]
    exact ⟨a, b⟩
  · rw [abs_of_neg hs] at hq1 hq2
    have a := round_ties_to_even_le (x / 2 ^ e) (-2 ^ 52) (by push_cast at hq1 ⊢; linarith)
    have b := le_round_ties_to_even (x / 2 ^ e) (-2 ^ 53) (by push_cast at hq2 ⊢; linarith)
    rw [abs_of_nonpos (by omega)]
    constructor <;> omega

/-- Rounding a `double` gives the same `double`. -/
theorem round_to_double_idem (x : α) : round_to_double (round_to_double x) = round_to_double x := by
  by_cases hx : x = 0
  · rw [hx, round_to_double_zero, round_to_double_zero]
  · obtain ⟨h1, h2⟩ := round_ties_to_even_significand x hx
    have h : round_to_double x =
        (round_ties_to_even (x / 2 ^ (Int.log 2 |x| - 52)) : α) * 2 ^ (Int.log 2 |x| - 52) := by
      unfold round_to_double
      rw [if_neg hx]
    rw [h]
    exact round_to_double_intCast_mul_zpow _ _ h1 h2

/-- Rounding to an integer is monotone. -/
theorem round_ties_to_even_mono (x y : α) (h : x ≤ y) :
    round_ties_to_even x ≤ round_ties_to_even y := by
  have hfl : ⌊x⌋ ≤ ⌊y⌋ := Int.floor_mono h
  rcases lt_or_eq_of_le hfl with hlt | heq
  · have a := (floor_le_round_ties_to_even x).2
    have b := (floor_le_round_ties_to_even y).1
    omega
  · unfold round_ties_to_even
    rw [← heq]
    split_ifs <;> first | omega | (exfalso; linarith)

/-- Rounding to an integer commutes with the sign. -/
theorem round_ties_to_even_neg (x : α) : round_ties_to_even (-x) = -round_ties_to_even x := by
  by_cases hx : (⌊x⌋ : α) = x
  · rw [← hx, ← Int.cast_neg, round_ties_to_even_intCast, round_ties_to_even_intCast]
  · have h0 : (⌊x⌋ : α) < x := lt_of_le_of_ne (Int.floor_le x) hx
    have h1 : x < ⌊x⌋ + 1 := Int.lt_floor_add_one x
    have hf : ⌊-x⌋ = -⌊x⌋ - 1 := by
      rw [Int.floor_eq_iff]
      push_cast
      constructor <;> linarith
    unfold round_ties_to_even
    rw [hf]
    push_cast
    split_ifs <;> first | omega | (exfalso; linarith)

/-- Rounding commutes with the sign. -/
theorem round_to_double_neg (x : α) : round_to_double (-x) = -round_to_double x := by
  by_cases hx : x = 0
  · rw [hx, neg_zero, round_to_double_zero, neg_zero]
  · unfold round_to_double
    rw [if_neg hx, if_neg (neg_ne_zero.mpr hx), abs_neg, neg_div, round_ties_to_even_neg]
    push_cast
    ring

/-- The rounding of a positive number stays in the closure of its binade. -/
theorem round_to_double_mem_binade (x : α) (hx : 0 < x) :
    (2 : α) ^ Int.log 2 x ≤ round_to_double x ∧
      round_to_double x ≤ (2 : α) ^ (Int.log 2 x + 1) := by
  obtain ⟨h1, h2⟩ := zpow_log_le_abs x hx.ne'
  rw [abs_of_pos hx] at h1 h2
  have h : round_to_double x =
      (round_ties_to_even (x / 2 ^ (Int.log 2 x - 52)) : α) * 2 ^ (Int.log 2 x - 52) := by
    unfold round_to_double
    rw [if_neg hx.ne', abs_of_pos hx]
  rw [h]
  set e := Int.log 2 x - 52 with he
  have hpe : (0 : α) < 2 ^ e := by positivity
  have c52 : (2 : α) ^ (e + 52) = (((2 : ℤ) ^ 52 : ℤ) : α) * 2 ^ e := by
    rw [intCast_two_pow 52, ← zpow_add₀ (by norm_num : (2 : α) ≠ 0)]
    congr 1
    push_cast
    ring
  have c53 : (2 : α) ^ (e + 53) = (((2 : ℤ) ^ 53 : ℤ) : α) * 2 ^ e := by
    rw [intCast_two_pow 53, ← zpow_add₀ (by norm_num : (2 : α) ≠ 0)]
    congr 1
    push_cast
    ring
  have hq1 : (((2 : ℤ) ^ 52 : ℤ) : α) ≤ x / 2 ^ e := by
    rw [le_div_iff₀ hpe, ← c52]
    exact h1
  have hq2 : x / 2 ^ e ≤ (((2 : ℤ) ^ 53 : ℤ) : α) := by
    rw [div_le_iff₀ hpe, ← c53]
    exact h2.le
  have a := le_round_ties_to_even (x / 2 ^ e) (2 ^ 52) hq1
  have b := round_ties_to_even_le (x / 2 ^ e) (2 ^ 53) hq2
  rw [show Int.log 2 x = e + 52 by omega, show e + 52 + 1 = e + 53 by ring, c52, c53]
  constructor
  · exact mul_le_mul_of_nonneg_right (Int.cast_le.mpr a) hpe.le
  · exact mul_le_mul_of_nonneg_right (Int.cast_le.mpr b) hpe.le

theorem round_to_double_mono_of_pos (x y : α) (hx : 0 < x) (h : x ≤ y) :
    round_to_double x ≤ round_to_double y := by
  have hy : 0 < y := lt_of_lt_of_le hx h
  have hlog : Int.log 2 x ≤ Int.log 2 y := Int.log_mono_right hx h
  rcases lt_or_eq_of_le hlog with hlt | heq
  · have a := (round_to_double_mem_binade x hx).2
    have b := (round_to_double_mem_binade y hy).1
    have c : (2 : α) ^ (Int.log 2 x + 1) ≤ 2 ^ Int.log 2 y :=
      zpow_le_zpow_right₀ (by norm_num) (by omega)
    exact le_trans a (le_trans c b)
  · unfold round_to_double
    rw [if_neg hx.ne', if_neg hy.ne', abs_of_pos hx, abs_of_pos hy, heq]
    have hpe : (0 : α) < 2 ^ (Int.log 2 y - 52) := by positivity
    apply mul_le_mul_of_nonneg_right _ hpe.le
    apply Int.cast_le.mpr
    apply round_ties_to_even_mono
    exact div_le_div_of_nonneg_right h hpe.le

theorem round_to_double_nonneg (x : α) (hx : 0 ≤ x) : 0 ≤ round_to_double x := by
  rcases eq_or_lt_of_le hx with h | h
  · rw [← h, round_to_double_zero]
  · exact (round_to_double_pos x h).le

/-- Rounding is monotone. -/
theorem round_to_double_mono (x y : α) (h : x ≤ y) :
    round_to_double x ≤ round_to_double y := by
  rcases lt_trichotomy 0 x with hx | hx | hx
  · exact round_to_double_mono_of_pos x y hx h
  · rw [← hx, round_to_double_zero]
    exact round_to_double_nonneg y (by rw [← hx] at h; exact h)
  · rcases le_or_lt 0 y with hy | hy
    · have a : round_to_double x ≤ 0 := by
        have := round_to_double_nonneg (-x) (by linarith)
        rw [round_to_double_neg] at this
        linarith
      exact le_trans a (round_to_double_nonneg y hy)
    · have := round_to_double_mono_of_pos (-y) (-x) (by linarith) (by linarith)
      rw [round_to_double_neg, round_to_double_neg] at this
      linarith

end RoundingBounds
/-! ### Double precision: the operations -/

section DoubleLemmas

variable {α : Type} [LinearOrderedField α] [FloorRing α]

theorem Double.fin_add_fin (x y : α) :
    (Double.fin x + Double.fin y : Double α) = Double.fin (round_to_double (x + y)) := rfl

theorem Double.fin_sub_fin (x y : α) :
    (Double.fin x - Double.fin y : Double α) = Double.fin (round_to_double (x - y)) := rfl

theorem Double.fin_mul_fin (x y : α) :
    (Double.fin x * Double.fin y : Double α) = Double.fin (round_to_double (x * y)) := rfl

theorem Double.fin_div_fin (x y : α) (hy : y ≠ 0) :
    (Double.fin x / Double.fin y : Double α) = Double.fin (round_to_double (x / y)) := by
  show Double.div (Double.fin x) (Double.fin y) = _
  simp only [Double.div, if_pos hy]

theorem Double.fin_div_zero (x : α) (hx : 0 < x) :
    (Double.fin x / Double.fin 0 : Double α) = Double.pinf := by
  show Double.div (Double.fin x) (Double.fin 0) = _
  simp [Double.div, hx]

omit [FloorRing α] in
theorem Double.neg_fin (x : α) : (-Double.fin x : Double α) = Double.fin (-x) := rfl

omit [FloorRing α] in
theorem Double.fin_lt_fin (x y : α) : (Double.fin x < Double.fin y) ↔ x < y := Iff.rfl

omit [FloorRing α] in
theorem Double.fin_le_fin (x y : α) : (Double.fin x ≤ Double.fin y) ↔ x ≤ y := Iff.rfl

omit [FloorRing α] in
theorem Double.not_nan_lt (a : Double α) : ¬ (Double.nan < a) := by
  cases a <;> exact fun h => h

omit [FloorRing α] in
theorem Double.not_lt_self (a : Double α) : ¬ (a < a) := by
  cases a with
  | fin x => exact lt_irrefl x
  | pinf => exact fun h => h
  | ninf => exact fun h => h
  | nan => exact fun h => h

theorem Double.nan_add (a : Double α) : Double.nan + a = Double.nan := by
  cases a <;> rfl

theorem Double.add_nan (a : Double α) : a + Double.nan = Double.nan := by
  cases a <;> rfl

theorem Double.nan_sub (a : Double α) : Double.nan - a = Double.nan := by
  cases a <;> rfl

theorem Double.sub_nan (a : Double α) : a - Double.nan = Double.nan := by
  cases a <;> rfl

theorem Double.nan_mul (a : Double α) : Double.nan * a = Double.nan := by
  cases a <;> rfl

theorem Double.mul_nan (a : Double α) : a * Double.nan = Double.nan := by
  cases a <;> rfl

theorem Double.pinf_sub_pinf : (Double.pinf - Double.pinf : Double α) = Double.nan := rfl

theorem Double.zero_eq : (0 : Double α) = Double.fin 0 := by
  show Double.fin (round_to_double ((0 : ℕ) : α)) = _
  rw [Nat.cast_zero, round_to_double_zero]

theorem Double.one_eq : (1 : Double α) = Double.fin 1 := by
  show Double.fin (round_to_double ((1 : ℕ) : α)) = _
  rw [Nat.cast_one, round_to_double_one]

theorem Double.two_eq : (2 : Double α) = Double.fin 2 := by
  show Double.fin (round_to_double ((2 : ℕ) : α)) = _
  have h := round_to_double_eq (2 : α) (2 ^ 52) (-51)
    (by rw [abs_of_pos (by norm_num)]; norm_num) (by rw [abs_of_pos (by norm_num)]; norm_num)
    (by norm_num)
  rw [Nat.cast_ofNat, h]
  norm_num

theorem Double.three_eq : (3 : Double α) = Double.fin 3 := by
  show Double.fin (round_to_double ((3 : ℕ) : α)) = _
  have h := round_to_double_eq (3 : α) (3 * 2 ^ 51) (-51)
    (by rw [abs_of_pos (by norm_num)]; norm_num) (by rw [abs_of_pos (by norm_num)]; norm_num)
    (by norm_num)
  rw [Nat.cast_ofNat, h]
  norm_num

/-- A decimal literal is the rounding of its value. -/
theorem Double.ofScientific_eq (m : Nat) (s : Bool) (e : Nat) :
    (OfScientific.ofScientific m s e : Double α) =
      Double.fin (round_to_double (OfScientific.ofScientific m s e : α)) := rfl

/-- A positive decimal literal is a positive `double`. -/
theorem Double.zero_lt_fin_round (x : α) (hx : 0 < x) :
    (0 : Double α) < Double.fin (round_to_double x) := by
  rw [Double.zero_eq, Double.fin_lt_fin]
  exact round_to_double_pos x hx

end DoubleLemmas

/-- The rounding of a positive number, with the significand `k` and the
exponent `e` given. -/
theorem round_to_double_eq_pos (x v : ℝ) (k e : ℤ) (hx : 0 < x)
    (h1 : 2 ^ (e + 52) ≤ x) (h2 : x < 2 ^ (e + 53)) (hk : |x / 2 ^ e - k| < 1 / 2)
    (hv : (k : ℝ) * 2 ^ e = v) : round_to_double x = v := by
  rw [← hv]
  exact round_to_double_eq x k e (by rwa [abs_of_pos hx]) (by rwa [abs_of_pos hx]) hk

/-- In double precision `1 + 2 ^ (-60)` and `1 - 2 ^ (-60)` are `1`. -/
theorem round_to_double_one_add_small :
    round_to_double (1 + 2 ^ (-60 : ℤ) : ℝ) = 1 ∧ round_to_double (1 + 2 ^ (-61 : ℤ) : ℝ) = 1 ∧
      round_to_double (1 - 2 ^ (-60 : ℤ) : ℝ) = 1 := by
  refine ⟨?_, ?_, ?_⟩
  · have h := round_to_double_eq (1 + 2 ^ (-60 : ℤ) : ℝ) (2 ^ 52) (-52)
      (by rw [abs_of_pos (by positivity)]; norm_num)
      (by rw [abs_of_pos (by positivity)]; norm_num)
      (by norm_num [abs_lt])
    rw [h]
    norm_num
  · have h := round_to_double_eq (1 + 2 ^ (-61 : ℤ) : ℝ) (2 ^ 52) (-52)
      (by rw [abs_of_pos (by positivity)]; norm_num)
      (by rw [abs_of_pos (by positivity)]; norm_num)
      (by norm_num [abs_lt])
    rw [h]
    norm_num
  · have h := round_to_double_eq (1 - 2 ^ (-60 : ℤ) : ℝ) (2 ^ 53) (-53)
      (by rw [abs_of_pos (by norm_num)]; norm_num)
      (by rw [abs_of_pos (by norm_num)]; norm_num)
      (by norm_num [abs_lt])
    rw [h]
    norm_num

/-- The numbers `-2 ^ (-60)` and `-2 ^ (-61)` are `double`s. -/
theorem round_to_double_neg_small :
    round_to_double (-2 ^ (-60 : ℤ) : ℝ) = -2 ^ (-60 : ℤ) ∧
      round_to_double (-2 ^ (-61 : ℤ) : ℝ) = -2 ^ (-61 : ℤ) := by
  constructor
  · have h := round_to_double_eq (-2 ^ (-60 : ℤ) : ℝ) (-2 ^ 52) (-112)
      (by rw [abs_neg, abs_of_pos (by positivity)]; norm_num)
      (by rw [abs_neg, abs_of_pos (by positivity)]; norm_num)
      (by norm_num)
    rw [h]
    norm_num
  · have h := round_to_double_eq (-2 ^ (-61 : ℤ) : ℝ) (-2 ^ 52) (-113)
      (by rw [abs_neg, abs_of_pos (by positivity)]; norm_num)
      (by rw [abs_neg, abs_of_pos (by positivity)]; norm_num)
      (by norm_num)
    rw [h]
    norm_num


/-! ### Double precision: the example implementation of `<math.h>` -/

/-- The example implementation has the exact cases. -/
theorem Libm.rounded_exact_cases : Libm.rounded.exact_cases := by
  refine ⟨?_, ?_, ?_, ?_⟩
  · intro x
    rw [Double.zero_eq, Double.one_eq]
    simp [Libm.rounded]
  · intro y
    rw [Double.one_eq]
    by_cases hy : y = Double.fin 0 <;> simp [Libm.rounded, hy]
  · intro x
    rw [Double.one_eq]
    by_cases hx : x = Double.fin 1
    · simp [Libm.rounded, hx]
    · simp [Libm.rounded, hx]
  · rw [Double.zero_eq, Double.one_eq]
    simp [Libm.rounded, round_to_double_one]


/-- The example implementation on a positive base other than `1` and an
exponent other than `0` and `1`. -/
theorem Libm.rounded_pow (a b : ℝ) (ha : 0 < a) (ha1 : a ≠ 1) (hb0 : b ≠ 0) (hb1 : b ≠ 1) :
    Libm.rounded.pow (Double.fin a) (Double.fin b) = Double.fin (round_to_double (a ^ b)) := by
  have h1 : (Double.fin b : Double ℝ) ≠ Double.fin 0 := by
    intro h
    injection h with h
    exact hb0 h
  have h2 : (Double.fin a : Double ℝ) ≠ Double.fin 1 := by
    intro h
    injection h with h
    exact ha1 h
  have h3 : (Double.fin b : Double ℝ) ≠ Double.fin 1 := by
    intro h
    injection h with h
    exact hb1 h
  simp [Libm.rounded, h1, h2, h3, ha]

theorem Libm.rounded_exp (a : ℝ) :
    Libm.rounded.exp (Double.fin a) = Double.fin (round_to_double (Real.exp a)) := rfl

/-- In double precision the ice saturation at or below the freezing point is
`1 - p (b)`, rounded, where `b ≥ 1` is the rounded base and `p` is what `pow`
returns for the exponent `coefficient_alpha`. -/
theorem degree_of_saturation_ice_double_eq (L : Libm (Double ℝ))
    (m : PorousMaterial (Double ℝ)) (fp T : ℝ) (p : ℝ → ℝ)
    (hfp : m.freezing_point = Double.fin fp)
    (hp : ∀ x, 1 ≤ x → L.pow (Double.fin x) m.coefficient_alpha = Double.fin (p x))
    (hT : T ≤ fp) :
    1 ≤ round_to_double (1 - round_to_double (T - fp)) ∧
    m.degree_of_saturation_ice_double L (Double.fin T) =
      Double.fin (round_to_double (1 - p (round_to_double (1 - round_to_double (T - fp))))) := by
  have h0 : round_to_double (T - fp) ≤ 0 := by
    have := round_to_double_mono (T - fp) 0 (by linarith)
    rwa [round_to_double_zero] at this
  have h1 : 1 ≤ round_to_double (1 - round_to_double (T - fp)) := by
    have := round_to_double_mono 1 (1 - round_to_double (T - fp)) (by linarith)
    rwa [round_to_double_one] at this
  refine ⟨h1, ?_⟩
  have hle : (Double.fin T : Double ℝ) ≤ Double.fin fp := (Double.fin_le_fin T fp).mpr hT
  simp only [PorousMaterial.degree_of_saturation_ice_double, hfp, if_pos hle, Double.one_eq,
    Double.fin_sub_fin, hp _ h1]

/-- C4, as amended: the ice saturation does not decrease when the temperature
drops.  In exact arithmetic, for a shape exponent `alpha ≤ 0` and
`T1 ≤ T2 ≤ freezing_point`, the value at `T1` is at least the value at `T2`.
In double precision the same holds for every `pow` whose value for the
exponent `alpha` is finite and does not increase with the base on `[1, ∞)`. -/
theorem degree_of_saturation_ice_antitone :
    (∀ (m : PorousMaterial ℝ) (T1 T2 : ℝ), m.coefficient_alpha ≤ 0 → T1 ≤ T2 →
      T2 ≤ m.freezing_point →
      m.degree_of_saturation_ice Libm.real T2 ≤ m.degree_of_saturation_ice Libm.real T1) ∧
    (∀ (L : Libm (Double ℝ)) (m : PorousMaterial (Double ℝ)) (fp T1 T2 : ℝ) (p : ℝ → ℝ),
      m.freezing_point = Double.fin fp →
      (∀ x, 1 ≤ x → L.pow (Double.fin x) m.coefficient_alpha = Double.fin (p x)) →
      (∀ x y, 1 ≤ x → x ≤ y → p y ≤ p x) →
      T1 ≤ T2 → T2 ≤ fp →
      m.degree_of_saturation_ice_double L (Double.fin T2) ≤
        m.degree_of_saturation_ice_double L (Double.fin T1)) := by
  constructor
  · intro m T1 T2 hα h12 h2
    have h1 : T1 ≤ m.freezing_point := le_trans h12 h2
    simp only [PorousMaterial.degree_of_saturation_ice, if_pos h1, if_pos h2, Libm.real_pow]
    have h := Real.rpow_le_rpow_of_exponent_nonpos
      (show (0 : ℝ) < 1 - (T2 - m.freezing_point) by linarith)
      (show 1 - (T2 - m.freezing_point) ≤ 1 - (T1 - m.freezing_point) by linarith) hα
    linarith
  · intro L m fp T1 T2 p hfp hp hanti h12 h2
    obtain ⟨hb1, e1⟩ := degree_of_saturation_ice_double_eq L m fp T1 p hfp hp (le_trans h12 h2)
    obtain ⟨hb2, e2⟩ := degree_of_saturation_ice_double_eq L m fp T2 p hfp hp h2
    rw [e1, e2, Double.fin_le_fin]
    apply round_to_double_mono
    have hb : round_to_double (1 - round_to_double (T2 - fp)) ≤
        round_to_double (1 - round_to_double (T1 - fp)) := by
      apply round_to_double_mono
      have := round_to_double_mono (T1 - fp) (T2 - fp) (by linarith)
      linarith
    have := hanti _ _ hb2 hb
    linarith

theorem degree_of_saturation_ice_antitone_witness :
    (PorousMaterial.ofValues 1 2 3 (1 / 2) (1 / 2) : PorousMaterial ℝ).degree_of_saturation_ice
        Libm.real (-1) ≤
      (PorousMaterial.ofValues 1 2 3 (1 / 2) (1 / 2) : PorousMaterial ℝ).degree_of_saturation_ice
        Libm.real (-2) ∧
    (PorousMaterial.ofName_double "quartz_1" 0.4 0.5 :
        PorousMaterial (Double ℝ)).degree_of_saturation_ice_double Libm.rounded
        (Double.fin (-1)) ≤
      (PorousMaterial.ofName_double "quartz_1" 0.4 0.5 :
        PorousMaterial (Double ℝ)).degree_of_saturation_ice_double Libm.rounded
        (Double.fin (-2)) := by
  have hfive : round_to_double (5.0 : ℝ) = 5 :=
    round_to_double_eq_pos _ _ (5 * 2 ^ 50) (-50) (by norm_num) (by norm_num) (by norm_num)
      (by norm_num [abs_lt]) (by norm_num)
  have hα : (PorousMaterial.ofName_double "quartz_1" 0.4 0.5 :
      PorousMaterial (Double ℝ)).coefficient_alpha = Double.fin (-5) := by
    show -Double.fin (round_to_double (5.0 : ℝ)) = _
    rw [Double.neg_fin, hfive]
  have hfp : (PorousMaterial.ofName_double "quartz_1" 0.4 0.5 :
      PorousMaterial (Double ℝ)).freezing_point = Double.fin 0 := by
    show Double.fin (round_to_double (0.0 : ℝ)) = _
    norm_num [round_to_double_zero]
  refine ⟨degree_of_saturation_ice_antitone.1 (PorousMaterial.ofValues 1 2 3 (1 / 2) (1 / 2))
      (-2) (-1)
      (by norm_num [PorousMaterial.ofValues, PorousMaterial.init])
      (by norm_num)
      (by norm_num [PorousMaterial.ofValues, PorousMaterial.init]),
    degree_of_saturation_ice_antitone.2 Libm.rounded _ 0 (-2) (-1)
      (fun x => if x = 1 then 1 else round_to_double (x ^ (-5 : ℝ))) hfp ?_ ?_
      (by norm_num) (by norm_num)⟩
  · intro x hx
    rw [hα]
    have h5 : (Double.fin (-5) : Double ℝ) ≠ Double.fin 0 := by
      intro h
      injection h with h
      norm_num at h
    have h51 : (Double.fin (-5) : Double ℝ) ≠ Double.fin 1 := by
      intro h
      injection h with h
      norm_num at h
    by_cases h1 : x = 1
    · simp [Libm.rounded, h1, h5]
    · have hx1 : (Double.fin x : Double ℝ) ≠ Double.fin 1 := by
        intro h
        injection h with h
        exact h1 h
      simp [Libm.rounded, h1, h5, h51, hx1, lt_of_lt_of_le one_pos hx]
  · intro x y hx hxy
    have hy : 1 ≤ y := le_trans hx hxy
    have hle : ∀ z : ℝ, 1 ≤ z → round_to_double (z ^ (-5 : ℝ)) ≤ 1 := by
      intro z hz
      have := round_to_double_mono (z ^ (-5 : ℝ)) 1
        (Real.rpow_le_one_of_one_le_of_nonpos hz (by norm_num))
      rwa [round_to_double_one] at this
    by_cases h1 : x = 1
    · by_cases h2 : y = 1
      · simp [h1, h2]
      · simp only [h1, h2, if_true, if_false]
        exact hle y hy
    · have h2 : y ≠ 1 := by
        intro h
        apply h1
        linarith
      simp only [h1, h2, if_false]
      apply round_to_double_mono
      exact Real.rpow_le_rpow_of_exponent_nonpos (by linarith) hxy (by norm_num)

/-- In double precision `1 - p` is `1` for every `p` in `[0, 2 ^ (-54)]`. -/
theorem round_to_double_one_sub_small (p : ℝ) (h0 : 0 ≤ p) (h1 : p ≤ 2 ^ (-54 : ℤ)) :
    round_to_double (1 - p) = 1 := by
  have htie : round_to_double (1 - 2 ^ (-54 : ℤ) : ℝ) = 1 := by
    have h := round_to_double_tie (1 - 2 ^ (-54 : ℤ) : ℝ) 9007199254740991 (-53)
      (by rw [abs_of_pos (by norm_num)]; norm_num)
      (by rw [abs_of_pos (by norm_num)]; norm_num)
      (by norm_num)
    rw [h]
    norm_num
  apply le_antisymm
  · have := round_to_double_mono (1 - p) 1 (by linarith)
    rwa [round_to_double_one] at this
  · have := round_to_double_mono (1 - 2 ^ (-54 : ℤ)) (1 - p) (by linarith)
    rwa [htie] at this

/-- In double precision the ice saturation is `1` at the temperatures
`-20000` and `-10000`, with the constructor values `freezing_point = 0` and
`coefficient_alpha = -5`, for every `pow` whose values at the bases `20001`
and `10001` are finite and in `[0, 2 ^ (-54)]`. -/
theorem degree_of_saturation_ice_double_saturated (L : Libm (Double ℝ))
    (base : Material (Double ℝ)) (n S : Double ℝ) (p1 p2 : ℝ)
    (h1 : L.pow (Double.fin 20001) (PorousMaterial.init_double base n S).coefficient_alpha
      = Double.fin p1) (h10 : 0 ≤ p1) (h11 : p1 ≤ 2 ^ (-54 : ℤ))
    (h2 : L.pow (Double.fin 10001) (PorousMaterial.init_double base n S).coefficient_alpha
      = Double.fin p2) (h20 : 0 ≤ p2) (h21 : p2 ≤ 2 ^ (-54 : ℤ)) :
    (PorousMaterial.init_double base n S).degree_of_saturation_ice_double L
        (Double.fin (-20000)) = Double.fin 1 ∧
      (PorousMaterial.init_double base n S).degree_of_saturation_ice_double L
        (Double.fin (-10000)) = Double.fin 1 := by
  have hfp : (PorousMaterial.init_double base n S).freezing_point = Double.fin 0 := by
    show Double.fin (round_to_double (0.0 : ℝ)) = _
    norm_num [round_to_double_zero]
  have ha : round_to_double (-20000 : ℝ) = -20000 := by
    rw [round_to_double_neg]
    exact congrArg Neg.neg (round_to_double_eq_pos _ _ (20000 * 2 ^ 38) (-38) (by norm_num)
      (by norm_num) (by norm_num) (by norm_num [abs_lt]) (by norm_num))
  have hb : round_to_double (20001 : ℝ) = 20001 :=
    round_to_double_eq_pos _ _ (20001 * 2 ^ 38) (-38) (by norm_num)
      (by norm_num) (by norm_num) (by norm_num [abs_lt]) (by norm_num)
  have hc : round_to_double (-10000 : ℝ) = -10000 := by
    rw [round_to_double_neg]
    exact congrArg Neg.neg (round_to_double_eq_pos _ _ (10000 * 2 ^ 39) (-39) (by norm_num)
      (by norm_num) (by norm_num) (by norm_num [abs_lt]) (by norm_num))
  have hd : round_to_double (10001 : ℝ) = 10001 :=
    round_to_double_eq_pos _ _ (10001 * 2 ^ 39) (-39) (by norm_num)
      (by norm_num) (by norm_num) (by norm_num [abs_lt]) (by norm_num)
  have hle1 : (Double.fin (-20000) : Double ℝ) ≤ Double.fin 0 := by
    rw [Double.fin_le_fin]
    norm_num
  have hle2 : (Double.fin (-10000) : Double ℝ) ≤ Double.fin 0 := by
    rw [Double.fin_le_fin]
    norm_num
  have e1 : round_to_double (1 - round_to_double ((-20000 : ℝ) - 0)) = 20001 := by
    rw [sub_zero, ha, show (1 : ℝ) - -20000 = 20001 by norm_num, hb]
  have e2 : round_to_double (1 - round_to_double ((-10000 : ℝ) - 0)) = 10001 := by
    rw [sub_zero, hc, show (1 : ℝ) - -10000 = 10001 by norm_num, hd]
  constructor
  · simp only [PorousMaterial.degree_of_saturation_ice_double, hfp, if_pos hle1, Double.one_eq,
      Double.fin_sub_fin, e1]
    rw [h1, Double.fin_sub_fin, round_to_double_one_sub_small p1 h10 h11]
  · simp only [PorousMaterial.degree_of_saturation_ice_double, hfp, if_pos hle2, Double.one_eq,
      Double.fin_sub_fin, e2]
    rw [h2, Double.fin_sub_fin, round_to_double_one_sub_small p2 h20 h21]
/-- The correctly rounded values of `pow(20001., -5.)` and `pow(10001., -5.)`
are in `[0, 2 ^ (-54)]`. -/
theorem Libm.rounded_pow_small (base : Material (Double ℝ)) (n S : Double ℝ) :
    Libm.rounded.pow (Double.fin 20001) (PorousMaterial.init_double base n S).coefficient_alpha
        = Double.fin (round_to_double ((20001 : ℝ) ^ (-5 : ℝ))) ∧
    (0 ≤ round_to_double ((20001 : ℝ) ^ (-5 : ℝ)) ∧
      round_to_double ((20001 : ℝ) ^ (-5 : ℝ)) ≤ 2 ^ (-54 : ℤ)) ∧
    Libm.rounded.pow (Double.fin 10001) (PorousMaterial.init_double base n S).coefficient_alpha
        = Double.fin (round_to_double ((10001 : ℝ) ^ (-5 : ℝ))) ∧
    0 ≤ round_to_double ((10001 : ℝ) ^ (-5 : ℝ)) ∧
      round_to_double ((10001 : ℝ) ^ (-5 : ℝ)) ≤ 2 ^ (-54 : ℤ) := by
  have hfive : round_to_double (5.0 : ℝ) = 5 :=
    round_to_double_eq_pos _ _ (5 * 2 ^ 50) (-50) (by norm_num) (by norm_num) (by norm_num)
      (by norm_num [abs_lt]) (by norm_num)
  have hα : (PorousMaterial.init_double base n S).coefficient_alpha = Double.fin (-5) := by
    show -Double.fin (round_to_double (5.0 : ℝ)) = _
    rw [Double.neg_fin, hfive]
  have hsmall : round_to_double (2 ^ (-54 : ℤ) : ℝ) = 2 ^ (-54 : ℤ) :=
    round_to_double_eq_pos _ _ (2 ^ 52) (-106) (by positivity) (by norm_num) (by norm_num)
      (by norm_num [abs_lt]) (by norm_num)
  have hpow : ∀ x : ℝ, 0 < x → x ^ (-5 : ℝ) = (x ^ 5)⁻¹ := by
    intro x hx
    rw [Real.rpow_neg hx.le, show (5 : ℝ) = ((5 : ℕ) : ℝ) by norm_num, Real.rpow_natCast]
  have hle : ∀ x : ℝ, 10001 ≤ x → round_to_double (x ^ (-5 : ℝ)) ≤ 2 ^ (-54 : ℤ) := by
    intro x hx
    have hx0 : 0 < x := by linarith
    have h1 : x ^ (-5 : ℝ) ≤ 2 ^ (-54 : ℤ) := by
      rw [hpow x hx0]
      have h5 : (10001 : ℝ) ^ 5 ≤ x ^ 5 := pow_le_pow_left₀ (by norm_num) hx 5
      have h6 : (x ^ 5)⁻¹ ≤ ((10001 : ℝ) ^ 5)⁻¹ := inv_anti₀ (by positivity) h5
      refine le_trans h6 ?_
      norm_num
    have := round_to_double_mono _ _ h1
    rwa [hsmall] at this
  rw [hα]
  refine ⟨Libm.rounded_pow _ _ (by norm_num) (by norm_num) (by norm_num) (by norm_num),
    ⟨round_to_double_nonneg _ (Real.rpow_nonneg (by norm_num) _), hle _ (by norm_num)⟩,
    Libm.rounded_pow _ _ (by norm_num) (by norm_num) (by norm_num) (by norm_num),
    round_to_double_nonneg _ (Real.rpow_nonneg (by norm_num) _), hle _ (by norm_num)⟩

/-- C4 as stated fails.  With the constructor values `freezing_point = 0` and
`coefficient_alpha = -5 < 0`, the temperatures `T1 = -2 ^ (-60)` and
`T2 = -2 ^ (-61)` satisfy `T1 < T2 ≤ freezing_point`, and in double precision
`1.-(T-freezing_point)` is `1` at both of them; so for every `pow` the ice
saturation at `T1` is the ice saturation at `T2`, and not strictly greater.
In the same way, with a correctly rounded `pow`, the ice saturation is `1`
both at `-20000` and at `-10000`. -/
theorem degree_of_saturation_ice_double_tie :
    (Double.fin (-2 ^ (-60 : ℤ)) : Double ℝ) < Double.fin (-2 ^ (-61 : ℤ)) ∧
    (∀ (L : Libm (Double ℝ)) (base : Material (Double ℝ)) (n S : Double ℝ),
      (PorousMaterial.init_double base n S).coefficient_alpha < 0 ∧
      Double.fin (-2 ^ (-61 : ℤ)) ≤ (PorousMaterial.init_double base n S).freezing_point ∧
      (PorousMaterial.init_double base n S).degree_of_saturation_ice_double L
          (Double.fin (-2 ^ (-60 : ℤ))) =
        (PorousMaterial.init_double base n S).degree_of_saturation_ice_double L
          (Double.fin (-2 ^ (-61 : ℤ))) ∧
      ¬ ((PorousMaterial.init_double base n S).degree_of_saturation_ice_double L
          (Double.fin (-2 ^ (-61 : ℤ))) <
        (PorousMaterial.init_double base n S).degree_of_saturation_ice_double L
          (Double.fin (-2 ^ (-60 : ℤ))))) ∧
    (Double.fin (-20000) : Double ℝ) < Double.fin (-10000) ∧
    ∀ (base : Material (Double ℝ)) (n S : Double ℝ),
      (PorousMaterial.init_double base n S).degree_of_saturation_ice_double Libm.rounded
          (Double.fin (-20000)) = Double.fin 1 ∧
        (PorousMaterial.init_double base n S).degree_of_saturation_ice_double Libm.rounded
          (Double.fin (-10000)) = Double.fin 1 := by
  have hfp : (0.0 : Double ℝ) = Double.fin 0 := by
    rw [Double.ofScientific_eq]
    norm_num [round_to_double_zero]
  have h1 : (Double.fin (-2 ^ (-60 : ℤ)) : Double ℝ) ≤ Double.fin 0 := by
    rw [Double.fin_le_fin]
    norm_num
  have h2 : (Double.fin (-2 ^ (-61 : ℤ)) : Double ℝ) ≤ Double.fin 0 := by
    rw [Double.fin_le_fin]
    norm_num
  refine ⟨by rw [Double.fin_lt_fin]; norm_num, fun L base n S => ?_,
    by rw [Double.fin_lt_fin]; norm_num,
    fun base n S => degree_of_saturation_ice_double_saturated Libm.rounded base n S _ _
      (Libm.rounded_pow_small base n S).1 (Libm.rounded_pow_small base n S).2.1.1
      (Libm.rounded_pow_small base n S).2.1.2 (Libm.rounded_pow_small base n S).2.2.1
      (Libm.rounded_pow_small base n S).2.2.2.1 (Libm.rounded_pow_small base n S).2.2.2.2⟩
  have heq : (PorousMaterial.init_double base n S).degree_of_saturation_ice_double L
        (Double.fin (-2 ^ (-60 : ℤ))) =
      (PorousMaterial.init_double base n S).degree_of_saturation_ice_double L
        (Double.fin (-2 ^ (-61 : ℤ))) := by
    simp only [PorousMaterial.degree_of_saturation_ice_double, PorousMaterial.init_double, hfp,
      if_pos h1, if_pos h2, Double.one_eq, Double.fin_sub_fin, sub_zero, sub_neg_eq_add,
      round_to_double_neg_small.1, round_to_double_neg_small.2,
      round_to_double_one_add_small.1, round_to_double_one_add_small.2.1]
  refine ⟨?_, ?_, heq, ?_⟩
  · simp only [PorousMaterial.init_double]
    show -Double.fin (round_to_double (5.0 : ℝ)) < 0
    rw [Double.neg_fin, Double.zero_eq, Double.fin_lt_fin, neg_lt_zero]
    exact round_to_double_pos _ (by norm_num)
  · simp only [PorousMaterial.init_double, hfp]
    exact h2
  · rw [heq]
    exact Double.not_lt_self _
/-- The value of the "donazzi" branch in double precision when the two
powers are the finite numbers `a` and `b`, the porosity is `n`, the
saturation is `s`, and `exp` returns `E`. -/
theorem thermal_conductivity_donazzi_double_eq (L : Libm (Double ℝ))
    (m : PorousMaterial (Double ℝ)) (a b n s : ℝ) (E : ℝ → ℝ)
    (ha : L.pow (1 / m.liquid_thermal_conductivity) m.porosity = Double.fin a) (ha0 : 0 < a)
    (hb : L.pow (1 / m.solids_thermal_conductivity) (1 - m.porosity) = Double.fin b)
    (hb0 : 0 < b)
    (hn : m.porosity = Double.fin n)
    (hE : ∀ x, L.exp (Double.fin x) = Double.fin (E x)) (hE0 : ∀ x, 0 < E x) :
    0 < round_to_double (round_to_double (a * b) *
        E (round_to_double (round_to_double (round_to_double 3.08 *
          round_to_double (1 - s)) * n))) ∧
    ({ m with degree_of_saturation := Double.fin s } :
        PorousMaterial (Double ℝ)).thermal_conductivity_double L "donazzi" =
      Except.ok (Double.fin (round_to_double (1 /
        round_to_double (round_to_double (a * b) *
          E (round_to_double (round_to_double (round_to_double 3.08 *
            round_to_double (1 - s)) * n)))))) := by
  have hD : 0 < round_to_double (round_to_double (a * b) *
      E (round_to_double (round_to_double (round_to_double 3.08 *
        round_to_double (1 - s)) * n))) :=
    round_to_double_pos _ (mul_pos (round_to_double_pos _ (mul_pos ha0 hb0)) (hE0 _))
  refine ⟨hD, ?_⟩
  simp only [PorousMaterial.thermal_conductivity_double, if_true]
  rw [ha, hb]
  simp only [hn, Double.ofScientific_eq, Double.one_eq, Double.fin_sub_fin, Double.fin_mul_fin,
    hE]
  rw [Double.fin_div_fin _ _ hD.ne']

/-- C9, as amended: for the relationship "donazzi" the conductivity does not
decrease when the degree of saturation grows.  In exact arithmetic, for
positive liquid and solid conductivities and positive porosity and
`S1 < S2`, the exponential factor at `S2` is at most the factor at `S1` and
the conductivity at `S1` is at most the conductivity at `S2`.  In double
precision the same holds when the two powers of the denominator are finite
and positive, the porosity is not negative, and `exp` is finite, positive and
monotone. -/
theorem thermal_conductivity_donazzi_mono :
    (∀ (m : PorousMaterial ℝ) (S1 S2 : ℝ), 0 < m.liquid_thermal_conductivity →
      0 < m.solids_thermal_conductivity → 0 < m.porosity → S1 < S2 →
      Real.exp (3.08 * (1 - S2) * m.porosity) ≤ Real.exp (3.08 * (1 - S1) * m.porosity) ∧
      ∃ k1 k2 : ℝ,
        ({ m with degree_of_saturation := S1 } : PorousMaterial ℝ).thermal_conductivity
            Libm.real "donazzi" = Except.ok k1 ∧
        ({ m with degree_of_saturation := S2 } : PorousMaterial ℝ).thermal_conductivity
            Libm.real "donazzi" = Except.ok k2 ∧
        k1 ≤ k2) ∧
    (∀ (L : Libm (Double ℝ)) (m : PorousMaterial (Double ℝ)) (a b n S1 S2 : ℝ) (E : ℝ → ℝ),
      L.pow (1 / m.liquid_thermal_conductivity) m.porosity = Double.fin a → 0 < a →
      L.pow (1 / m.solids_thermal_conductivity) (1 - m.porosity) = Double.fin b → 0 < b →
      m.porosity = Double.fin n → 0 ≤ n →
      (∀ x, L.exp (Double.fin x) = Double.fin (E x)) → (∀ x, 0 < E x) →
      (∀ x y, x ≤ y → E x ≤ E y) →
      S1 ≤ S2 →
      ∃ k1 k2 : ℝ,
        ({ m with degree_of_saturation := Double.fin S1 } :
            PorousMaterial (Double ℝ)).thermal_conductivity_double L "donazzi"
          = Except.ok (Double.fin k1) ∧
        ({ m with degree_of_saturation := Double.fin S2 } :
            PorousMaterial (Double ℝ)).thermal_conductivity_double L "donazzi"
          = Except.ok (Double.fin k2) ∧
        k1 ≤ k2) := by
  constructor
  · intro m S1 S2 hkl hks hn hS
    have hexp : Real.exp (3.08 * (1 - S2) * m.porosity)
        ≤ Real.exp (3.08 * (1 - S1) * m.porosity) := by
      apply Real.exp_le_exp.mpr
      have h : 0 < (S2 - S1) * m.porosity := mul_pos (by linarith) hn
      nlinarith
    refine ⟨hexp, _, _, by simp only [PorousMaterial.thermal_conductivity, if_true]; rfl,
      by simp only [PorousMaterial.thermal_conductivity, if_true]; rfl, ?_⟩
    simp only [Libm.real_pow, Libm.real_exp]
    have hA : 0 < (1 / m.liquid_thermal_conductivity) ^ m.porosity :=
      Real.rpow_pos_of_pos (by positivity) _
    have hB : 0 < (1 / m.solids_thermal_conductivity) ^ (1 - m.porosity) :=
      Real.rpow_pos_of_pos (by positivity) _
    have hAB := mul_pos hA hB
    apply one_div_le_one_div_of_le
    · exact mul_pos hAB (Real.exp_pos _)
    · exact mul_le_mul_of_nonneg_left hexp hAB.le
  · intro L m a b n S1 S2 E ha ha0 hb hb0 hn hn0 hE hE0 hEm hS
    obtain ⟨hD1, e1⟩ := thermal_conductivity_donazzi_double_eq L m a b n S1 E ha ha0 hb hb0 hn
      hE hE0
    obtain ⟨hD2, e2⟩ := thermal_conductivity_donazzi_double_eq L m a b n S2 E ha ha0 hb hb0 hn
      hE hE0
    refine ⟨_, _, e1, e2, ?_⟩
    apply round_to_double_mono
    apply one_div_le_one_div_of_le hD2
    apply round_to_double_mono
    apply mul_le_mul_of_nonneg_left _ (round_to_double_pos _ (mul_pos ha0 hb0)).le
    apply hEm
    apply round_to_double_mono
    apply mul_le_mul_of_nonneg_right _ hn0
    apply round_to_double_mono
    apply mul_le_mul_of_nonneg_left _ (round_to_double_nonneg _ (by norm_num))
    apply round_to_double_mono
    linarith

theorem thermal_conductivity_donazzi_mono_witness :
    (∃ k1 k2 : ℝ,
      ({ (PorousMaterial.ofValues 2 3 4 (1 / 2) 0 : PorousMaterial ℝ) with
          degree_of_saturation := 0 } : PorousMaterial ℝ).thermal_conductivity
          Libm.real "donazzi" = Except.ok k1 ∧
      ({ (PorousMaterial.ofValues 2 3 4 (1 / 2) 0 : PorousMaterial ℝ) with
          degree_of_saturation := 1 } : PorousMaterial ℝ).thermal_conductivity
          Libm.real "donazzi" = Except.ok k2 ∧
      k1 ≤ k2) ∧
    ∃ k1 k2 : ℝ,
      ({ (PorousMaterial.ofName_double "quartz_1" 1 0 : PorousMaterial (Double ℝ)) with
          degree_of_saturation := Double.fin 0 } :
          PorousMaterial (Double ℝ)).thermal_conductivity_double Libm.rounded "donazzi"
        = Except.ok (Double.fin k1) ∧
      ({ (PorousMaterial.ofName_double "quartz_1" 1 0 : PorousMaterial (Double ℝ)) with
          degree_of_saturation := Double.fin 1 } :
          PorousMaterial (Double ℝ)).thermal_conductivity_double Libm.rounded "donazzi"
        = Except.ok (Double.fin k2) ∧
      k1 ≤ k2 := by
  obtain ⟨hp0, _, hp1, _⟩ := Libm.rounded_exact_cases
  have hkl : round_to_double (0.57 : ℝ) ≠ 0 := (round_to_double_pos _ (by norm_num)).ne'
  refine ⟨(thermal_conductivity_donazzi_mono.1 (PorousMaterial.ofValues 2 3 4 (1 / 2) 0) 0 1
      (by norm_num [PorousMaterial.ofValues, PorousMaterial.init])
      (by norm_num [PorousMaterial.ofValues, PorousMaterial.init, Material.ofValues])
      (by norm_num [PorousMaterial.ofValues, PorousMaterial.init])
      (by norm_num)).2,
    thermal_conductivity_donazzi_mono.2 Libm.rounded
      (PorousMaterial.ofName_double "quartz_1" 1 0)
      (round_to_double (1 / round_to_double 0.57)) 1 1 0 1
      (fun x => round_to_double (Real.exp x)) ?_ ?_ ?_ one_pos ?_ zero_le_one
      Libm.rounded_exp ?_ ?_ zero_le_one⟩
  · show Libm.rounded.pow (1 / (0.57 : Double ℝ)) 1 = _
    rw [hp1, Double.one_eq, Double.ofScientific_eq, Double.fin_div_fin _ _ hkl]
  · exact round_to_double_pos _ (div_pos one_pos (round_to_double_pos _ (by norm_num)))
  · show Libm.rounded.pow _ ((1 : Double ℝ) - 1) = _
    have h : (1 : Double ℝ) - 1 = 0 := by
      rw [Double.one_eq, Double.zero_eq, Double.fin_sub_fin, sub_self, round_to_double_zero]
    rw [h, hp0, Double.one_eq]
  · exact Double.one_eq
  · intro x
    exact round_to_double_pos _ (Real.exp_pos x)
  · intro x y hxy
    exact round_to_double_mono _ _ (Real.exp_le_exp.mpr hxy)

/-- C9 as stated fails.  For "quartz_1" with porosity `0.4` the liquid and
solid conductivities and the porosity are positive, and `S1 = 0 < S2 =
2 ^ (-60)`; in double precision `1.-degree_of_saturation` is `1` at both
saturations, so for every `pow` and `exp` the conductivity at `S1` is the
conductivity at `S2`, and not strictly less. -/
theorem thermal_conductivity_donazzi_double_tie :
    (0 : Double ℝ) <
      (PorousMaterial.ofName_double "quartz_1" 0.4 0 :
        PorousMaterial (Double ℝ)).liquid_thermal_conductivity ∧
    (0 : Double ℝ) <
      (PorousMaterial.ofName_double "quartz_1" 0.4 0 :
        PorousMaterial (Double ℝ)).solids_thermal_conductivity ∧
    (0 : Double ℝ) <
      (PorousMaterial.ofName_double "quartz_1" 0.4 0 : PorousMaterial (Double ℝ)).porosity ∧
    (0 : Double ℝ) < Double.fin (2 ^ (-60 : ℤ)) ∧
    ∀ L : Libm (Double ℝ), ∃ k : Double ℝ,
      (PorousMaterial.ofName_double "quartz_1" 0.4 0 :
        PorousMaterial (Double ℝ)).thermal_conductivity_double L "donazzi" = Except.ok k ∧
      (PorousMaterial.ofName_double "quartz_1" 0.4 (Double.fin (2 ^ (-60 : ℤ))) :
        PorousMaterial (Double ℝ)).thermal_conductivity_double L "donazzi" = Except.ok k ∧
      ¬ (k < k) := by
  have hm : (Material.ofName_double "quartz_1" : Material (Double ℝ)) =
      ⟨8.79, 2660.00, 2010.00⟩ := by
    simp [Material.ofName_double, Material.material_data_double]
  refine ⟨?_, ?_, ?_, ?_, fun L => ⟨_, rfl, ?_, Double.not_lt_self _⟩⟩
  · exact Double.zero_lt_fin_round _ (by norm_num)
  · simp only [PorousMaterial.ofName_double, PorousMaterial.init_double, hm]
    exact Double.zero_lt_fin_round _ (by norm_num)
  · exact Double.zero_lt_fin_round _ (by norm_num)
  · rw [Double.zero_eq, Double.fin_lt_fin]
    positivity
  · simp only [PorousMaterial.thermal_conductivity_double, PorousMaterial.ofName_double,
      PorousMaterial.init_double, if_true, Double.one_eq, Double.zero_eq, Double.fin_sub_fin,
      sub_zero, round_to_double_one, round_to_double_one_add_small.2.2]

/-- The roundings in the evaluation of the argument of `acos` for porosity
`0.33333333333333337` and saturation `0`. -/
theorem round_to_double_haigh :
    round_to_double (0.33333333333333337 : ℝ) = 6004799503160662 * 2 ^ (-54 : ℤ) ∧
    round_to_double (1 - 6004799503160662 * 2 ^ (-54 : ℤ) : ℝ) =
      6004799503160661 * 2 ^ (-53 : ℤ) ∧
    round_to_double
        (6004799503160662 * 2 ^ (-54 : ℤ) / (6004799503160661 * 2 ^ (-53 : ℤ)) : ℝ) =
      4503599627370497 * 2 ^ (-53 : ℤ) ∧
    round_to_double (2 * (4503599627370497 * 2 ^ (-53 : ℤ)) : ℝ) =
      4503599627370497 * 2 ^ (-52 : ℤ) ∧
    round_to_double (4503599627370497 * 2 ^ (-52 : ℤ) - 1 : ℝ) = 2 ^ (-52 : ℤ) ∧
    round_to_double (2 ^ (-52 : ℤ) / 3 : ℝ) = 6004799503160661 * 2 ^ (-106 : ℤ) ∧
    round_to_double (3 * (6004799503160661 * 2 ^ (-106 : ℤ)) : ℝ) = 2 ^ (-52 : ℤ) ∧
    round_to_double (1 + 2 ^ (-52 : ℤ) : ℝ) = 4503599627370497 * 2 ^ (-52 : ℤ) ∧
    round_to_double (1 + 6004799503160661 * 2 ^ (-106 : ℤ) : ℝ) = 1 ∧
    round_to_double (2 * (4503599627370497 * 2 ^ (-52 : ℤ)) : ℝ) =
      4503599627370497 * 2 ^ (-51 : ℤ) ∧
    round_to_double (4503599627370497 * 2 ^ (-51 : ℤ) : ℝ) =
      4503599627370497 * 2 ^ (-51 : ℤ) ∧
    round_to_double (4503599627370497 * 2 ^ (-51 : ℤ) - 1 : ℝ) = 1 + 2 ^ (-51 : ℤ) ∧
    round_to_double (1 + 2 ^ (-51 : ℤ) : ℝ) = 1 + 2 ^ (-51 : ℤ) := by
  refine ⟨?_, ?_, ?_, ?_, ?_, ?_, ?_, ?_, ?_, ?_, ?_, ?_, ?_⟩
  · exact round_to_double_eq_pos _ _ 6004799503160662 (-54) (by norm_num) (by norm_num)
      (by norm_num) (by norm_num [abs_lt]) (by norm_num)
  · exact round_to_double_eq_pos _ _ 6004799503160661 (-53) (by norm_num) (by norm_num)
      (by norm_num) (by norm_num [abs_lt]) (by norm_num)
  · exact round_to_double_eq_pos _ _ 4503599627370497 (-53) (by norm_num) (by norm_num)
      (by norm_num) (by norm_num [abs_lt]) (by norm_num)
  · exact round_to_double_eq_pos _ _ 4503599627370497 (-52) (by norm_num) (by norm_num)
      (by norm_num) (by norm_num [abs_lt]) (by norm_num)
  · exact round_to_double_eq_pos _ _ 4503599627370496 (-104) (by norm_num) (by norm_num)
      (by norm_num) (by norm_num [abs_lt]) (by norm_num)
  · exact round_to_double_eq_pos _ _ 6004799503160661 (-106) (by norm_num) (by norm_num)
      (by norm_num) (by norm_num [abs_lt]) (by norm_num)
  · have h := round_to_double_tie (3 * (6004799503160661 * 2 ^ (-106 : ℤ)) : ℝ)
      9007199254740991 (-105)
      (by rw [abs_of_pos (by norm_num)]; norm_num)
      (by rw [abs_of_pos (by norm_num)]; norm_num)
      (by norm_num)
    rw [h]
    norm_num
  · exact round_to_double_eq_pos _ _ 4503599627370497 (-52) (by norm_num) (by norm_num)
      (by norm_num) (by norm_num [abs_lt]) (by norm_num)
  · exact round_to_double_eq_pos _ _ 4503599627370496 (-52) (by norm_num) (by norm_num)
      (by norm_num) (by norm_num [abs_lt]) (by norm_num)
  · exact round_to_double_eq_pos _ _ 4503599627370497 (-51) (by norm_num) (by norm_num)
      (by norm_num) (by norm_num [abs_lt]) (by norm_num)
  · exact round_to_double_eq_pos _ _ 4503599627370497 (-51) (by norm_num) (by norm_num)
      (by norm_num) (by norm_num [abs_lt]) (by norm_num)
  · exact round_to_double_eq_pos _ _ 4503599627370498 (-52) (by norm_num) (by norm_num)
      (by norm_num) (by norm_num [abs_lt]) (by norm_num)
  · exact round_to_double_eq_pos _ _ 4503599627370498 (-52) (by norm_num) (by norm_num)
      (by norm_num) (by norm_num [abs_lt]) (by norm_num)

/-- Roundings met in the "haigh" branch: `-1` is a `double`, the `double`
nearest to `1/3` is `6004799503160661 * 2 ^ (-54)`, three times that rounds
to `1`, and `1` plus that rounds to `6004799503160661 * 2 ^ (-52)`. -/
theorem round_to_double_third :
    round_to_double (-1 : ℝ) = -1 ∧
    round_to_double (1 / 3 : ℝ) = 6004799503160661 * 2 ^ (-54 : ℤ) ∧
    round_to_double (3 * (6004799503160661 * 2 ^ (-54 : ℤ)) : ℝ) = 1 ∧
    round_to_double (1 + 6004799503160661 * 2 ^ (-54 : ℤ) : ℝ) =
      6004799503160661 * 2 ^ (-52 : ℤ) := by
  refine ⟨?_, ?_, ?_, ?_⟩
  · rw [round_to_double_neg, round_to_double_one]
  · exact round_to_double_eq_pos _ _ 6004799503160661 (-54) (by norm_num) (by norm_num)
      (by norm_num) (by norm_num [abs_lt]) (by norm_num)
  · have h := round_to_double_tie (3 * (6004799503160661 * 2 ^ (-54 : ℤ)) : ℝ)
      9007199254740991 (-53)
      (by rw [abs_of_pos (by norm_num)]; norm_num)
      (by rw [abs_of_pos (by norm_num)]; norm_num)
      (by norm_num)
    rw [h]
    norm_num
  · exact round_to_double_eq_pos _ _ 6004799503160661 (-52) (by norm_num) (by norm_num)
      (by norm_num) (by norm_num [abs_lt]) (by norm_num)

/-- In double precision the argument of `acos` in the "haigh" branch is at
least `-1` when the porosity is in `[0, 1)`, the saturation is at most `1`
and `pow(1.+E, 3.)` is a positive `double`. -/
theorem haigh_acos_argument_double_ge (L : Libm (Double ℝ)) (m : PorousMaterial (Double ℝ))
    (n s P : ℝ) (hn : m.porosity = Double.fin n) (hn0 : 0 ≤ n) (hn1 : n < 1)
    (hs : m.degree_of_saturation = Double.fin s) (hs1 : s ≤ 1)
    (hP : L.pow (1 + (2 * (m.porosity / (1 - m.porosity)) - 1) / 3) 3 = Double.fin P)
    (hP0 : 0 < P) (hPr : round_to_double P = P) :
    ∃ q : ℝ, m.haigh_acos_argument_double L = Double.fin q ∧ -1 ≤ q := by
  obtain ⟨rm1, r3, r3e, _⟩ := round_to_double_third
  have hd1 : 0 < round_to_double (1 - n) := round_to_double_pos _ (by linarith)
  have hvr : 0 ≤ round_to_double (n / round_to_double (1 - n)) :=
    round_to_double_nonneg _ (div_nonneg hn0 hd1.le)
  set vr := round_to_double (n / round_to_double (1 - n)) with hvr_def
  have ht1 : 0 ≤ round_to_double (2 * vr) := round_to_double_nonneg _ (by linarith)
  have ht2 : -1 ≤ round_to_double (round_to_double (2 * vr) - 1) := by
    have := round_to_double_mono (-1) (round_to_double (2 * vr) - 1) (by linarith)
    rwa [rm1] at this
  have hE : -(6004799503160661 * 2 ^ (-54 : ℤ)) ≤
      round_to_double (round_to_double (round_to_double (2 * vr) - 1) / 3) := by
    have := round_to_double_mono (-(1 / 3)) (round_to_double (round_to_double (2 * vr) - 1) / 3)
      (by linarith)
    rwa [round_to_double_neg, r3] at this
  set E := round_to_double (round_to_double (round_to_double (2 * vr) - 1) / 3) with hE_def
  have ht3 : -1 ≤ round_to_double (3 * E) := by
    have := round_to_double_mono (-(3 * (6004799503160661 * 2 ^ (-54 : ℤ)))) (3 * E)
      (by linarith)
    rwa [round_to_double_neg, r3e] at this
  have ht4 : 0 ≤ round_to_double (1 + round_to_double (3 * E)) :=
    round_to_double_nonneg _ (by linarith)
  have ht5 : 0 ≤ round_to_double (2 * round_to_double (1 + round_to_double (3 * E))) :=
    round_to_double_nonneg _ (by linarith)
  have ht6 : 0 ≤ round_to_double (1 - s) := round_to_double_nonneg _ (by linarith)
  have hA : 0 ≤ round_to_double
      (round_to_double (2 * round_to_double (1 + round_to_double (3 * E))) *
        round_to_double (1 - s)) :=
    round_to_double_nonneg _ (mul_nonneg ht5 ht6)
  set A := round_to_double
      (round_to_double (2 * round_to_double (1 + round_to_double (3 * E))) *
        round_to_double (1 - s)) with hA_def
  have hnum : -P ≤ round_to_double (A - P) := by
    have := round_to_double_mono (-P) (A - P) (by linarith)
    rwa [round_to_double_neg, hPr] at this
  have hq : -1 ≤ round_to_double (round_to_double (A - P) / P) := by
    have h1 : -1 ≤ round_to_double (A - P) / P := by
      rw [le_div_iff₀ hP0]
      linarith
    have := round_to_double_mono (-1) _ h1
    rwa [rm1] at this
  refine ⟨round_to_double (round_to_double (A - P) / P), ?_, hq⟩
  simp only [PorousMaterial.haigh_acos_argument_double]
  rw [hP]
  simp only [hn, hs, Double.one_eq, Double.two_eq, Double.three_eq, Double.fin_sub_fin,
    Double.fin_add_fin, Double.fin_mul_fin, Double.fin_div_fin _ _ hd1.ne',
    Double.fin_div_fin _ _ (by norm_num : (3 : ℝ) ≠ 0), Double.fin_div_fin _ _ hP0.ne']

/-- C25, as amended: in the "haigh" relationship the argument of `acos` is in
`[-1, 1]` in exact arithmetic, and at least `-1` in double precision.  The
branch returns `haigh_of_acos` of `acos (haigh_acos_argument)`.  In exact
arithmetic, for porosity in `[0, 1)` and saturation in `[0, 1]`, that argument
lies between `-1` and `1`, and it is `1` only for void ratio `1/2` and
saturation `0`.  In double precision, for porosity in `[0, 1)` and saturation
at most `1`, the argument is at least `-1` whenever `pow(1.+E, 3.)` is a
positive `double`. -/
theorem haigh_acos_argument_mem :
    (∀ m : PorousMaterial ℝ, 0 ≤ m.porosity → m.porosity < 1 →
      0 ≤ m.degree_of_saturation → m.degree_of_saturation ≤ 1 →
      m.thermal_conductivity Libm.real "haigh" =
        Except.ok (m.haigh_of_acos Libm.real (Real.arccos (m.haigh_acos_argument Libm.real))) ∧
      -1 ≤ m.haigh_acos_argument Libm.real ∧
      m.haigh_acos_argument Libm.real ≤ 1 ∧
      (m.haigh_acos_argument Libm.real = 1 ↔
        m.porosity / (1 - m.porosity) = 1 / 2 ∧ m.degree_of_saturation = 0)) ∧
    (∀ (L : Libm (Double ℝ)) (m : PorousMaterial (Double ℝ)) (n s P : ℝ),
      m.porosity = Double.fin n → 0 ≤ n → n < 1 →
      m.degree_of_saturation = Double.fin s → s ≤ 1 →
      L.pow (1 + (2 * (m.porosity / (1 - m.porosity)) - 1) / 3) 3 = Double.fin P →
      0 < P → round_to_double P = P →
      m.thermal_conductivity_double L "haigh" =
        Except.ok (m.haigh_of_acos_double L (L.acos (m.haigh_acos_argument_double L))) ∧
      ∃ q : ℝ, m.haigh_acos_argument_double L = Double.fin q ∧ -1 ≤ q) := by
  constructor
  · intro m hn0 hn1 hS0 hS1
    have he : 0 ≤ m.porosity / (1 - m.porosity) := div_nonneg hn0 (by linarith)
    have h3 : ∀ y : ℝ, y ^ (3 : ℝ) = y ^ 3 := fun y => by
      rw [show (3 : ℝ) = ((3 : ℕ) : ℝ) by norm_num, Real.rpow_natCast]
    refine ⟨?_, ?_⟩
    · simp [PorousMaterial.thermal_conductivity, PorousMaterial.haigh_of_acos,
        PorousMaterial.haigh_acos_argument, Libm.real]
    · simp only [PorousMaterial.haigh_acos_argument, Libm.real_pow, h3]
      generalize m.porosity / (1 - m.porosity) = e at he
      generalize m.degree_of_saturation = S at hS0 hS1
      have hD : (0 : ℝ) < (1 + (2 * e - 1) / 3) ^ 3 := by
        have : (0 : ℝ) < 1 + (2 * e - 1) / 3 := by linarith
        positivity
      have hDe : (1 + (2 * e - 1) / 3) ^ 3 = 8 * (1 + e) ^ 3 / 27 := by ring
      have heS : 0 ≤ e * S := mul_nonneg he hS0
      have heS1 : 0 ≤ e * (1 - S) := mul_nonneg he (by linarith)
      have hsq : 0 ≤ (2 * e - 1) ^ 2 * (e + 4) := mul_nonneg (sq_nonneg _) (by linarith)
      refine ⟨?_, ?_, ?_⟩
      · rw [le_div_iff₀ hD]
        nlinarith
      · rw [div_le_one hD]
        nlinarith
      · rw [div_eq_one_iff_eq hD.ne']
        constructor
        · intro h
          have hz : 27 * (e * S) + (2 * e - 1) ^ 2 * (e + 4) = 0 := by nlinarith
          have h1 : (2 * e - 1) ^ 2 * (e + 4) = 0 := by linarith
          have h2 : e * S = 0 := by linarith
          have h4 : (2 * e - 1) ^ 2 = 0 := by
            rcases mul_eq_zero.mp h1 with h | h
            · exact h
            · linarith
          have h5 : e = 1 / 2 := by
            have := pow_eq_zero_iff (two_ne_zero) |>.mp h4
            linarith
          refine ⟨h5, ?_⟩
          rw [h5] at h2
          linarith
        · rintro ⟨h1, h2⟩
          rw [h1, h2]
          norm_num
  · intro L m n s P hn hn0 hn1 hs hs1 hP hP0 hPr
    refine ⟨?_, haigh_acos_argument_double_ge L m n s P hn hn0 hn1 hs hs1 hP hP0 hPr⟩
    simp only [PorousMaterial.thermal_conductivity_double, PorousMaterial.haigh_of_acos_double,
      PorousMaterial.haigh_acos_argument_double]
    rfl

theorem haigh_acos_argument_mem_witness :
    (-1 ≤ (PorousMaterial.ofValues 1 2 3 (1 / 3) 0 : PorousMaterial ℝ).haigh_acos_argument
        Libm.real ∧
      (PorousMaterial.ofValues 1 2 3 (1 / 3) 0 : PorousMaterial ℝ).haigh_acos_argument
        Libm.real ≤ 1) ∧
    ∃ q : ℝ,
      (PorousMaterial.ofName_double "quartz_1" 0.5 0 :
        PorousMaterial (Double ℝ)).haigh_acos_argument_double Libm.rounded = Double.fin q ∧
      -1 ≤ q := by
  have hhalf : round_to_double (0.5 : ℝ) = 0.5 :=
    round_to_double_eq_pos _ _ (2 ^ 52) (-53) (by norm_num) (by norm_num) (by norm_num)
      (by norm_num [abs_lt]) (by norm_num)
  have htwo : round_to_double (2 : ℝ) = 2 :=
    round_to_double_eq_pos _ _ (2 ^ 52) (-51) (by norm_num) (by norm_num) (by norm_num)
      (by norm_num [abs_lt]) (by norm_num)
  obtain ⟨_, r3, _, r13⟩ := round_to_double_third
  have hn : (PorousMaterial.ofName_double "quartz_1" 0.5 0 :
      PorousMaterial (Double ℝ)).porosity = Double.fin 0.5 := by
    show (0.5 : Double ℝ) = _
    rw [Double.ofScientific_eq, hhalf]
  have hs : (PorousMaterial.ofName_double "quartz_1" 0.5 0 :
      PorousMaterial (Double ℝ)).degree_of_saturation = Double.fin 0 := Double.zero_eq
  have hbase : (1 : Double ℝ) +
      (2 * ((PorousMaterial.ofName_double "quartz_1" 0.5 0 : PorousMaterial (Double ℝ)).porosity /
        (1 - (PorousMaterial.ofName_double "quartz_1" 0.5 0 :
          PorousMaterial (Double ℝ)).porosity)) - 1) / 3 =
      Double.fin (6004799503160661 * 2 ^ (-52 : ℤ)) := by
    have e1 : round_to_double ((1 : ℝ) - 0.5) = 0.5 := by
      rw [show (1 : ℝ) - 0.5 = 0.5 by norm_num, hhalf]
    have e2 : round_to_double ((0.5 : ℝ) / 0.5) = 1 := by
      rw [show (0.5 : ℝ) / 0.5 = 1 by norm_num, round_to_double_one]
    have e3 : round_to_double ((2 : ℝ) * 1) = 2 := by
      rw [mul_one, htwo]
    have e4 : round_to_double ((2 : ℝ) - 1) = 1 := by
      rw [show (2 : ℝ) - 1 = 1 by norm_num, round_to_double_one]
    rw [hn, Double.one_eq, Double.two_eq, Double.three_eq, Double.fin_sub_fin, e1,
      Double.fin_div_fin _ _ (by norm_num : (0.5 : ℝ) ≠ 0), e2, Double.fin_mul_fin, e3,
      Double.fin_sub_fin, e4, Double.fin_div_fin _ _ (by norm_num : (3 : ℝ) ≠ 0), r3,
      Double.fin_add_fin, r13]
  have hP : Libm.rounded.pow
      (1 + (2 * ((PorousMaterial.ofName_double "quartz_1" 0.5 0 :
        PorousMaterial (Double ℝ)).porosity /
        (1 - (PorousMaterial.ofName_double "quartz_1" 0.5 0 :
          PorousMaterial (Double ℝ)).porosity)) - 1) / 3) 3 =
      Double.fin (round_to_double ((6004799503160661 * 2 ^ (-52 : ℤ) : ℝ) ^ (3 : ℝ))) := by
    rw [hbase, Double.three_eq]
    exact Libm.rounded_pow _ _ (by norm_num) (by norm_num) (by norm_num) (by norm_num)
  have h := haigh_acos_argument_mem.1 (PorousMaterial.ofValues 1 2 3 (1 / 3) 0)
    (by norm_num [PorousMaterial.ofValues, PorousMaterial.init])
    (by norm_num [PorousMaterial.ofValues, PorousMaterial.init])
    (by norm_num [PorousMaterial.ofValues, PorousMaterial.init])
    (by norm_num [PorousMaterial.ofValues, PorousMaterial.init])
  exact ⟨⟨h.2.1, h.2.2.1⟩,
    (haigh_acos_argument_mem.2 Libm.rounded (PorousMaterial.ofName_double "quartz_1" 0.5 0)
      0.5 0 _ hn (by norm_num) (by norm_num) hs (by norm_num) hP
      (round_to_double_pos _ (Real.rpow_pos_of_pos (by norm_num) _))
      (round_to_double_idem _)).2⟩

/-- C25 as stated fails.  For porosity `0.33333333333333337` (in `[0, 1)`)
and saturation `0`, the argument that the "haigh" branch passes to `acos` is,
in double precision, `1 + 2 ^ (-51)`, which is above `1`. -/
theorem haigh_acos_argument_double_above_one :
    (0 : Double ℝ) ≤ (0.33333333333333337 : Double ℝ) ∧
    (0.33333333333333337 : Double ℝ) < 1 ∧
    (∃ L : Libm (Double ℝ), L.exact_cases) ∧
    ∀ L : Libm (Double ℝ), L.exact_cases →
      (PorousMaterial.ofName_double "quartz_1" 0.33333333333333337 0 :
          PorousMaterial (Double ℝ)).thermal_conductivity_double L "haigh" =
        Except.ok
          ((PorousMaterial.ofName_double "quartz_1" 0.33333333333333337 0 :
            PorousMaterial (Double ℝ)).haigh_of_acos_double L
            (L.acos ((PorousMaterial.ofName_double "quartz_1" 0.33333333333333337 0 :
              PorousMaterial (Double ℝ)).haigh_acos_argument_double L))) ∧
      (PorousMaterial.ofName_double "quartz_1" 0.33333333333333337 0 :
          PorousMaterial (Double ℝ)).haigh_acos_argument_double L =
        Double.fin (1 + 2 ^ (-51 : ℤ)) ∧
      (1 : Double ℝ) <
        (PorousMaterial.ofName_double "quartz_1" 0.33333333333333337 0 :
          PorousMaterial (Double ℝ)).haigh_acos_argument_double L := by
  have hn : (0.33333333333333337 : Double ℝ) =
      Double.fin (6004799503160662 * 2 ^ (-54 : ℤ)) := by
    rw [Double.ofScientific_eq]
    exact congrArg Double.fin round_to_double_haigh.1
  have harg : ∀ L : Libm (Double ℝ), L.exact_cases →
      (PorousMaterial.ofName_double "quartz_1" 0.33333333333333337 0 :
          PorousMaterial (Double ℝ)).haigh_acos_argument_double L =
        Double.fin (1 + 2 ^ (-51 : ℤ)) := by
    intro L hL
    obtain ⟨_, hp1, _, _⟩ := hL
    have hp1' : ∀ y, L.pow (Double.fin 1) y = Double.fin 1 := by
      intro y
      have := hp1 y
      rwa [Double.one_eq] at this
    obtain ⟨_, r1, r2, r3, r4, r5, r6, r7, r8, r9, r10, r11, r12⟩ := round_to_double_haigh
    simp only [PorousMaterial.haigh_acos_argument_double, PorousMaterial.ofName_double,
      PorousMaterial.init_double, hn, Double.one_eq, Double.two_eq, Double.three_eq,
      Double.zero_eq, Double.fin_sub_fin, Double.fin_add_fin, Double.fin_mul_fin,
      Double.fin_div_fin _ _ (by norm_num : (6004799503160661 * 2 ^ (-53 : ℤ) : ℝ) ≠ 0),
      Double.fin_div_fin _ _ (by norm_num : (3 : ℝ) ≠ 0),
      Double.fin_div_fin _ _ (by norm_num : (1 : ℝ) ≠ 0),
      r1, r2, r3, r4, r5, r6, r7, r8, r9, r10, r11, r12, hp1', sub_zero, round_to_double_one,
      mul_one, div_one]
  refine ⟨?_, ?_, ⟨Libm.rounded, Libm.rounded_exact_cases⟩, fun L hL => ⟨?_, harg L hL, ?_⟩⟩
  · rw [hn, Double.zero_eq, Double.fin_le_fin]
    norm_num
  · rw [hn, Double.one_eq, Double.fin_lt_fin]
    norm_num
  · simp only [PorousMaterial.thermal_conductivity_double, PorousMaterial.haigh_of_acos_double,
      PorousMaterial.haigh_acos_argument_double]
    rfl
  · rw [harg L hL, Double.one_eq, Double.fin_lt_fin]
    norm_num

/-! ### Double precision: `material_data` -/

/-- What `material_data_double` returns once the layer is found and the
relationship is known. -/
theorem material_data_double_of_layer {V S : Type} (L : Libm (Double ℝ))
    (fe : FiniteElements (Double ℝ) V S) (hp : Heat_Pipe (Double ℝ) V S)
    (x T d : Double ℝ) (i : Fin 5) (k : Double ℝ)
    (hi : Heat_Pipe.layer_number_double hp.parameters x = Except.ok i)
    (hk : (hp.layer_material_double i).thermal_conductivity_double L (hp.layer_relationship i)
      = Except.ok k) :
    hp.material_data_double L fe x T d =
      if k < 0 ∨ (hp.layer_material_double i).volumetric_heat_capacity_double L T < 0 then
        Except.error (-1)
      else
        Except.ok
          { thermal_conductivity := k
            total_volumetric_heat_capacity :=
              (hp.layer_material_double i).volumetric_heat_capacity_double L T
            thermal_energy :=
              d * (hp.layer_material_double i).thermal_energy_double L
                (hp.theta_temperature * fe.point_value hp.solution x +
                  (1 - hp.theta_temperature) * fe.point_value hp.old_solution x)
            ice_saturation :=
              (hp.layer_material_double i).degree_of_saturation_ice_double L T } := by
  simp only [Heat_Pipe.layer_material_double, Heat_Pipe.layer_relationship] at hk
  simp only [Heat_Pipe.material_data_double, hi, hk, Heat_Pipe.layer_material_double]

/-- With a solid conductivity `0` the "haigh" branch divides the liquid and
the gas conductivity by zero, subtracts the two infinities, and returns NaN,
whatever the functions of `<math.h>` return. -/
theorem thermal_conductivity_double_haigh_nan (L : Libm (Double ℝ)) (n S : Double ℝ) :
    (PorousMaterial.ofName_double "sand" n S :
      PorousMaterial (Double ℝ)).thermal_conductivity_double L "haigh" =
        Except.ok Double.nan := by
  have hm : (Material.ofName_double "sand" : Material (Double ℝ)) = ⟨0, 0, 0⟩ := by
    simp [Material.ofName_double, Material.material_data_double]
  have hw : (0.57 : Double ℝ) / 0 = Double.pinf := by
    rw [Double.ofScientific_eq, Double.zero_eq]
    exact Double.fin_div_zero _ (round_to_double_pos _ (by norm_num))
  have ha : (0.025 : Double ℝ) / 0 = Double.pinf := by
    rw [Double.ofScientific_eq, Double.zero_eq]
    exact Double.fin_div_zero _ (round_to_double_pos _ (by norm_num))
  simp only [PorousMaterial.thermal_conductivity_double, PorousMaterial.ofName_double,
    PorousMaterial.init_double, hm, hw, ha, Double.pinf_sub_pinf, Double.nan_mul,
    Double.nan_sub, Double.mul_nan, Double.add_nan]
  simp

/-- The layer, the conductivity and the heat capacity that
`material_data_double(-0.5, 25, 1, ...)` computes on the object built from
`haigh_layers`. -/
theorem haigh_layers_coefficients (L : Libm (Double ℝ)) :
    Heat_Pipe.layer_number_double
      (Heat_Pipe.init_double (FiniteElements.scalar_double [] Except.ok)
        (AllParameters.haigh_layers : AllParameters (Double ℝ)) []).parameters (-0.5)
      = Except.ok 0 ∧
    ((Heat_Pipe.init_double (FiniteElements.scalar_double [] Except.ok)
      (AllParameters.haigh_layers : AllParameters (Double ℝ)) []).layer_material_double 0
        ).thermal_conductivity_double L
        ((Heat_Pipe.init_double (FiniteElements.scalar_double [] Except.ok)
          (AllParameters.haigh_layers : AllParameters (Double ℝ)) []).layer_relationship 0)
      = Except.ok Double.nan ∧
    ((Heat_Pipe.init_double (FiniteElements.scalar_double [] Except.ok)
      (AllParameters.haigh_layers : AllParameters (Double ℝ)) []).layer_material_double 0
        ).volumetric_heat_capacity_double L 25 = Double.fin 0 := by
  have hm : (Material.ofName_double "sand" : Material (Double ℝ)) = ⟨0, 0, 0⟩ := by
    simp [Material.ofName_double, Material.material_data_double]
  have h25 : ¬ ((25 : Double ℝ) ≤ 0.0) := by
    show ¬ (Double.fin (round_to_double ((25 : ℕ) : ℝ)) ≤ (0.0 : Double ℝ))
    rw [Double.ofScientific_eq, Double.fin_le_fin, not_le]
    have h0 : round_to_double (0.0 : ℝ) = 0 := by norm_num [round_to_double_zero]
    rw [h0]
    exact round_to_double_pos _ (by norm_num)
  have hhalf : round_to_double (0.5 : ℝ) = 0.5 :=
    round_to_double_eq_pos _ _ (2 ^ 52) (-53) (by norm_num) (by norm_num) (by norm_num)
      (by norm_num [abs_lt]) (by norm_num)
  have hneg : round_to_double (-1 : ℝ) = -1 := by
    have h := round_to_double_eq (-1 : ℝ) (-2 ^ 52) (-52)
      (by rw [abs_neg, abs_one]; norm_num) (by rw [abs_neg, abs_one]; norm_num) (by norm_num)
    rw [h]
    norm_num
  refine ⟨?_, ?_, ?_⟩
  · have hc : (-0.5 : Double ℝ) > -1 * (0 + 1) := by
      rw [Double.ofScientific_eq, Double.zero_eq, Double.one_eq, Double.neg_fin, Double.neg_fin,
        Double.fin_add_fin, Double.fin_mul_fin, hhalf]
      show (Double.fin _ : Double ℝ) < Double.fin _
      rw [Double.fin_lt_fin]
      norm_num [round_to_double_one, hneg]
    simp only [Heat_Pipe.layer_number_double, Heat_Pipe.init_double, AllParameters.haigh_layers,
      if_pos hc]
  · exact thermal_conductivity_double_haigh_nan L _ _
  · simp only [Heat_Pipe.layer_material_double, Heat_Pipe.init_double,
      AllParameters.haigh_layers, PorousMaterial.ofName_double, PorousMaterial.init_double, hm,
      PorousMaterial.volumetric_heat_capacity_double,
      PorousMaterial.degree_of_saturation_ice_double,
      PorousMaterial.degree_of_saturation_ice_derivative_double, if_neg h25]
    have hT : (25 : Double ℝ) = Double.fin (round_to_double ((25 : ℕ) : ℝ)) := rfl
    simp only [hT, Double.ofScientific_eq, Double.zero_eq, Double.one_eq, Double.fin_sub_fin,
      Double.fin_mul_fin, Double.fin_add_fin, mul_zero, zero_mul, sub_zero, add_zero,
      round_to_double_zero]

/-- C15, as amended: `material_data` never returns a negative coefficient.
In double precision, whenever it returns, neither the thermal conductivity
nor the volumetric heat capacity it hands back is `< 0`; and whenever the
conductivity computed for the layer or the heat capacity computed for the
layer is `< 0`, it throws `-1`.  A coefficient that is NaN is not `< 0`. -/
theorem material_data_double_not_negative {V S : Type} (L : Libm (Double ℝ))
    (fe : FiniteElements (Double ℝ) V S) (hp : Heat_Pipe (Double ℝ) V S) (x T d : Double ℝ) :
    (∀ out, hp.material_data_double L fe x T d = Except.ok out →
      ¬ (out.thermal_conductivity < 0) ∧ ¬ (out.total_volumetric_heat_capacity < 0)) ∧
    (∀ i k, Heat_Pipe.layer_number_double hp.parameters x = Except.ok i →
      (hp.layer_material_double i).thermal_conductivity_double L (hp.layer_relationship i)
        = Except.ok k →
      (k < 0 ∨ (hp.layer_material_double i).volumetric_heat_capacity_double L T < 0) →
      hp.material_data_double L fe x T d = Except.error (-1)) ∧
    ∀ a : Double ℝ, ¬ (Double.nan < a) := by
  refine ⟨?_, ?_, Double.not_nan_lt⟩
  · intro out hout
    cases hi : Heat_Pipe.layer_number_double hp.parameters x with
    | error e => simp [Heat_Pipe.material_data_double, hi] at hout
    | ok i =>
      cases hk : (hp.layer_material_double i).thermal_conductivity_double L
          (hp.layer_relationship i) with
      | error e =>
        simp only [Heat_Pipe.layer_material_double, Heat_Pipe.layer_relationship] at hk
        simp [Heat_Pipe.material_data_double, hi, hk] at hout
      | ok k =>
        rw [material_data_double_of_layer L fe hp x T d i k hi hk] at hout
        split_ifs at hout with hneg
        rw [Except.ok.injEq] at hout
        subst hout
        push_neg at hneg
        exact hneg
  · intro i k hi hk hneg
    rw [material_data_double_of_layer L fe hp x T d i k hi hk, if_pos hneg]

/-- The call `material_data(-0.5, 25, 1, ...)` on the object built from
`haigh_layers` returns, with a NaN conductivity and the heat capacity `0`. -/
theorem material_data_double_haigh_layers (L : Libm (Double ℝ)) :
    ∃ out : MaterialData (Double ℝ),
      (Heat_Pipe.init_double (FiniteElements.scalar_double [] Except.ok)
        (AllParameters.haigh_layers : AllParameters (Double ℝ)) []).material_data_double L
        (FiniteElements.scalar_double [] Except.ok) (-0.5) 25 1 = Except.ok out ∧
      out.thermal_conductivity = Double.nan ∧
      out.total_volumetric_heat_capacity = Double.fin 0 := by
  obtain ⟨hi, hk, hC⟩ := haigh_layers_coefficients L
  rw [material_data_double_of_layer L _ _ _ _ _ 0 Double.nan hi hk, hC]
  have hneg : ¬ ((Double.nan : Double ℝ) < 0 ∨ (Double.fin 0 : Double ℝ) < 0) := by
    rw [Double.zero_eq, Double.fin_lt_fin]
    rintro (h | h)
    · exact Double.not_nan_lt _ h
    · exact lt_irrefl _ h
  rw [if_neg hneg]
  exact ⟨_, rfl, rfl, rfl⟩

/-- C15 as stated fails.  With layer 0 made of the unknown material "sand"
(solid conductivity `0`) and the relationship "haigh", the computed thermal
conductivity is NaN and the computed heat capacity is `0`; neither is `< 0`,
so `material_data(-0.5, 25, 1, ...)` returns, and the conductivity it hands
back is NaN, which is not `≥ 0`.  This holds whatever the functions of
`<math.h>` return. -/
theorem material_data_double_returns_nan :
    Heat_Pipe.layer_number_double
      (Heat_Pipe.init_double (FiniteElements.scalar_double [] Except.ok)
        (AllParameters.haigh_layers : AllParameters (Double ℝ)) []).parameters (-0.5)
      = Except.ok 0 ∧
    ∀ L : Libm (Double ℝ), ∃ out : MaterialData (Double ℝ),
      (Heat_Pipe.init_double (FiniteElements.scalar_double [] Except.ok)
        (AllParameters.haigh_layers : AllParameters (Double ℝ)) []).material_data_double L
        (FiniteElements.scalar_double [] Except.ok) (-0.5) 25 1 = Except.ok out ∧
      out.thermal_conductivity = Double.nan ∧
      ¬ ((0 : Double ℝ) ≤ out.thermal_conductivity) := by
  refine ⟨(haigh_layers_coefficients Libm.rounded).1, fun L => ?_⟩
  obtain ⟨out, hout, hk, _⟩ := material_data_double_haigh_layers L
  refine ⟨out, hout, hk, ?_⟩
  rw [hk, Double.zero_eq]
  exact fun h => h

theorem material_data_double_not_negative_witness :
    ∃ out : MaterialData (Double ℝ),
      (Heat_Pipe.init_double (FiniteElements.scalar_double [] Except.ok)
        (AllParameters.haigh_layers : AllParameters (Double ℝ)) []).material_data_double
        Libm.rounded (FiniteElements.scalar_double [] Except.ok) (-0.5) 25 1 = Except.ok out ∧
      ¬ (out.thermal_conductivity < 0) ∧ ¬ (out.total_volumetric_heat_capacity < 0) := by
  obtain ⟨out, hout, _⟩ := material_data_double_haigh_layers Libm.rounded
  exact ⟨out, hout, (material_data_double_not_negative _ _ _ _ _ _).1 out hout⟩

end CompositeRegion
